import Mathlib
open scoped Matrix

/-!
Verification development for the Perceval repository's Shor-implementation
notebook (`src/docs/source/notebooks/Shor Implementation.ipynb`) and the
linear-optical Fock-state amplitude simulator specified in `spec.md`.

The notebook's own code (the path-encoding helpers `toFockState` and
`toQubitState`, the 12-mode circuit description, the matrix the notebook
prints for the composed circuit unitary `circ.U`) is translated directly
from the source.  The simulation core (`ModeNetwork`, `FockStateSimulator`)
lives in the Perceval library, whose code is not part of the given sources,
so it is modelled from the spec.

All circuit amplitudes are evaluated exactly: every component matrix of the
notebook circuit, scaled by 6, has entries in `Z[i, sqrt 2, sqrt 3]`; such
numbers are represented by the type `KP` below (16 natural-number
coordinates: a positive and a negative part for each of the 8 basis
elements `1, sqrt 2, sqrt 3, sqrt 6, i, i sqrt 2, i sqrt 3, i sqrt 6`), and
transported to `Complex` through the evaluation map `KPC`.
-/

/-- An element of `Z[i, sqrt 2, sqrt 3]` in split-sign representation:
coordinate `c` of the value is `p_c - n_c` over the basis
`1, sqrt 2, sqrt 3, sqrt 6, i, i sqrt 2, i sqrt 3, i sqrt 6` (indices 0-7).
All 16 components are natural numbers, so that kernel evaluation stays in
GMP-accelerated `Nat` arithmetic; the representation is not canonical
(`normP` canonicalizes). -/
@[ext] structure KP where
  p0 : ℕ
  n0 : ℕ
  p1 : ℕ
  n1 : ℕ
  p2 : ℕ
  n2 : ℕ
  p3 : ℕ
  n3 : ℕ
  p4 : ℕ
  n4 : ℕ
  p5 : ℕ
  n5 : ℕ
  p6 : ℕ
  n6 : ℕ
  p7 : ℕ
  n7 : ℕ
deriving DecidableEq, Repr

def kzeroP : KP := ⟨0,0,0,0,0,0,0,0,0,0,0,0,0,0,0,0⟩

def koneP : KP := ⟨1,0,0,0,0,0,0,0,0,0,0,0,0,0,0,0⟩

def KP.add (x y : KP) : KP :=
  ⟨x.p0+y.p0, x.n0+y.n0, x.p1+y.p1, x.n1+y.n1, x.p2+y.p2, x.n2+y.n2,
   x.p3+y.p3, x.n3+y.n3, x.p4+y.p4, x.n4+y.n4, x.p5+y.p5, x.n5+y.n5,
   x.p6+y.p6, x.n6+y.n6, x.p7+y.p7, x.n7+y.n7⟩

/-- Multiplication of split-sign `Z[i, sqrt 2, sqrt 3]` elements: the
complex product combined with `sqrt 2 * sqrt 2 = 2`,
`sqrt 3 * sqrt 3 = 3`, `sqrt 2 * sqrt 3 = sqrt 6`, each signed monomial
routed to the positive or negative slot of its target coordinate. -/
def KP.mul (x y : KP) : KP :=
  ⟨x.p0*y.p0 + x.n0*y.n0 + 2*(x.p1*y.p1) + 2*(x.n1*y.n1) + 3*(x.p2*y.p2) + 3*(x.n2*y.n2) + 6*(x.p3*y.p3) + 6*(x.n3*y.n3) + x.p4*y.n4 + x.n4*y.p4 + 2*(x.p5*y.n5) + 2*(x.n5*y.p5) + 3*(x.p6*y.n6) + 3*(x.n6*y.p6) + 6*(x.p7*y.n7) + 6*(x.n7*y.p7),
   x.p0*y.n0 + x.n0*y.p0 + 2*(x.p1*y.n1) + 2*(x.n1*y.p1) + 3*(x.p2*y.n2) + 3*(x.n2*y.p2) + 6*(x.p3*y.n3) + 6*(x.n3*y.p3) + x.p4*y.p4 + x.n4*y.n4 + 2*(x.p5*y.p5) + 2*(x.n5*y.n5) + 3*(x.p6*y.p6) + 3*(x.n6*y.n6) + 6*(x.p7*y.p7) + 6*(x.n7*y.n7),
   x.p0*y.p1 + x.n0*y.n1 + x.p1*y.p0 + x.n1*y.n0 + 3*(x.p2*y.p3) + 3*(x.n2*y.n3) + 3*(x.p3*y.p2) + 3*(x.n3*y.n2) + x.p4*y.n5 + x.n4*y.p5 + x.p5*y.n4 + x.n5*y.p4 + 3*(x.p6*y.n7) + 3*(x.n6*y.p7) + 3*(x.p7*y.n6) + 3*(x.n7*y.p6),
   x.p0*y.n1 + x.n0*y.p1 + x.p1*y.n0 + x.n1*y.p0 + 3*(x.p2*y.n3) + 3*(x.n2*y.p3) + 3*(x.p3*y.n2) + 3*(x.n3*y.p2) + x.p4*y.p5 + x.n4*y.n5 + x.p5*y.p4 + x.n5*y.n4 + 3*(x.p6*y.p7) + 3*(x.n6*y.n7) + 3*(x.p7*y.p6) + 3*(x.n7*y.n6),
   x.p0*y.p2 + x.n0*y.n2 + 2*(x.p1*y.p3) + 2*(x.n1*y.n3) + x.p2*y.p0 + x.n2*y.n0 + 2*(x.p3*y.p1) + 2*(x.n3*y.n1) + x.p4*y.n6 + x.n4*y.p6 + 2*(x.p5*y.n7) + 2*(x.n5*y.p7) + x.p6*y.n4 + x.n6*y.p4 + 2*(x.p7*y.n5) + 2*(x.n7*y.p5),
   x.p0*y.n2 + x.n0*y.p2 + 2*(x.p1*y.n3) + 2*(x.n1*y.p3) + x.p2*y.n0 + x.n2*y.p0 + 2*(x.p3*y.n1) + 2*(x.n3*y.p1) + x.p4*y.p6 + x.n4*y.n6 + 2*(x.p5*y.p7) + 2*(x.n5*y.n7) + x.p6*y.p4 + x.n6*y.n4 + 2*(x.p7*y.p5) + 2*(x.n7*y.n5),
   x.p0*y.p3 + x.n0*y.n3 + x.p1*y.p2 + x.n1*y.n2 + x.p2*y.p1 + x.n2*y.n1 + x.p3*y.p0 + x.n3*y.n0 + x.p4*y.n7 + x.n4*y.p7 + x.p5*y.n6 + x.n5*y.p6 + x.p6*y.n5 + x.n6*y.p5 + x.p7*y.n4 + x.n7*y.p4,
   x.p0*y.n3 + x.n0*y.p3 + x.p1*y.n2 + x.n1*y.p2 + x.p2*y.n1 + x.n2*y.p1 + x.p3*y.n0 + x.n3*y.p0 + x.p4*y.p7 + x.n4*y.n7 + x.p5*y.p6 + x.n5*y.n6 + x.p6*y.p5 + x.n6*y.n5 + x.p7*y.p4 + x.n7*y.n4,
   x.p0*y.p4 + x.n0*y.n4 + 2*(x.p1*y.p5) + 2*(x.n1*y.n5) + 3*(x.p2*y.p6) + 3*(x.n2*y.n6) + 6*(x.p3*y.p7) + 6*(x.n3*y.n7) + x.p4*y.p0 + x.n4*y.n0 + 2*(x.p5*y.p1) + 2*(x.n5*y.n1) + 3*(x.p6*y.p2) + 3*(x.n6*y.n2) + 6*(x.p7*y.p3) + 6*(x.n7*y.n3),
   x.p0*y.n4 + x.n0*y.p4 + 2*(x.p1*y.n5) + 2*(x.n1*y.p5) + 3*(x.p2*y.n6) + 3*(x.n2*y.p6) + 6*(x.p3*y.n7) + 6*(x.n3*y.p7) + x.p4*y.n0 + x.n4*y.p0 + 2*(x.p5*y.n1) + 2*(x.n5*y.p1) + 3*(x.p6*y.n2) + 3*(x.n6*y.p2) + 6*(x.p7*y.n3) + 6*(x.n7*y.p3),
   x.p0*y.p5 + x.n0*y.n5 + x.p1*y.p4 + x.n1*y.n4 + 3*(x.p2*y.p7) + 3*(x.n2*y.n7) + 3*(x.p3*y.p6) + 3*(x.n3*y.n6) + x.p4*y.p1 + x.n4*y.n1 + x.p5*y.p0 + x.n5*y.n0 + 3*(x.p6*y.p3) + 3*(x.n6*y.n3) + 3*(x.p7*y.p2) + 3*(x.n7*y.n2),
   x.p0*y.n5 + x.n0*y.p5 + x.p1*y.n4 + x.n1*y.p4 + 3*(x.p2*y.n7) + 3*(x.n2*y.p7) + 3*(x.p3*y.n6) + 3*(x.n3*y.p6) + x.p4*y.n1 + x.n4*y.p1 + x.p5*y.n0 + x.n5*y.p0 + 3*(x.p6*y.n3) + 3*(x.n6*y.p3) + 3*(x.p7*y.n2) + 3*(x.n7*y.p2),
   x.p0*y.p6 + x.n0*y.n6 + 2*(x.p1*y.p7) + 2*(x.n1*y.n7) + x.p2*y.p4 + x.n2*y.n4 + 2*(x.p3*y.p5) + 2*(x.n3*y.n5) + x.p4*y.p2 + x.n4*y.n2 + 2*(x.p5*y.p3) + 2*(x.n5*y.n3) + x.p6*y.p0 + x.n6*y.n0 + 2*(x.p7*y.p1) + 2*(x.n7*y.n1),
   x.p0*y.n6 + x.n0*y.p6 + 2*(x.p1*y.n7) + 2*(x.n1*y.p7) + x.p2*y.n4 + x.n2*y.p4 + 2*(x.p3*y.n5) + 2*(x.n3*y.p5) + x.p4*y.n2 + x.n4*y.p2 + 2*(x.p5*y.n3) + 2*(x.n5*y.p3) + x.p6*y.n0 + x.n6*y.p0 + 2*(x.p7*y.n1) + 2*(x.n7*y.p1),
   x.p0*y.p7 + x.n0*y.n7 + x.p1*y.p6 + x.n1*y.n6 + x.p2*y.p5 + x.n2*y.n5 + x.p3*y.p4 + x.n3*y.n4 + x.p4*y.p3 + x.n4*y.n3 + x.p5*y.p2 + x.n5*y.n2 + x.p6*y.p1 + x.n6*y.n1 + x.p7*y.p0 + x.n7*y.n0,
   x.p0*y.n7 + x.n0*y.p7 + x.p1*y.n6 + x.n1*y.p6 + x.p2*y.n5 + x.n2*y.p5 + x.p3*y.n4 + x.n3*y.p4 + x.p4*y.n3 + x.n4*y.p3 + x.p5*y.n2 + x.n5*y.p2 + x.p6*y.n1 + x.n6*y.p1 + x.p7*y.n0 + x.n7*y.p0⟩

/-- Canonical representative: each coordinate keeps only the sign that
dominates. -/
def normP (x : KP) : KP :=
  ⟨x.p0-x.n0, x.n0-x.p0, x.p1-x.n1, x.n1-x.p1, x.p2-x.n2, x.n2-x.p2,
   x.p3-x.n3, x.n3-x.p3, x.p4-x.n4, x.n4-x.p4, x.p5-x.n5, x.n5-x.p5,
   x.p6-x.n6, x.n6-x.p6, x.p7-x.n7, x.n7-x.p7⟩

/-- Evaluation of a split-sign `Z[i, sqrt 2, sqrt 3]` element in `Complex`. -/
noncomputable def KPC (x : KP) : ℂ :=
  ((((x.p0 : ℝ) - x.n0) + ((x.p1 : ℝ) - x.n1) * Real.sqrt 2
      + ((x.p2 : ℝ) - x.n2) * Real.sqrt 3 + ((x.p3 : ℝ) - x.n3) * Real.sqrt 6 : ℝ) : ℂ)
    + ((((x.p4 : ℝ) - x.n4) + ((x.p5 : ℝ) - x.n5) * Real.sqrt 2
      + ((x.p6 : ℝ) - x.n6) * Real.sqrt 3 + ((x.p7 : ℝ) - x.n7) * Real.sqrt 6 : ℝ) : ℂ)
      * Complex.I

/-! ## The Fock-state simulator, modelled from the spec

Modelled from the spec: the `FockStateSimulator` component (Perceval's
`Naive` backend `probampli`) is not among the given sources; the definitions
below follow spec section 4.2: the amplitude is the permanent of the
sub-matrix of the unitary obtained by selecting one column per occupied
input mode and one row per occupied output mode (with multiplicity),
divided by `sqrt(inputState! * outputState!)`, and is 0 between Fock states
of different total photon number. -/

/-- All ways to insert `x` into a list. -/
def insertionsOf {α : Type} (x : α) : List α → List (List α)
  | [] => [[x]]
  | y :: ys => (x :: y :: ys) :: (insertionsOf x ys).map (fun zs => y :: zs)

/-- All permutations of a list (each exactly once for distinct elements). -/
def permsL {α : Type} : List α → List (List α)
  | [] => [[]]
  | x :: xs => (permsL xs).flatMap (insertionsOf x)

/-- Product of one entry per row, the columns being chosen by `σ`. -/
def permProducts {α : Type} [CommSemiring α] (A : List (List α)) (σ : List ℕ) : α :=
  ((A.zip σ).map (fun rc => rc.1.getD rc.2 0)).prod

/-- The naive permanent: the sum over all permutations of the product of
one entry per row and column (spec glossary definition). -/
def permanentL {α : Type} [CommSemiring α] (A : List (List α)) : α :=
  ((permsL (List.range A.length)).map (permProducts A)).sum

/-- All sublists (subsets) of a list. -/
def powersetL : List ℕ → List (List ℕ)
  | [] => [[]]
  | x :: xs => powersetL xs ++ (powersetL xs).map (fun S => x :: S)

/-- Ryser inclusion-exclusion formula for the permanent,
`perm A = (-1)^n * sum over column subsets S of (-1)^|S| prod_i sum_{j in S} A i j`. -/
def ryserPermanent {α : Type} [CommRing α] (A : List (List α)) : α :=
  (-1 : α) ^ A.length *
    ((powersetL (List.range A.length)).map
      (fun S => (-1 : α) ^ S.length *
        (A.map (fun row => (S.map (fun j => row.getD j 0)).sum)).prod)).sum

/-- The mode index of every photon, with multiplicity, in mode order. -/
def occupiedModes (s : List ℕ) : List ℕ :=
  ((List.range s.length).zip s).flatMap (fun mc => List.replicate mc.2 mc.1)

/-- `state!`: the product of the factorials of the occupation numbers. -/
def factProd (s : List ℕ) : ℕ := (s.map Nat.factorial).prod

/-- Sub-matrix of `U` with the given row and column indices (with
multiplicity). -/
def subMatrixL {α : Type} (U : ℕ → ℕ → α) (rows cols : List ℕ) : List (List α) :=
  rows.map (fun r => cols.map (fun c => U r c))

/-- Transition amplitude between Fock states (spec 4.2): permanent of the
selected sub-matrix over `sqrt(inputState! * outputState!)`; exactly `0`
when the photon numbers disagree (never an error). -/
noncomputable def amplitude (U : ℕ → ℕ → ℂ) (inputState outputState : List ℕ) : ℂ :=
  if inputState.sum = outputState.sum then
    permanentL (subMatrixL U (occupiedModes outputState) (occupiedModes inputState))
      / ((Real.sqrt (factProd inputState * factProd outputState) : ℝ) : ℂ)
  else 0

/-- `probability = |amplitude|^2` (spec 4.2); no renormalization. -/
noncomputable def probability (U : ℕ → ℕ → ℂ) (inputState outputState : List ℕ) : ℝ :=
  Complex.abs (amplitude U inputState outputState) ^ 2

/-! ## The mode network, modelled from the spec

Modelled from the spec: `ModeNetwork` (Perceval's `Circuit`, `symb.BS`,
`symb.PS`) is not among the given sources.  Components follow spec section
4.1; the beam-splitter local matrix uses the unitarity-preserving
parameterization
`[[sqrt(1-R), i sqrt R e^{-i phi}], [i sqrt R e^{i phi}, sqrt(1-R)]]`,
which reproduces, entry for entry, the composed 12x12 matrix printed by the
notebook for `circ.U` (theorem `shorU_entries` below).  Components are
applied in insertion order to the state, so a later component multiplies
the accumulated matrix from the left. -/

/-- An elementary component: a beam splitter (reflectivity `R`, phase `phi`)
or a phase shifter (phase `phi`). -/
inductive CompKind where
  | bs (R phi : ℝ)
  | ps (phi : ℝ)

/-- Number of modes the component acts on: 2 for a beam splitter, 1 for a
phase shifter. -/
def CompKind.arity : CompKind → ℕ
  | .bs _ _ => 2
  | .ps _ => 1

/-- Structural network-construction errors (spec section 7). -/
inductive NetError where
  | invalidDimension
  | invalidModeIndex
  | modeCountMismatch
deriving DecidableEq, Repr

/-- A linear-optical circuit: a mode count and components in insertion
order, each bound to its ordered list of mode indices. -/
structure ModeNetwork where
  modeCount : ℕ
  components : List (List ℕ × CompKind)

/-- `create(modeCount)`: an empty network, or `InvalidDimension` for a
non-positive mode count (spec 4.1). -/
def ModeNetwork.create (modeCount : ℤ) : Except NetError ModeNetwork :=
  if modeCount ≤ 0 then .error .invalidDimension
  else .ok ⟨modeCount.toNat, []⟩

/-- `addComponent(modes, component)`: appends a component after checking the
mode indices and the arity (spec 4.1); on failure the network value is left
untouched and no component is appended. -/
def ModeNetwork.addComponent (net : ModeNetwork) (modes : List ℕ) (kind : CompKind) :
    Except NetError ModeNetwork :=
  if ¬ (∀ m ∈ modes, m < net.modeCount) then .error .invalidModeIndex
  else if modes.length ≠ kind.arity then .error .modeCountMismatch
  else .ok ⟨net.modeCount, net.components ++ [(modes, kind)]⟩

/-- Local 2x2 beam-splitter matrix for reflectivity `R` and phase `phi`. -/
noncomputable def bsLocal (R phi : ℝ) : Matrix (Fin 2) (Fin 2) ℂ :=
  !![((Real.sqrt (1 - R) : ℝ) : ℂ),
     Complex.I * ((Real.sqrt R : ℝ) : ℂ) * Complex.exp (-((phi : ℂ) * Complex.I));
     Complex.I * ((Real.sqrt R : ℝ) : ℂ) * Complex.exp ((phi : ℂ) * Complex.I),
     ((Real.sqrt (1 - R) : ℝ) : ℂ)]

/-- A 2x2 matrix embedded into the `M`-mode identity on modes `a` and `b`. -/
def embed2 {M : ℕ} (a b : Fin M) (S : Matrix (Fin 2) (Fin 2) ℂ) :
    Matrix (Fin M) (Fin M) ℂ :=
  Matrix.of fun i j =>
    if i = a then (if j = a then S 0 0 else if j = b then S 0 1 else 0)
    else if i = b then (if j = a then S 1 0 else if j = b then S 1 1 else 0)
    else (if j = i then 1 else 0)

/-- A component's local unitary embedded into the `M`-by-`M` identity.
Ill-formed bindings (wrong arity or out-of-range modes, which `addComponent`
rejects) embed as the identity. -/
noncomputable def embedC (M : ℕ) (c : List ℕ × CompKind) : Matrix (Fin M) (Fin M) ℂ :=
  match c with
  | ([a, b], .bs R phi) =>
      if h : a < M ∧ b < M then embed2 ⟨a, h.1⟩ ⟨b, h.2⟩ (bsLocal R phi) else 1
  | ([a], .ps phi) =>
      if h : a < M then
        Matrix.diagonal (fun i =>
          if i = (⟨a, h⟩ : Fin M) then Complex.exp ((phi : ℂ) * Complex.I) else 1)
      else 1
  | _ => 1

/-- The composed network unitary: components applied in insertion order to
the state, a later component multiplying the accumulated matrix from the
left. -/
noncomputable def netUnitary (M : ℕ) (comps : List (List ℕ × CompKind)) :
    Matrix (Fin M) (Fin M) ℂ :=
  comps.foldl (fun U c => embedC M c * U) 1

/-- A component binding is valid for width `M`: modes in range and pairwise
distinct (an "ordered subset" per the spec data model), and a reflectivity
in `[0, 1]` so the local matrix is unitary. -/
def ValidComp (M : ℕ) (c : List ℕ × CompKind) : Prop :=
  match c with
  | (modes, .bs R _) => 0 ≤ R ∧ R ≤ 1 ∧ ∃ a b, modes = [a, b] ∧ a < M ∧ b < M ∧ a ≠ b
  | (modes, .ps _) => ∃ a, modes = [a] ∧ a < M

/-! ## The notebook's path-encoding helpers (translated from the source) -/

/-- The notebook's path-encoding dictionary `pe = {0:[1,0], 1:[0,1]}`;
looking up any other occupation value fails (a `KeyError` in the source,
modelled as `none`). -/
def pe (b : ℕ) : Option (List ℕ) :=
  if b = 0 then some [1, 0] else if b = 1 then some [0, 1] else none

/-- The notebook's `toFockState`: a 4-qubit computational-basis state
`[x1, x2, f1, f2]` becomes the 12-mode Fock state
`[0] + pe[q0] + pe[q2] + [0, 0] + pe[q1] + pe[q3] + [0]`. -/
def toFockState (qubitState : List ℕ) : Option (List ℕ) :=
  match qubitState[0]?, qubitState[1]?, qubitState[2]?, qubitState[3]? with
  | some q0, some q1, some q2, some q3 =>
    match pe q0, pe q2, pe q1, pe q3 with
    | some p0, some p2, some p1, some p3 =>
        some ([0] ++ p0 ++ p2 ++ [0, 0] ++ p1 ++ p3 ++ [0])
    | _, _, _, _ => none
  | _, _, _, _ => none

/-- The notebook's `toQubitState`: auxiliary modes 0, 5, 6, 11 must be
empty and each qubit's mode pair (1,2), (7,8), (3,4), (9,10) must hold
exactly one photon; otherwise the Fock state is not two-rail representable
(`None`). -/
def toQubitState (fockState : List ℕ) : Option (List ℕ) :=
  match fockState with
  | [a0, a1, a2, a3, a4, a5, a6, a7, a8, a9, a10, a11] =>
    if a0 ≠ 0 then none
    else if a5 ≠ 0 then none
    else if a6 ≠ 0 then none
    else if a11 ≠ 0 then none
    else if a1 + a2 ≠ 1 then none
    else if a7 + a8 ≠ 1 then none
    else if a3 + a4 ≠ 1 then none
    else if a9 + a10 ≠ 1 then none
    else some [a2, a8, a4, a10]
  | _ => none

/-! ## The notebook's 12-mode circuit -/

/-- The notebook's circuit `circ`: H gates (beam splitters `R=1/2`,
`phi=pi/2`, each followed by a `pi` phase shifter on the lower mode) on the
qubit mode pairs, the two CZ blocks of three `R=2/3` beam splitters, and
final H gates on the `f1`, `f2` pairs. -/
noncomputable def shorCircuit : List (List ℕ × CompKind) :=
  [([1, 2], .bs (1/2) (Real.pi/2)), ([2], .ps Real.pi),
   ([3, 4], .bs (1/2) (Real.pi/2)), ([4], .ps Real.pi),
   ([7, 8], .bs (1/2) (Real.pi/2)), ([8], .ps Real.pi),
   ([9, 10], .bs (1/2) (Real.pi/2)), ([10], .ps Real.pi),
   ([0, 1], .bs (2/3) 0), ([2, 3], .bs (2/3) 0), ([4, 5], .bs (2/3) 0),
   ([6, 7], .bs (2/3) 0), ([8, 9], .bs (2/3) 0), ([10, 11], .bs (2/3) 0),
   ([3, 4], .bs (1/2) (Real.pi/2)), ([4], .ps Real.pi),
   ([9, 10], .bs (1/2) (Real.pi/2)), ([10], .ps Real.pi)]

/-- The composed unitary of the notebook circuit (`circ.U`). -/
noncomputable def shorU : Matrix (Fin 12) (Fin 12) ℂ := netUnitary 12 shorCircuit

/-- A 12x12 matrix as a simulator-ready function of mode indices. -/
noncomputable def matFun (A : Matrix (Fin 12) (Fin 12) ℂ) : ℕ → ℕ → ℂ :=
  fun r c => if h : r < 12 ∧ c < 12 then A ⟨r, h.1⟩ ⟨c, h.2⟩ else 0

/-- The notebook's input Fock state, `toFockState [0,0,0,1]`. -/
def istate : List ℕ := [0, 1, 0, 1, 0, 0, 0, 1, 0, 0, 1, 0]

/-! ## Exact evaluation of the notebook circuit over `KP`

Each component matrix of the notebook circuit, multiplied by 6, has entries
in `Z[i, sqrt 2, sqrt 3]`; the scaled matrices below are 6 times the local
unitaries of `shorCircuit`'s components, and their ordered product
`scaledProductP` is `6^18` times the circuit unitary.  The intermediate
products `stepMatP1` ... `stepMatP18` are spelled out so that each step of
the evaluation is a single flat matrix product. -/

/-- 12x12 matrices over `KP` as row lists. -/
abbrev MatP := List (List KP)

def dotP : List KP → List KP → KP
  | [], _ => kzeroP
  | _, [] => kzeroP
  | x :: xs, y :: ys =>
    if x = kzeroP then dotP xs ys
    else if y = kzeroP then dotP xs ys
    else KP.add (KP.mul x y) (dotP xs ys)

def colP (B : MatP) (j : ℕ) : List KP := B.map (fun row => row.getD j kzeroP)

def matMulP (A B : MatP) : MatP :=
  A.map (fun row => (List.range 12).map (fun j => dotP row (colP B j)))

def idMatP : MatP :=
  (List.range 12).map (fun i => (List.range 12).map (fun j => if i = j then koneP else kzeroP))

def mk12P (f : ℕ → ℕ → KP) : MatP :=
  (List.range 12).map (fun i => (List.range 12).map (f i))

/-- A two-mode component matrix embedded into 6 times the 12x12 identity:
the four given entries on modes `a`, `b`, the value 6 on the rest of the
diagonal. -/
def genE (a b : ℕ) (kaa kab kba kbb : KP) : MatP := mk12P fun i j =>
  if i = a ∧ j = a then kaa
  else if i = a ∧ j = b then kab
  else if i = b ∧ j = a then kba
  else if i = b ∧ j = b then kbb
  else if i = j then ⟨6,0,0,0,0,0,0,0,0,0,0,0,0,0,0,0⟩ else kzeroP

/-- 6 times the embedded H-gate beam splitter `BS(R=1/2, phi=pi/2)`, whose
local matrix is `[[s2/2, s2/2], [-s2/2, s2/2]]` with `s2 = sqrt 2`. -/
def eBSHP (a b : ℕ) : MatP :=
  genE a b ⟨0,0,3,0,0,0,0,0,0,0,0,0,0,0,0,0⟩ ⟨0,0,3,0,0,0,0,0,0,0,0,0,0,0,0,0⟩
    ⟨0,0,0,3,0,0,0,0,0,0,0,0,0,0,0,0⟩ ⟨0,0,3,0,0,0,0,0,0,0,0,0,0,0,0,0⟩

/-- 6 times the embedded phase shifter `PS(pi)`, whose local matrix is
`[[-1]]`. -/
def ePSpiP (a : ℕ) : MatP := mk12P fun i j =>
  if i = a ∧ j = a then ⟨0,6,0,0,0,0,0,0,0,0,0,0,0,0,0,0⟩
  else if i = j then ⟨6,0,0,0,0,0,0,0,0,0,0,0,0,0,0,0⟩ else kzeroP

/-- 6 times the embedded CZ beam splitter `BS(R=2/3, phi=0)`, whose local
matrix is `[[s3/3, i s6/3], [i s6/3, s3/3]]` with `s3 = sqrt 3`,
`s6 = sqrt 6`. -/
def eBS23P (a b : ℕ) : MatP :=
  genE a b ⟨0,0,0,0,2,0,0,0,0,0,0,0,0,0,0,0⟩ ⟨0,0,0,0,0,0,0,0,0,0,0,0,0,0,2,0⟩
    ⟨0,0,0,0,0,0,0,0,0,0,0,0,0,0,2,0⟩ ⟨0,0,0,0,2,0,0,0,0,0,0,0,0,0,0,0⟩

/-- The 6-scaled component matrices, in the order of `shorCircuit`. -/
def shorScaledP : List MatP :=
  [eBSHP 1 2, ePSpiP 2, eBSHP 3 4, ePSpiP 4, eBSHP 7 8, ePSpiP 8, eBSHP 9 10, ePSpiP 10,
   eBS23P 0 1, eBS23P 2 3, eBS23P 4 5, eBS23P 6 7, eBS23P 8 9, eBS23P 10 11,
   eBSHP 3 4, ePSpiP 4, eBSHP 9 10, ePSpiP 10]

/-- `6^18` times the circuit unitary, computed exactly over `KP` by the
same left-multiplying fold as `netUnitary`. -/
def scaledProductP : MatP := shorScaledP.foldl (fun U E => matMulP E U) idMatP

/-- Every coordinate multiplied by `n`. -/
def kscaleP (n : ℕ) (A : MatP) : MatP :=
  A.map (List.map (fun x : KP =>
    (⟨n*x.p0, n*x.n0, n*x.p1, n*x.n1, n*x.p2, n*x.n2, n*x.p3, n*x.n3,
      n*x.p4, n*x.n4, n*x.p5, n*x.n5, n*x.p6, n*x.n6, n*x.p7, n*x.n7⟩ : KP)))

/-- Entry accessor for a `KP` row-list matrix. -/
def entryP (A : MatP) (r c : ℕ) : KP := (A.getD r []).getD c kzeroP

/-- Column sub-matrix extraction over `KP`, mirroring `subMatrixL`. -/
def subP (A : MatP) (rows cols : List ℕ) : List (List KP) :=
  rows.map (fun r => cols.map (fun c => entryP A r c))

def sumP (l : List KP) : KP := l.foldr KP.add kzeroP

def prodP (l : List KP) : KP := l.foldr KP.mul koneP

/-- Permanent over `KP`, mirroring `permanentL`. -/
def permProductsP (A : List (List KP)) (σ : List ℕ) : KP :=
  prodP ((A.zip σ).map (fun rc => rc.1.getD rc.2 kzeroP))

def permP (A : List (List KP)) : KP :=
  sumP ((permsL (List.range A.length)).map (permProductsP A))

def kp3 (v : ℕ) : KP := ⟨0,0,0,0,v,0,0,0,0,0,0,0,0,0,0,0⟩
def kn3 (v : ℕ) : KP := ⟨0,0,0,0,0,v,0,0,0,0,0,0,0,0,0,0⟩
def kp6 (v : ℕ) : KP := ⟨0,0,0,0,0,0,v,0,0,0,0,0,0,0,0,0⟩
def kn6 (v : ℕ) : KP := ⟨0,0,0,0,0,0,0,v,0,0,0,0,0,0,0,0⟩
def kpi3 (v : ℕ) : KP := ⟨0,0,0,0,0,0,0,0,0,0,0,0,v,0,0,0⟩
def kni3 (v : ℕ) : KP := ⟨0,0,0,0,0,0,0,0,0,0,0,0,0,v,0,0⟩
def kpi6 (v : ℕ) : KP := ⟨0,0,0,0,0,0,0,0,0,0,0,0,0,0,v,0⟩
def kni6 (v : ℕ) : KP := ⟨0,0,0,0,0,0,0,0,0,0,0,0,0,0,0,v⟩

/-- 6 times the upper 6x6 block of the matrix the notebook prints for
`circ.U` (the printed matrix is block diagonal, with this block repeated
over modes 0-5 and 6-11). -/
def blockB : List (List KP) :=
  [[kp3 2,  kpi3 2, kpi3 2, kzeroP, kzeroP, kzeroP],
   [kpi6 2, kp6 1,  kp6 1,  kzeroP, kzeroP, kzeroP],
   [kzeroP, kp6 1,  kn6 1,  kpi3 2, kpi3 2, kzeroP],
   [kzeroP, kpi6 1, kni6 1, kp3 2,  kzeroP, kpi3 2],
   [kzeroP, kpi6 1, kni6 1, kzeroP, kp3 2,  kni3 2],
   [kzeroP, kzeroP, kzeroP, kpi3 2, kni3 2, kp3 2]]

def zeros6P : List KP := [kzeroP, kzeroP, kzeroP, kzeroP, kzeroP, kzeroP]

/-- 6 times the 12x12 matrix printed by the notebook for `circ.U`. -/
def printedP6 : MatP :=
  blockB.map (fun row => row ++ zeros6P) ++ blockB.map (fun row => zeros6P ++ row)

def stepMatP1 : MatP :=
  [[⟨6,0,0,0,0,0,0,0,0,0,0,0,0,0,0,0⟩, kzeroP, kzeroP, kzeroP, kzeroP, kzeroP, kzeroP, kzeroP, kzeroP, kzeroP, kzeroP, kzeroP],
   [kzeroP, ⟨0,0,3,0,0,0,0,0,0,0,0,0,0,0,0,0⟩, ⟨0,0,3,0,0,0,0,0,0,0,0,0,0,0,0,0⟩, kzeroP, kzeroP, kzeroP, kzeroP, kzeroP, kzeroP, kzeroP, kzeroP, kzeroP],
   [kzeroP, ⟨0,0,0,3,0,0,0,0,0,0,0,0,0,0,0,0⟩, ⟨0,0,3,0,0,0,0,0,0,0,0,0,0,0,0,0⟩, kzeroP, kzeroP, kzeroP, kzeroP, kzeroP, kzeroP, kzeroP, kzeroP, kzeroP],
   [kzeroP, kzeroP, kzeroP, ⟨6,0,0,0,0,0,0,0,0,0,0,0,0,0,0,0⟩, kzeroP, kzeroP, kzeroP, kzeroP, kzeroP, kzeroP, kzeroP, kzeroP],
   [kzeroP, kzeroP, kzeroP, kzeroP, ⟨6,0,0,0,0,0,0,0,0,0,0,0,0,0,0,0⟩, kzeroP, kzeroP, kzeroP, kzeroP, kzeroP, kzeroP, kzeroP],
   [kzeroP, kzeroP, kzeroP, kzeroP, kzeroP, ⟨6,0,0,0,0,0,0,0,0,0,0,0,0,0,0,0⟩, kzeroP, kzeroP, kzeroP, kzeroP, kzeroP, kzeroP],
   [kzeroP, kzeroP, kzeroP, kzeroP, kzeroP, kzeroP, ⟨6,0,0,0,0,0,0,0,0,0,0,0,0,0,0,0⟩, kzeroP, kzeroP, kzeroP, kzeroP, kzeroP],
   [kzeroP, kzeroP, kzeroP, kzeroP, kzeroP, kzeroP, kzeroP, ⟨6,0,0,0,0,0,0,0,0,0,0,0,0,0,0,0⟩, kzeroP, kzeroP, kzeroP, kzeroP],
   [kzeroP, kzeroP, kzeroP, kzeroP, kzeroP, kzeroP, kzeroP, kzeroP, ⟨6,0,0,0,0,0,0,0,0,0,0,0,0,0,0,0⟩, kzeroP, kzeroP, kzeroP],
   [kzeroP, kzeroP, kzeroP, kzeroP, kzeroP, kzeroP, kzeroP, kzeroP, kzeroP, ⟨6,0,0,0,0,0,0,0,0,0,0,0,0,0,0,0⟩, kzeroP, kzeroP],
   [kzeroP, kzeroP, kzeroP, kzeroP, kzeroP, kzeroP, kzeroP, kzeroP, kzeroP, kzeroP, ⟨6,0,0,0,0,0,0,0,0,0,0,0,0,0,0,0⟩, kzeroP],
   [kzeroP, kzeroP, kzeroP, kzeroP, kzeroP, kzeroP, kzeroP, kzeroP, kzeroP, kzeroP, kzeroP, ⟨6,0,0,0,0,0,0,0,0,0,0,0,0,0,0,0⟩]]

def stepMatP2 : MatP :=
  [[⟨36,0,0,0,0,0,0,0,0,0,0,0,0,0,0,0⟩, kzeroP, kzeroP, kzeroP, kzeroP, kzeroP, kzeroP, kzeroP, kzeroP, kzeroP, kzeroP, kzeroP],
   [kzeroP, ⟨0,0,18,0,0,0,0,0,0,0,0,0,0,0,0,0⟩, ⟨0,0,18,0,0,0,0,0,0,0,0,0,0,0,0,0⟩, kzeroP, kzeroP, kzeroP, kzeroP, kzeroP, kzeroP, kzeroP, kzeroP, kzeroP],
   [kzeroP, ⟨0,0,18,0,0,0,0,0,0,0,0,0,0,0,0,0⟩, ⟨0,0,0,18,0,0,0,0,0,0,0,0,0,0,0,0⟩, kzeroP, kzeroP, kzeroP, kzeroP, kzeroP, kzeroP, kzeroP, kzeroP, kzeroP],
   [kzeroP, kzeroP, kzeroP, ⟨36,0,0,0,0,0,0,0,0,0,0,0,0,0,0,0⟩, kzeroP, kzeroP, kzeroP, kzeroP, kzeroP, kzeroP, kzeroP, kzeroP],
   [kzeroP, kzeroP, kzeroP, kzeroP, ⟨36,0,0,0,0,0,0,0,0,0,0,0,0,0,0,0⟩, kzeroP, kzeroP, kzeroP, kzeroP, kzeroP, kzeroP, kzeroP],
   [kzeroP, kzeroP, kzeroP, kzeroP, kzeroP, ⟨36,0,0,0,0,0,0,0,0,0,0,0,0,0,0,0⟩, kzeroP, kzeroP, kzeroP, kzeroP, kzeroP, kzeroP],
   [kzeroP, kzeroP, kzeroP, kzeroP, kzeroP, kzeroP, ⟨36,0,0,0,0,0,0,0,0,0,0,0,0,0,0,0⟩, kzeroP, kzeroP, kzeroP, kzeroP, kzeroP],
   [kzeroP, kzeroP, kzeroP, kzeroP, kzeroP, kzeroP, kzeroP, ⟨36,0,0,0,0,0,0,0,0,0,0,0,0,0,0,0⟩, kzeroP, kzeroP, kzeroP, kzeroP],
   [kzeroP, kzeroP, kzeroP, kzeroP, kzeroP, kzeroP, kzeroP, kzeroP, ⟨36,0,0,0,0,0,0,0,0,0,0,0,0,0,0,0⟩, kzeroP, kzeroP, kzeroP],
   [kzeroP, kzeroP, kzeroP, kzeroP, kzeroP, kzeroP, kzeroP, kzeroP, kzeroP, ⟨36,0,0,0,0,0,0,0,0,0,0,0,0,0,0,0⟩, kzeroP, kzeroP],
   [kzeroP, kzeroP, kzeroP, kzeroP, kzeroP, kzeroP, kzeroP, kzeroP, kzeroP, kzeroP, ⟨36,0,0,0,0,0,0,0,0,0,0,0,0,0,0,0⟩, kzeroP],
   [kzeroP, kzeroP, kzeroP, kzeroP, kzeroP, kzeroP, kzeroP, kzeroP, kzeroP, kzeroP, kzeroP, ⟨36,0,0,0,0,0,0,0,0,0,0,0,0,0,0,0⟩]]

def stepMatP3 : MatP :=
  [[⟨216,0,0,0,0,0,0,0,0,0,0,0,0,0,0,0⟩, kzeroP, kzeroP, kzeroP, kzeroP, kzeroP, kzeroP, kzeroP, kzeroP, kzeroP, kzeroP, kzeroP],
   [kzeroP, ⟨0,0,108,0,0,0,0,0,0,0,0,0,0,0,0,0⟩, ⟨0,0,108,0,0,0,0,0,0,0,0,0,0,0,0,0⟩, kzeroP, kzeroP, kzeroP, kzeroP, kzeroP, kzeroP, kzeroP, kzeroP, kzeroP],
   [kzeroP, ⟨0,0,108,0,0,0,0,0,0,0,0,0,0,0,0,0⟩, ⟨0,0,0,108,0,0,0,0,0,0,0,0,0,0,0,0⟩, kzeroP, kzeroP, kzeroP, kzeroP, kzeroP, kzeroP, kzeroP, kzeroP, kzeroP],
   [kzeroP, kzeroP, kzeroP, ⟨0,0,108,0,0,0,0,0,0,0,0,0,0,0,0,0⟩, ⟨0,0,108,0,0,0,0,0,0,0,0,0,0,0,0,0⟩, kzeroP, kzeroP, kzeroP, kzeroP, kzeroP, kzeroP, kzeroP],
   [kzeroP, kzeroP, kzeroP, ⟨0,0,0,108,0,0,0,0,0,0,0,0,0,0,0,0⟩, ⟨0,0,108,0,0,0,0,0,0,0,0,0,0,0,0,0⟩, kzeroP, kzeroP, kzeroP, kzeroP, kzeroP, kzeroP, kzeroP],
   [kzeroP, kzeroP, kzeroP, kzeroP, kzeroP, ⟨216,0,0,0,0,0,0,0,0,0,0,0,0,0,0,0⟩, kzeroP, kzeroP, kzeroP, kzeroP, kzeroP, kzeroP],
   [kzeroP, kzeroP, kzeroP, kzeroP, kzeroP, kzeroP, ⟨216,0,0,0,0,0,0,0,0,0,0,0,0,0,0,0⟩, kzeroP, kzeroP, kzeroP, kzeroP, kzeroP],
   [kzeroP, kzeroP, kzeroP, kzeroP, kzeroP, kzeroP, kzeroP, ⟨216,0,0,0,0,0,0,0,0,0,0,0,0,0,0,0⟩, kzeroP, kzeroP, kzeroP, kzeroP],
   [kzeroP, kzeroP, kzeroP, kzeroP, kzeroP, kzeroP, kzeroP, kzeroP, ⟨216,0,0,0,0,0,0,0,0,0,0,0,0,0,0,0⟩, kzeroP, kzeroP, kzeroP],
   [kzeroP, kzeroP, kzeroP, kzeroP, kzeroP, kzeroP, kzeroP, kzeroP, kzeroP, ⟨216,0,0,0,0,0,0,0,0,0,0,0,0,0,0,0⟩, kzeroP, kzeroP],
   [kzeroP, kzeroP, kzeroP, kzeroP, kzeroP, kzeroP, kzeroP, kzeroP, kzeroP, kzeroP, ⟨216,0,0,0,0,0,0,0,0,0,0,0,0,0,0,0⟩, kzeroP],
   [kzeroP, kzeroP, kzeroP, kzeroP, kzeroP, kzeroP, kzeroP, kzeroP, kzeroP, kzeroP, kzeroP, ⟨216,0,0,0,0,0,0,0,0,0,0,0,0,0,0,0⟩]]

def stepMatP4 : MatP :=
  [[⟨1296,0,0,0,0,0,0,0,0,0,0,0,0,0,0,0⟩, kzeroP, kzeroP, kzeroP, kzeroP, kzeroP, kzeroP, kzeroP, kzeroP, kzeroP, kzeroP, kzeroP],
   [kzeroP, ⟨0,0,648,0,0,0,0,0,0,0,0,0,0,0,0,0⟩, ⟨0,0,648,0,0,0,0,0,0,0,0,0,0,0,0,0⟩, kzeroP, kzeroP, kzeroP, kzeroP, kzeroP, kzeroP, kzeroP, kzeroP, kzeroP],
   [kzeroP, ⟨0,0,648,0,0,0,0,0,0,0,0,0,0,0,0,0⟩, ⟨0,0,0,648,0,0,0,0,0,0,0,0,0,0,0,0⟩, kzeroP, kzeroP, kzeroP, kzeroP, kzeroP, kzeroP, kzeroP, kzeroP, kzeroP],
   [kzeroP, kzeroP, kzeroP, ⟨0,0,648,0,0,0,0,0,0,0,0,0,0,0,0,0⟩, ⟨0,0,648,0,0,0,0,0,0,0,0,0,0,0,0,0⟩, kzeroP, kzeroP, kzeroP, kzeroP, kzeroP, kzeroP, kzeroP],
   [kzeroP, kzeroP, kzeroP, ⟨0,0,648,0,0,0,0,0,0,0,0,0,0,0,0,0⟩, ⟨0,0,0,648,0,0,0,0,0,0,0,0,0,0,0,0⟩, kzeroP, kzeroP, kzeroP, kzeroP, kzeroP, kzeroP, kzeroP],
   [kzeroP, kzeroP, kzeroP, kzeroP, kzeroP, ⟨1296,0,0,0,0,0,0,0,0,0,0,0,0,0,0,0⟩, kzeroP, kzeroP, kzeroP, kzeroP, kzeroP, kzeroP],
   [kzeroP, kzeroP, kzeroP, kzeroP, kzeroP, kzeroP, ⟨1296,0,0,0,0,0,0,0,0,0,0,0,0,0,0,0⟩, kzeroP, kzeroP, kzeroP, kzeroP, kzeroP],
   [kzeroP, kzeroP, kzeroP, kzeroP, kzeroP, kzeroP, kzeroP, ⟨1296,0,0,0,0,0,0,0,0,0,0,0,0,0,0,0⟩, kzeroP, kzeroP, kzeroP, kzeroP],
   [kzeroP, kzeroP, kzeroP, kzeroP, kzeroP, kzeroP, kzeroP, kzeroP, ⟨1296,0,0,0,0,0,0,0,0,0,0,0,0,0,0,0⟩, kzeroP, kzeroP, kzeroP],
   [kzeroP, kzeroP, kzeroP, kzeroP, kzeroP, kzeroP, kzeroP, kzeroP, kzeroP, ⟨1296,0,0,0,0,0,0,0,0,0,0,0,0,0,0,0⟩, kzeroP, kzeroP],
   [kzeroP, kzeroP, kzeroP, kzeroP, kzeroP, kzeroP, kzeroP, kzeroP, kzeroP, kzeroP, ⟨1296,0,0,0,0,0,0,0,0,0,0,0,0,0,0,0⟩, kzeroP],
   [kzeroP, kzeroP, kzeroP, kzeroP, kzeroP, kzeroP, kzeroP, kzeroP, kzeroP, kzeroP, kzeroP, ⟨1296,0,0,0,0,0,0,0,0,0,0,0,0,0,0,0⟩]]

def stepMatP5 : MatP :=
  [[⟨7776,0,0,0,0,0,0,0,0,0,0,0,0,0,0,0⟩, kzeroP, kzeroP, kzeroP, kzeroP, kzeroP, kzeroP, kzeroP, kzeroP, kzeroP, kzeroP, kzeroP],
   [kzeroP, ⟨0,0,3888,0,0,0,0,0,0,0,0,0,0,0,0,0⟩, ⟨0,0,3888,0,0,0,0,0,0,0,0,0,0,0,0,0⟩, kzeroP, kzeroP, kzeroP, kzeroP, kzeroP, kzeroP, kzeroP, kzeroP, kzeroP],
   [kzeroP, ⟨0,0,3888,0,0,0,0,0,0,0,0,0,0,0,0,0⟩, ⟨0,0,0,3888,0,0,0,0,0,0,0,0,0,0,0,0⟩, kzeroP, kzeroP, kzeroP, kzeroP, kzeroP, kzeroP, kzeroP, kzeroP, kzeroP],
   [kzeroP, kzeroP, kzeroP, ⟨0,0,3888,0,0,0,0,0,0,0,0,0,0,0,0,0⟩, ⟨0,0,3888,0,0,0,0,0,0,0,0,0,0,0,0,0⟩, kzeroP, kzeroP, kzeroP, kzeroP, kzeroP, kzeroP, kzeroP],
   [kzeroP, kzeroP, kzeroP, ⟨0,0,3888,0,0,0,0,0,0,0,0,0,0,0,0,0⟩, ⟨0,0,0,3888,0,0,0,0,0,0,0,0,0,0,0,0⟩, kzeroP, kzeroP, kzeroP, kzeroP, kzeroP, kzeroP, kzeroP],
   [kzeroP, kzeroP, kzeroP, kzeroP, kzeroP, ⟨7776,0,0,0,0,0,0,0,0,0,0,0,0,0,0,0⟩, kzeroP, kzeroP, kzeroP, kzeroP, kzeroP, kzeroP],
   [kzeroP, kzeroP, kzeroP, kzeroP, kzeroP, kzeroP, ⟨7776,0,0,0,0,0,0,0,0,0,0,0,0,0,0,0⟩, kzeroP, kzeroP, kzeroP, kzeroP, kzeroP],
   [kzeroP, kzeroP, kzeroP, kzeroP, kzeroP, kzeroP, kzeroP, ⟨0,0,3888,0,0,0,0,0,0,0,0,0,0,0,0,0⟩, ⟨0,0,3888,0,0,0,0,0,0,0,0,0,0,0,0,0⟩, kzeroP, kzeroP, kzeroP],
   [kzeroP, kzeroP, kzeroP, kzeroP, kzeroP, kzeroP, kzeroP, ⟨0,0,0,3888,0,0,0,0,0,0,0,0,0,0,0,0⟩, ⟨0,0,3888,0,0,0,0,0,0,0,0,0,0,0,0,0⟩, kzeroP, kzeroP, kzeroP],
   [kzeroP, kzeroP, kzeroP, kzeroP, kzeroP, kzeroP, kzeroP, kzeroP, kzeroP, ⟨7776,0,0,0,0,0,0,0,0,0,0,0,0,0,0,0⟩, kzeroP, kzeroP],
   [kzeroP, kzeroP, kzeroP, kzeroP, kzeroP, kzeroP, kzeroP, kzeroP, kzeroP, kzeroP, ⟨7776,0,0,0,0,0,0,0,0,0,0,0,0,0,0,0⟩, kzeroP],
   [kzeroP, kzeroP, kzeroP, kzeroP, kzeroP, kzeroP, kzeroP, kzeroP, kzeroP, kzeroP, kzeroP, ⟨7776,0,0,0,0,0,0,0,0,0,0,0,0,0,0,0⟩]]

def stepMatP6 : MatP :=
  [[⟨46656,0,0,0,0,0,0,0,0,0,0,0,0,0,0,0⟩, kzeroP, kzeroP, kzeroP, kzeroP, kzeroP, kzeroP, kzeroP, kzeroP, kzeroP, kzeroP, kzeroP],
   [kzeroP, ⟨0,0,23328,0,0,0,0,0,0,0,0,0,0,0,0,0⟩, ⟨0,0,23328,0,0,0,0,0,0,0,0,0,0,0,0,0⟩, kzeroP, kzeroP, kzeroP, kzeroP, kzeroP, kzeroP, kzeroP, kzeroP, kzeroP],
   [kzeroP, ⟨0,0,23328,0,0,0,0,0,0,0,0,0,0,0,0,0⟩, ⟨0,0,0,23328,0,0,0,0,0,0,0,0,0,0,0,0⟩, kzeroP, kzeroP, kzeroP, kzeroP, kzeroP, kzeroP, kzeroP, kzeroP, kzeroP],
   [kzeroP, kzeroP, kzeroP, ⟨0,0,23328,0,0,0,0,0,0,0,0,0,0,0,0,0⟩, ⟨0,0,23328,0,0,0,0,0,0,0,0,0,0,0,0,0⟩, kzeroP, kzeroP, kzeroP, kzeroP, kzeroP, kzeroP, kzeroP],
   [kzeroP, kzeroP, kzeroP, ⟨0,0,23328,0,0,0,0,0,0,0,0,0,0,0,0,0⟩, ⟨0,0,0,23328,0,0,0,0,0,0,0,0,0,0,0,0⟩, kzeroP, kzeroP, kzeroP, kzeroP, kzeroP, kzeroP, kzeroP],
   [kzeroP, kzeroP, kzeroP, kzeroP, kzeroP, ⟨46656,0,0,0,0,0,0,0,0,0,0,0,0,0,0,0⟩, kzeroP, kzeroP, kzeroP, kzeroP, kzeroP, kzeroP],
   [kzeroP, kzeroP, kzeroP, kzeroP, kzeroP, kzeroP, ⟨46656,0,0,0,0,0,0,0,0,0,0,0,0,0,0,0⟩, kzeroP, kzeroP, kzeroP, kzeroP, kzeroP],
   [kzeroP, kzeroP, kzeroP, kzeroP, kzeroP, kzeroP, kzeroP, ⟨0,0,23328,0,0,0,0,0,0,0,0,0,0,0,0,0⟩, ⟨0,0,23328,0,0,0,0,0,0,0,0,0,0,0,0,0⟩, kzeroP, kzeroP, kzeroP],
   [kzeroP, kzeroP, kzeroP, kzeroP, kzeroP, kzeroP, kzeroP, ⟨0,0,23328,0,0,0,0,0,0,0,0,0,0,0,0,0⟩, ⟨0,0,0,23328,0,0,0,0,0,0,0,0,0,0,0,0⟩, kzeroP, kzeroP, kzeroP],
   [kzeroP, kzeroP, kzeroP, kzeroP, kzeroP, kzeroP, kzeroP, kzeroP, kzeroP, ⟨46656,0,0,0,0,0,0,0,0,0,0,0,0,0,0,0⟩, kzeroP, kzeroP],
   [kzeroP, kzeroP, kzeroP, kzeroP, kzeroP, kzeroP, kzeroP, kzeroP, kzeroP, kzeroP, ⟨46656,0,0,0,0,0,0,0,0,0,0,0,0,0,0,0⟩, kzeroP],
   [kzeroP, kzeroP, kzeroP, kzeroP, kzeroP, kzeroP, kzeroP, kzeroP, kzeroP, kzeroP, kzeroP, ⟨46656,0,0,0,0,0,0,0,0,0,0,0,0,0,0,0⟩]]

def stepMatP7 : MatP :=
  [[⟨279936,0,0,0,0,0,0,0,0,0,0,0,0,0,0,0⟩, kzeroP, kzeroP, kzeroP, kzeroP, kzeroP, kzeroP, kzeroP, kzeroP, kzeroP, kzeroP, kzeroP],
   [kzeroP, ⟨0,0,139968,0,0,0,0,0,0,0,0,0,0,0,0,0⟩, ⟨0,0,139968,0,0,0,0,0,0,0,0,0,0,0,0,0⟩, kzeroP, kzeroP, kzeroP, kzeroP, kzeroP, kzeroP, kzeroP, kzeroP, kzeroP],
   [kzeroP, ⟨0,0,139968,0,0,0,0,0,0,0,0,0,0,0,0,0⟩, ⟨0,0,0,139968,0,0,0,0,0,0,0,0,0,0,0,0⟩, kzeroP, kzeroP, kzeroP, kzeroP, kzeroP, kzeroP, kzeroP, kzeroP, kzeroP],
   [kzeroP, kzeroP, kzeroP, ⟨0,0,139968,0,0,0,0,0,0,0,0,0,0,0,0,0⟩, ⟨0,0,139968,0,0,0,0,0,0,0,0,0,0,0,0,0⟩, kzeroP, kzeroP, kzeroP, kzeroP, kzeroP, kzeroP, kzeroP],
   [kzeroP, kzeroP, kzeroP, ⟨0,0,139968,0,0,0,0,0,0,0,0,0,0,0,0,0⟩, ⟨0,0,0,139968,0,0,0,0,0,0,0,0,0,0,0,0⟩, kzeroP, kzeroP, kzeroP, kzeroP, kzeroP, kzeroP, kzeroP],
   [kzeroP, kzeroP, kzeroP, kzeroP, kzeroP, ⟨279936,0,0,0,0,0,0,0,0,0,0,0,0,0,0,0⟩, kzeroP, kzeroP, kzeroP, kzeroP, kzeroP, kzeroP],
   [kzeroP, kzeroP, kzeroP, kzeroP, kzeroP, kzeroP, ⟨279936,0,0,0,0,0,0,0,0,0,0,0,0,0,0,0⟩, kzeroP, kzeroP, kzeroP, kzeroP, kzeroP],
   [kzeroP, kzeroP, kzeroP, kzeroP, kzeroP, kzeroP, kzeroP, ⟨0,0,139968,0,0,0,0,0,0,0,0,0,0,0,0,0⟩, ⟨0,0,139968,0,0,0,0,0,0,0,0,0,0,0,0,0⟩, kzeroP, kzeroP, kzeroP],
   [kzeroP, kzeroP, kzeroP, kzeroP, kzeroP, kzeroP, kzeroP, ⟨0,0,139968,0,0,0,0,0,0,0,0,0,0,0,0,0⟩, ⟨0,0,0,139968,0,0,0,0,0,0,0,0,0,0,0,0⟩, kzeroP, kzeroP, kzeroP],
   [kzeroP, kzeroP, kzeroP, kzeroP, kzeroP, kzeroP, kzeroP, kzeroP, kzeroP, ⟨0,0,139968,0,0,0,0,0,0,0,0,0,0,0,0,0⟩, ⟨0,0,139968,0,0,0,0,0,0,0,0,0,0,0,0,0⟩, kzeroP],
   [kzeroP, kzeroP, kzeroP, kzeroP, kzeroP, kzeroP, kzeroP, kzeroP, kzeroP, ⟨0,0,0,139968,0,0,0,0,0,0,0,0,0,0,0,0⟩, ⟨0,0,139968,0,0,0,0,0,0,0,0,0,0,0,0,0⟩, kzeroP],
   [kzeroP, kzeroP, kzeroP, kzeroP, kzeroP, kzeroP, kzeroP, kzeroP, kzeroP, kzeroP, kzeroP, ⟨279936,0,0,0,0,0,0,0,0,0,0,0,0,0,0,0⟩]]

def stepMatP8 : MatP :=
  [[⟨1679616,0,0,0,0,0,0,0,0,0,0,0,0,0,0,0⟩, kzeroP, kzeroP, kzeroP, kzeroP, kzeroP, kzeroP, kzeroP, kzeroP, kzeroP, kzeroP, kzeroP],
   [kzeroP, ⟨0,0,839808,0,0,0,0,0,0,0,0,0,0,0,0,0⟩, ⟨0,0,839808,0,0,0,0,0,0,0,0,0,0,0,0,0⟩, kzeroP, kzeroP, kzeroP, kzeroP, kzeroP, kzeroP, kzeroP, kzeroP, kzeroP],
   [kzeroP, ⟨0,0,839808,0,0,0,0,0,0,0,0,0,0,0,0,0⟩, ⟨0,0,0,839808,0,0,0,0,0,0,0,0,0,0,0,0⟩, kzeroP, kzeroP, kzeroP, kzeroP, kzeroP, kzeroP, kzeroP, kzeroP, kzeroP],
   [kzeroP, kzeroP, kzeroP, ⟨0,0,839808,0,0,0,0,0,0,0,0,0,0,0,0,0⟩, ⟨0,0,839808,0,0,0,0,0,0,0,0,0,0,0,0,0⟩, kzeroP, kzeroP, kzeroP, kzeroP, kzeroP, kzeroP, kzeroP],
   [kzeroP, kzeroP, kzeroP, ⟨0,0,839808,0,0,0,0,0,0,0,0,0,0,0,0,0⟩, ⟨0,0,0,839808,0,0,0,0,0,0,0,0,0,0,0,0⟩, kzeroP, kzeroP, kzeroP, kzeroP, kzeroP, kzeroP, kzeroP],
   [kzeroP, kzeroP, kzeroP, kzeroP, kzeroP, ⟨1679616,0,0,0,0,0,0,0,0,0,0,0,0,0,0,0⟩, kzeroP, kzeroP, kzeroP, kzeroP, kzeroP, kzeroP],
   [kzeroP, kzeroP, kzeroP, kzeroP, kzeroP, kzeroP, ⟨1679616,0,0,0,0,0,0,0,0,0,0,0,0,0,0,0⟩, kzeroP, kzeroP, kzeroP, kzeroP, kzeroP],
   [kzeroP, kzeroP, kzeroP, kzeroP, kzeroP, kzeroP, kzeroP, ⟨0,0,839808,0,0,0,0,0,0,0,0,0,0,0,0,0⟩, ⟨0,0,839808,0,0,0,0,0,0,0,0,0,0,0,0,0⟩, kzeroP, kzeroP, kzeroP],
   [kzeroP, kzeroP, kzeroP, kzeroP, kzeroP, kzeroP, kzeroP, ⟨0,0,839808,0,0,0,0,0,0,0,0,0,0,0,0,0⟩, ⟨0,0,0,839808,0,0,0,0,0,0,0,0,0,0,0,0⟩, kzeroP, kzeroP, kzeroP],
   [kzeroP, kzeroP, kzeroP, kzeroP, kzeroP, kzeroP, kzeroP, kzeroP, kzeroP, ⟨0,0,839808,0,0,0,0,0,0,0,0,0,0,0,0,0⟩, ⟨0,0,839808,0,0,0,0,0,0,0,0,0,0,0,0,0⟩, kzeroP],
   [kzeroP, kzeroP, kzeroP, kzeroP, kzeroP, kzeroP, kzeroP, kzeroP, kzeroP, ⟨0,0,839808,0,0,0,0,0,0,0,0,0,0,0,0,0⟩, ⟨0,0,0,839808,0,0,0,0,0,0,0,0,0,0,0,0⟩, kzeroP],
   [kzeroP, kzeroP, kzeroP, kzeroP, kzeroP, kzeroP, kzeroP, kzeroP, kzeroP, kzeroP, kzeroP, ⟨1679616,0,0,0,0,0,0,0,0,0,0,0,0,0,0,0⟩]]

def stepMatP9 : MatP :=
  [[⟨0,0,0,0,3359232,0,0,0,0,0,0,0,0,0,0,0⟩, ⟨0,0,0,0,0,0,0,0,0,0,0,0,3359232,0,0,0⟩, ⟨0,0,0,0,0,0,0,0,0,0,0,0,3359232,0,0,0⟩, kzeroP, kzeroP, kzeroP, kzeroP, kzeroP, kzeroP, kzeroP, kzeroP, kzeroP],
   [⟨0,0,0,0,0,0,0,0,0,0,0,0,0,0,3359232,0⟩, ⟨0,0,0,0,0,0,1679616,0,0,0,0,0,0,0,0,0⟩, ⟨0,0,0,0,0,0,1679616,0,0,0,0,0,0,0,0,0⟩, kzeroP, kzeroP, kzeroP, kzeroP, kzeroP, kzeroP, kzeroP, kzeroP, kzeroP],
   [kzeroP, ⟨0,0,5038848,0,0,0,0,0,0,0,0,0,0,0,0,0⟩, ⟨0,0,0,5038848,0,0,0,0,0,0,0,0,0,0,0,0⟩, kzeroP, kzeroP, kzeroP, kzeroP, kzeroP, kzeroP, kzeroP, kzeroP, kzeroP],
   [kzeroP, kzeroP, kzeroP, ⟨0,0,5038848,0,0,0,0,0,0,0,0,0,0,0,0,0⟩, ⟨0,0,5038848,0,0,0,0,0,0,0,0,0,0,0,0,0⟩, kzeroP, kzeroP, kzeroP, kzeroP, kzeroP, kzeroP, kzeroP],
   [kzeroP, kzeroP, kzeroP, ⟨0,0,5038848,0,0,0,0,0,0,0,0,0,0,0,0,0⟩, ⟨0,0,0,5038848,0,0,0,0,0,0,0,0,0,0,0,0⟩, kzeroP, kzeroP, kzeroP, kzeroP, kzeroP, kzeroP, kzeroP],
   [kzeroP, kzeroP, kzeroP, kzeroP, kzeroP, ⟨10077696,0,0,0,0,0,0,0,0,0,0,0,0,0,0,0⟩, kzeroP, kzeroP, kzeroP, kzeroP, kzeroP, kzeroP],
   [kzeroP, kzeroP, kzeroP, kzeroP, kzeroP, kzeroP, ⟨10077696,0,0,0,0,0,0,0,0,0,0,0,0,0,0,0⟩, kzeroP, kzeroP, kzeroP, kzeroP, kzeroP],
   [kzeroP, kzeroP, kzeroP, kzeroP, kzeroP, kzeroP, kzeroP, ⟨0,0,5038848,0,0,0,0,0,0,0,0,0,0,0,0,0⟩, ⟨0,0,5038848,0,0,0,0,0,0,0,0,0,0,0,0,0⟩, kzeroP, kzeroP, kzeroP],
   [kzeroP, kzeroP, kzeroP, kzeroP, kzeroP, kzeroP, kzeroP, ⟨0,0,5038848,0,0,0,0,0,0,0,0,0,0,0,0,0⟩, ⟨0,0,0,5038848,0,0,0,0,0,0,0,0,0,0,0,0⟩, kzeroP, kzeroP, kzeroP],
   [kzeroP, kzeroP, kzeroP, kzeroP, kzeroP, kzeroP, kzeroP, kzeroP, kzeroP, ⟨0,0,5038848,0,0,0,0,0,0,0,0,0,0,0,0,0⟩, ⟨0,0,5038848,0,0,0,0,0,0,0,0,0,0,0,0,0⟩, kzeroP],
   [kzeroP, kzeroP, kzeroP, kzeroP, kzeroP, kzeroP, kzeroP, kzeroP, kzeroP, ⟨0,0,5038848,0,0,0,0,0,0,0,0,0,0,0,0,0⟩, ⟨0,0,0,5038848,0,0,0,0,0,0,0,0,0,0,0,0⟩, kzeroP],
   [kzeroP, kzeroP, kzeroP, kzeroP, kzeroP, kzeroP, kzeroP, kzeroP, kzeroP, kzeroP, kzeroP, ⟨10077696,0,0,0,0,0,0,0,0,0,0,0,0,0,0,0⟩]]

def stepMatP10 : MatP :=
  [[⟨0,0,0,0,20155392,0,0,0,0,0,0,0,0,0,0,0⟩, ⟨0,0,0,0,0,0,0,0,0,0,0,0,20155392,0,0,0⟩, ⟨0,0,0,0,0,0,0,0,0,0,0,0,20155392,0,0,0⟩, kzeroP, kzeroP, kzeroP, kzeroP, kzeroP, kzeroP, kzeroP, kzeroP, kzeroP],
   [⟨0,0,0,0,0,0,0,0,0,0,0,0,0,0,20155392,0⟩, ⟨0,0,0,0,0,0,10077696,0,0,0,0,0,0,0,0,0⟩, ⟨0,0,0,0,0,0,10077696,0,0,0,0,0,0,0,0,0⟩, kzeroP, kzeroP, kzeroP, kzeroP, kzeroP, kzeroP, kzeroP, kzeroP, kzeroP],
   [kzeroP, ⟨0,0,0,0,0,0,10077696,0,0,0,0,0,0,0,0,0⟩, ⟨0,0,0,0,0,0,0,10077696,0,0,0,0,0,0,0,0⟩, ⟨0,0,0,0,0,0,0,0,0,0,0,0,20155392,0,0,0⟩, ⟨0,0,0,0,0,0,0,0,0,0,0,0,20155392,0,0,0⟩, kzeroP, kzeroP, kzeroP, kzeroP, kzeroP, kzeroP, kzeroP],
   [kzeroP, ⟨0,0,0,0,0,0,0,0,0,0,0,0,20155392,0,0,0⟩, ⟨0,0,0,0,0,0,0,0,0,0,0,0,0,20155392,0,0⟩, ⟨0,0,0,0,0,0,10077696,0,0,0,0,0,0,0,0,0⟩, ⟨0,0,0,0,0,0,10077696,0,0,0,0,0,0,0,0,0⟩, kzeroP, kzeroP, kzeroP, kzeroP, kzeroP, kzeroP, kzeroP],
   [kzeroP, kzeroP, kzeroP, ⟨0,0,30233088,0,0,0,0,0,0,0,0,0,0,0,0,0⟩, ⟨0,0,0,30233088,0,0,0,0,0,0,0,0,0,0,0,0⟩, kzeroP, kzeroP, kzeroP, kzeroP, kzeroP, kzeroP, kzeroP],
   [kzeroP, kzeroP, kzeroP, kzeroP, kzeroP, ⟨60466176,0,0,0,0,0,0,0,0,0,0,0,0,0,0,0⟩, kzeroP, kzeroP, kzeroP, kzeroP, kzeroP, kzeroP],
   [kzeroP, kzeroP, kzeroP, kzeroP, kzeroP, kzeroP, ⟨60466176,0,0,0,0,0,0,0,0,0,0,0,0,0,0,0⟩, kzeroP, kzeroP, kzeroP, kzeroP, kzeroP],
   [kzeroP, kzeroP, kzeroP, kzeroP, kzeroP, kzeroP, kzeroP, ⟨0,0,30233088,0,0,0,0,0,0,0,0,0,0,0,0,0⟩, ⟨0,0,30233088,0,0,0,0,0,0,0,0,0,0,0,0,0⟩, kzeroP, kzeroP, kzeroP],
   [kzeroP, kzeroP, kzeroP, kzeroP, kzeroP, kzeroP, kzeroP, ⟨0,0,30233088,0,0,0,0,0,0,0,0,0,0,0,0,0⟩, ⟨0,0,0,30233088,0,0,0,0,0,0,0,0,0,0,0,0⟩, kzeroP, kzeroP, kzeroP],
   [kzeroP, kzeroP, kzeroP, kzeroP, kzeroP, kzeroP, kzeroP, kzeroP, kzeroP, ⟨0,0,30233088,0,0,0,0,0,0,0,0,0,0,0,0,0⟩, ⟨0,0,30233088,0,0,0,0,0,0,0,0,0,0,0,0,0⟩, kzeroP],
   [kzeroP, kzeroP, kzeroP, kzeroP, kzeroP, kzeroP, kzeroP, kzeroP, kzeroP, ⟨0,0,30233088,0,0,0,0,0,0,0,0,0,0,0,0,0⟩, ⟨0,0,0,30233088,0,0,0,0,0,0,0,0,0,0,0,0⟩, kzeroP],
   [kzeroP, kzeroP, kzeroP, kzeroP, kzeroP, kzeroP, kzeroP, kzeroP, kzeroP, kzeroP, kzeroP, ⟨60466176,0,0,0,0,0,0,0,0,0,0,0,0,0,0,0⟩]]

def stepMatP11 : MatP :=
  [[⟨0,0,0,0,120932352,0,0,0,0,0,0,0,0,0,0,0⟩, ⟨0,0,0,0,0,0,0,0,0,0,0,0,120932352,0,0,0⟩, ⟨0,0,0,0,0,0,0,0,0,0,0,0,120932352,0,0,0⟩, kzeroP, kzeroP, kzeroP, kzeroP, kzeroP, kzeroP, kzeroP, kzeroP, kzeroP],
   [⟨0,0,0,0,0,0,0,0,0,0,0,0,0,0,120932352,0⟩, ⟨0,0,0,0,0,0,60466176,0,0,0,0,0,0,0,0,0⟩, ⟨0,0,0,0,0,0,60466176,0,0,0,0,0,0,0,0,0⟩, kzeroP, kzeroP, kzeroP, kzeroP, kzeroP, kzeroP, kzeroP, kzeroP, kzeroP],
   [kzeroP, ⟨0,0,0,0,0,0,60466176,0,0,0,0,0,0,0,0,0⟩, ⟨0,0,0,0,0,0,0,60466176,0,0,0,0,0,0,0,0⟩, ⟨0,0,0,0,0,0,0,0,0,0,0,0,120932352,0,0,0⟩, ⟨0,0,0,0,0,0,0,0,0,0,0,0,120932352,0,0,0⟩, kzeroP, kzeroP, kzeroP, kzeroP, kzeroP, kzeroP, kzeroP],
   [kzeroP, ⟨0,0,0,0,0,0,0,0,0,0,0,0,120932352,0,0,0⟩, ⟨0,0,0,0,0,0,0,0,0,0,0,0,0,120932352,0,0⟩, ⟨0,0,0,0,0,0,60466176,0,0,0,0,0,0,0,0,0⟩, ⟨0,0,0,0,0,0,60466176,0,0,0,0,0,0,0,0,0⟩, kzeroP, kzeroP, kzeroP, kzeroP, kzeroP, kzeroP, kzeroP],
   [kzeroP, kzeroP, kzeroP, ⟨0,0,0,0,0,0,60466176,0,0,0,0,0,0,0,0,0⟩, ⟨0,0,0,0,0,0,0,60466176,0,0,0,0,0,0,0,0⟩, ⟨0,0,0,0,0,0,0,0,0,0,0,0,0,0,120932352,0⟩, kzeroP, kzeroP, kzeroP, kzeroP, kzeroP, kzeroP],
   [kzeroP, kzeroP, kzeroP, ⟨0,0,0,0,0,0,0,0,0,0,0,0,120932352,0,0,0⟩, ⟨0,0,0,0,0,0,0,0,0,0,0,0,0,120932352,0,0⟩, ⟨0,0,0,0,120932352,0,0,0,0,0,0,0,0,0,0,0⟩, kzeroP, kzeroP, kzeroP, kzeroP, kzeroP, kzeroP],
   [kzeroP, kzeroP, kzeroP, kzeroP, kzeroP, kzeroP, ⟨362797056,0,0,0,0,0,0,0,0,0,0,0,0,0,0,0⟩, kzeroP, kzeroP, kzeroP, kzeroP, kzeroP],
   [kzeroP, kzeroP, kzeroP, kzeroP, kzeroP, kzeroP, kzeroP, ⟨0,0,181398528,0,0,0,0,0,0,0,0,0,0,0,0,0⟩, ⟨0,0,181398528,0,0,0,0,0,0,0,0,0,0,0,0,0⟩, kzeroP, kzeroP, kzeroP],
   [kzeroP, kzeroP, kzeroP, kzeroP, kzeroP, kzeroP, kzeroP, ⟨0,0,181398528,0,0,0,0,0,0,0,0,0,0,0,0,0⟩, ⟨0,0,0,181398528,0,0,0,0,0,0,0,0,0,0,0,0⟩, kzeroP, kzeroP, kzeroP],
   [kzeroP, kzeroP, kzeroP, kzeroP, kzeroP, kzeroP, kzeroP, kzeroP, kzeroP, ⟨0,0,181398528,0,0,0,0,0,0,0,0,0,0,0,0,0⟩, ⟨0,0,181398528,0,0,0,0,0,0,0,0,0,0,0,0,0⟩, kzeroP],
   [kzeroP, kzeroP, kzeroP, kzeroP, kzeroP, kzeroP, kzeroP, kzeroP, kzeroP, ⟨0,0,181398528,0,0,0,0,0,0,0,0,0,0,0,0,0⟩, ⟨0,0,0,181398528,0,0,0,0,0,0,0,0,0,0,0,0⟩, kzeroP],
   [kzeroP, kzeroP, kzeroP, kzeroP, kzeroP, kzeroP, kzeroP, kzeroP, kzeroP, kzeroP, kzeroP, ⟨362797056,0,0,0,0,0,0,0,0,0,0,0,0,0,0,0⟩]]

def stepMatP12 : MatP :=
  [[⟨0,0,0,0,725594112,0,0,0,0,0,0,0,0,0,0,0⟩, ⟨0,0,0,0,0,0,0,0,0,0,0,0,725594112,0,0,0⟩, ⟨0,0,0,0,0,0,0,0,0,0,0,0,725594112,0,0,0⟩, kzeroP, kzeroP, kzeroP, kzeroP, kzeroP, kzeroP, kzeroP, kzeroP, kzeroP],
   [⟨0,0,0,0,0,0,0,0,0,0,0,0,0,0,725594112,0⟩, ⟨0,0,0,0,0,0,362797056,0,0,0,0,0,0,0,0,0⟩, ⟨0,0,0,0,0,0,362797056,0,0,0,0,0,0,0,0,0⟩, kzeroP, kzeroP, kzeroP, kzeroP, kzeroP, kzeroP, kzeroP, kzeroP, kzeroP],
   [kzeroP, ⟨0,0,0,0,0,0,362797056,0,0,0,0,0,0,0,0,0⟩, ⟨0,0,0,0,0,0,0,362797056,0,0,0,0,0,0,0,0⟩, ⟨0,0,0,0,0,0,0,0,0,0,0,0,725594112,0,0,0⟩, ⟨0,0,0,0,0,0,0,0,0,0,0,0,725594112,0,0,0⟩, kzeroP, kzeroP, kzeroP, kzeroP, kzeroP, kzeroP, kzeroP],
   [kzeroP, ⟨0,0,0,0,0,0,0,0,0,0,0,0,725594112,0,0,0⟩, ⟨0,0,0,0,0,0,0,0,0,0,0,0,0,725594112,0,0⟩, ⟨0,0,0,0,0,0,362797056,0,0,0,0,0,0,0,0,0⟩, ⟨0,0,0,0,0,0,362797056,0,0,0,0,0,0,0,0,0⟩, kzeroP, kzeroP, kzeroP, kzeroP, kzeroP, kzeroP, kzeroP],
   [kzeroP, kzeroP, kzeroP, ⟨0,0,0,0,0,0,362797056,0,0,0,0,0,0,0,0,0⟩, ⟨0,0,0,0,0,0,0,362797056,0,0,0,0,0,0,0,0⟩, ⟨0,0,0,0,0,0,0,0,0,0,0,0,0,0,725594112,0⟩, kzeroP, kzeroP, kzeroP, kzeroP, kzeroP, kzeroP],
   [kzeroP, kzeroP, kzeroP, ⟨0,0,0,0,0,0,0,0,0,0,0,0,725594112,0,0,0⟩, ⟨0,0,0,0,0,0,0,0,0,0,0,0,0,725594112,0,0⟩, ⟨0,0,0,0,725594112,0,0,0,0,0,0,0,0,0,0,0⟩, kzeroP, kzeroP, kzeroP, kzeroP, kzeroP, kzeroP],
   [kzeroP, kzeroP, kzeroP, kzeroP, kzeroP, kzeroP, ⟨0,0,0,0,725594112,0,0,0,0,0,0,0,0,0,0,0⟩, ⟨0,0,0,0,0,0,0,0,0,0,0,0,725594112,0,0,0⟩, ⟨0,0,0,0,0,0,0,0,0,0,0,0,725594112,0,0,0⟩, kzeroP, kzeroP, kzeroP],
   [kzeroP, kzeroP, kzeroP, kzeroP, kzeroP, kzeroP, ⟨0,0,0,0,0,0,0,0,0,0,0,0,0,0,725594112,0⟩, ⟨0,0,0,0,0,0,362797056,0,0,0,0,0,0,0,0,0⟩, ⟨0,0,0,0,0,0,362797056,0,0,0,0,0,0,0,0,0⟩, kzeroP, kzeroP, kzeroP],
   [kzeroP, kzeroP, kzeroP, kzeroP, kzeroP, kzeroP, kzeroP, ⟨0,0,1088391168,0,0,0,0,0,0,0,0,0,0,0,0,0⟩, ⟨0,0,0,1088391168,0,0,0,0,0,0,0,0,0,0,0,0⟩, kzeroP, kzeroP, kzeroP],
   [kzeroP, kzeroP, kzeroP, kzeroP, kzeroP, kzeroP, kzeroP, kzeroP, kzeroP, ⟨0,0,1088391168,0,0,0,0,0,0,0,0,0,0,0,0,0⟩, ⟨0,0,1088391168,0,0,0,0,0,0,0,0,0,0,0,0,0⟩, kzeroP],
   [kzeroP, kzeroP, kzeroP, kzeroP, kzeroP, kzeroP, kzeroP, kzeroP, kzeroP, ⟨0,0,1088391168,0,0,0,0,0,0,0,0,0,0,0,0,0⟩, ⟨0,0,0,1088391168,0,0,0,0,0,0,0,0,0,0,0,0⟩, kzeroP],
   [kzeroP, kzeroP, kzeroP, kzeroP, kzeroP, kzeroP, kzeroP, kzeroP, kzeroP, kzeroP, kzeroP, ⟨2176782336,0,0,0,0,0,0,0,0,0,0,0,0,0,0,0⟩]]

def stepMatP13 : MatP :=
  [[⟨0,0,0,0,4353564672,0,0,0,0,0,0,0,0,0,0,0⟩, ⟨0,0,0,0,0,0,0,0,0,0,0,0,4353564672,0,0,0⟩, ⟨0,0,0,0,0,0,0,0,0,0,0,0,4353564672,0,0,0⟩, kzeroP, kzeroP, kzeroP, kzeroP, kzeroP, kzeroP, kzeroP, kzeroP, kzeroP],
   [⟨0,0,0,0,0,0,0,0,0,0,0,0,0,0,4353564672,0⟩, ⟨0,0,0,0,0,0,2176782336,0,0,0,0,0,0,0,0,0⟩, ⟨0,0,0,0,0,0,2176782336,0,0,0,0,0,0,0,0,0⟩, kzeroP, kzeroP, kzeroP, kzeroP, kzeroP, kzeroP, kzeroP, kzeroP, kzeroP],
   [kzeroP, ⟨0,0,0,0,0,0,2176782336,0,0,0,0,0,0,0,0,0⟩, ⟨0,0,0,0,0,0,0,2176782336,0,0,0,0,0,0,0,0⟩, ⟨0,0,0,0,0,0,0,0,0,0,0,0,4353564672,0,0,0⟩, ⟨0,0,0,0,0,0,0,0,0,0,0,0,4353564672,0,0,0⟩, kzeroP, kzeroP, kzeroP, kzeroP, kzeroP, kzeroP, kzeroP],
   [kzeroP, ⟨0,0,0,0,0,0,0,0,0,0,0,0,4353564672,0,0,0⟩, ⟨0,0,0,0,0,0,0,0,0,0,0,0,0,4353564672,0,0⟩, ⟨0,0,0,0,0,0,2176782336,0,0,0,0,0,0,0,0,0⟩, ⟨0,0,0,0,0,0,2176782336,0,0,0,0,0,0,0,0,0⟩, kzeroP, kzeroP, kzeroP, kzeroP, kzeroP, kzeroP, kzeroP],
   [kzeroP, kzeroP, kzeroP, ⟨0,0,0,0,0,0,2176782336,0,0,0,0,0,0,0,0,0⟩, ⟨0,0,0,0,0,0,0,2176782336,0,0,0,0,0,0,0,0⟩, ⟨0,0,0,0,0,0,0,0,0,0,0,0,0,0,4353564672,0⟩, kzeroP, kzeroP, kzeroP, kzeroP, kzeroP, kzeroP],
   [kzeroP, kzeroP, kzeroP, ⟨0,0,0,0,0,0,0,0,0,0,0,0,4353564672,0,0,0⟩, ⟨0,0,0,0,0,0,0,0,0,0,0,0,0,4353564672,0,0⟩, ⟨0,0,0,0,4353564672,0,0,0,0,0,0,0,0,0,0,0⟩, kzeroP, kzeroP, kzeroP, kzeroP, kzeroP, kzeroP],
   [kzeroP, kzeroP, kzeroP, kzeroP, kzeroP, kzeroP, ⟨0,0,0,0,4353564672,0,0,0,0,0,0,0,0,0,0,0⟩, ⟨0,0,0,0,0,0,0,0,0,0,0,0,4353564672,0,0,0⟩, ⟨0,0,0,0,0,0,0,0,0,0,0,0,4353564672,0,0,0⟩, kzeroP, kzeroP, kzeroP],
   [kzeroP, kzeroP, kzeroP, kzeroP, kzeroP, kzeroP, ⟨0,0,0,0,0,0,0,0,0,0,0,0,0,0,4353564672,0⟩, ⟨0,0,0,0,0,0,2176782336,0,0,0,0,0,0,0,0,0⟩, ⟨0,0,0,0,0,0,2176782336,0,0,0,0,0,0,0,0,0⟩, kzeroP, kzeroP, kzeroP],
   [kzeroP, kzeroP, kzeroP, kzeroP, kzeroP, kzeroP, kzeroP, ⟨0,0,0,0,0,0,2176782336,0,0,0,0,0,0,0,0,0⟩, ⟨0,0,0,0,0,0,0,2176782336,0,0,0,0,0,0,0,0⟩, ⟨0,0,0,0,0,0,0,0,0,0,0,0,4353564672,0,0,0⟩, ⟨0,0,0,0,0,0,0,0,0,0,0,0,4353564672,0,0,0⟩, kzeroP],
   [kzeroP, kzeroP, kzeroP, kzeroP, kzeroP, kzeroP, kzeroP, ⟨0,0,0,0,0,0,0,0,0,0,0,0,4353564672,0,0,0⟩, ⟨0,0,0,0,0,0,0,0,0,0,0,0,0,4353564672,0,0⟩, ⟨0,0,0,0,0,0,2176782336,0,0,0,0,0,0,0,0,0⟩, ⟨0,0,0,0,0,0,2176782336,0,0,0,0,0,0,0,0,0⟩, kzeroP],
   [kzeroP, kzeroP, kzeroP, kzeroP, kzeroP, kzeroP, kzeroP, kzeroP, kzeroP, ⟨0,0,6530347008,0,0,0,0,0,0,0,0,0,0,0,0,0⟩, ⟨0,0,0,6530347008,0,0,0,0,0,0,0,0,0,0,0,0⟩, kzeroP],
   [kzeroP, kzeroP, kzeroP, kzeroP, kzeroP, kzeroP, kzeroP, kzeroP, kzeroP, kzeroP, kzeroP, ⟨13060694016,0,0,0,0,0,0,0,0,0,0,0,0,0,0,0⟩]]

def stepMatP14 : MatP :=
  [[⟨0,0,0,0,26121388032,0,0,0,0,0,0,0,0,0,0,0⟩, ⟨0,0,0,0,0,0,0,0,0,0,0,0,26121388032,0,0,0⟩, ⟨0,0,0,0,0,0,0,0,0,0,0,0,26121388032,0,0,0⟩, kzeroP, kzeroP, kzeroP, kzeroP, kzeroP, kzeroP, kzeroP, kzeroP, kzeroP],
   [⟨0,0,0,0,0,0,0,0,0,0,0,0,0,0,26121388032,0⟩, ⟨0,0,0,0,0,0,13060694016,0,0,0,0,0,0,0,0,0⟩, ⟨0,0,0,0,0,0,13060694016,0,0,0,0,0,0,0,0,0⟩, kzeroP, kzeroP, kzeroP, kzeroP, kzeroP, kzeroP, kzeroP, kzeroP, kzeroP],
   [kzeroP, ⟨0,0,0,0,0,0,13060694016,0,0,0,0,0,0,0,0,0⟩, ⟨0,0,0,0,0,0,0,13060694016,0,0,0,0,0,0,0,0⟩, ⟨0,0,0,0,0,0,0,0,0,0,0,0,26121388032,0,0,0⟩, ⟨0,0,0,0,0,0,0,0,0,0,0,0,26121388032,0,0,0⟩, kzeroP, kzeroP, kzeroP, kzeroP, kzeroP, kzeroP, kzeroP],
   [kzeroP, ⟨0,0,0,0,0,0,0,0,0,0,0,0,26121388032,0,0,0⟩, ⟨0,0,0,0,0,0,0,0,0,0,0,0,0,26121388032,0,0⟩, ⟨0,0,0,0,0,0,13060694016,0,0,0,0,0,0,0,0,0⟩, ⟨0,0,0,0,0,0,13060694016,0,0,0,0,0,0,0,0,0⟩, kzeroP, kzeroP, kzeroP, kzeroP, kzeroP, kzeroP, kzeroP],
   [kzeroP, kzeroP, kzeroP, ⟨0,0,0,0,0,0,13060694016,0,0,0,0,0,0,0,0,0⟩, ⟨0,0,0,0,0,0,0,13060694016,0,0,0,0,0,0,0,0⟩, ⟨0,0,0,0,0,0,0,0,0,0,0,0,0,0,26121388032,0⟩, kzeroP, kzeroP, kzeroP, kzeroP, kzeroP, kzeroP],
   [kzeroP, kzeroP, kzeroP, ⟨0,0,0,0,0,0,0,0,0,0,0,0,26121388032,0,0,0⟩, ⟨0,0,0,0,0,0,0,0,0,0,0,0,0,26121388032,0,0⟩, ⟨0,0,0,0,26121388032,0,0,0,0,0,0,0,0,0,0,0⟩, kzeroP, kzeroP, kzeroP, kzeroP, kzeroP, kzeroP],
   [kzeroP, kzeroP, kzeroP, kzeroP, kzeroP, kzeroP, ⟨0,0,0,0,26121388032,0,0,0,0,0,0,0,0,0,0,0⟩, ⟨0,0,0,0,0,0,0,0,0,0,0,0,26121388032,0,0,0⟩, ⟨0,0,0,0,0,0,0,0,0,0,0,0,26121388032,0,0,0⟩, kzeroP, kzeroP, kzeroP],
   [kzeroP, kzeroP, kzeroP, kzeroP, kzeroP, kzeroP, ⟨0,0,0,0,0,0,0,0,0,0,0,0,0,0,26121388032,0⟩, ⟨0,0,0,0,0,0,13060694016,0,0,0,0,0,0,0,0,0⟩, ⟨0,0,0,0,0,0,13060694016,0,0,0,0,0,0,0,0,0⟩, kzeroP, kzeroP, kzeroP],
   [kzeroP, kzeroP, kzeroP, kzeroP, kzeroP, kzeroP, kzeroP, ⟨0,0,0,0,0,0,13060694016,0,0,0,0,0,0,0,0,0⟩, ⟨0,0,0,0,0,0,0,13060694016,0,0,0,0,0,0,0,0⟩, ⟨0,0,0,0,0,0,0,0,0,0,0,0,26121388032,0,0,0⟩, ⟨0,0,0,0,0,0,0,0,0,0,0,0,26121388032,0,0,0⟩, kzeroP],
   [kzeroP, kzeroP, kzeroP, kzeroP, kzeroP, kzeroP, kzeroP, ⟨0,0,0,0,0,0,0,0,0,0,0,0,26121388032,0,0,0⟩, ⟨0,0,0,0,0,0,0,0,0,0,0,0,0,26121388032,0,0⟩, ⟨0,0,0,0,0,0,13060694016,0,0,0,0,0,0,0,0,0⟩, ⟨0,0,0,0,0,0,13060694016,0,0,0,0,0,0,0,0,0⟩, kzeroP],
   [kzeroP, kzeroP, kzeroP, kzeroP, kzeroP, kzeroP, kzeroP, kzeroP, kzeroP, ⟨0,0,0,0,0,0,13060694016,0,0,0,0,0,0,0,0,0⟩, ⟨0,0,0,0,0,0,0,13060694016,0,0,0,0,0,0,0,0⟩, ⟨0,0,0,0,0,0,0,0,0,0,0,0,0,0,26121388032,0⟩],
   [kzeroP, kzeroP, kzeroP, kzeroP, kzeroP, kzeroP, kzeroP, kzeroP, kzeroP, ⟨0,0,0,0,0,0,0,0,0,0,0,0,26121388032,0,0,0⟩, ⟨0,0,0,0,0,0,0,0,0,0,0,0,0,26121388032,0,0⟩, ⟨0,0,0,0,26121388032,0,0,0,0,0,0,0,0,0,0,0⟩]]

def stepMatP15 : MatP :=
  [[⟨0,0,0,0,156728328192,0,0,0,0,0,0,0,0,0,0,0⟩, ⟨0,0,0,0,0,0,0,0,0,0,0,0,156728328192,0,0,0⟩, ⟨0,0,0,0,0,0,0,0,0,0,0,0,156728328192,0,0,0⟩, kzeroP, kzeroP, kzeroP, kzeroP, kzeroP, kzeroP, kzeroP, kzeroP, kzeroP],
   [⟨0,0,0,0,0,0,0,0,0,0,0,0,0,0,156728328192,0⟩, ⟨0,0,0,0,0,0,78364164096,0,0,0,0,0,0,0,0,0⟩, ⟨0,0,0,0,0,0,78364164096,0,0,0,0,0,0,0,0,0⟩, kzeroP, kzeroP, kzeroP, kzeroP, kzeroP, kzeroP, kzeroP, kzeroP, kzeroP],
   [kzeroP, ⟨0,0,0,0,0,0,78364164096,0,0,0,0,0,0,0,0,0⟩, ⟨0,0,0,0,0,0,0,78364164096,0,0,0,0,0,0,0,0⟩, ⟨0,0,0,0,0,0,0,0,0,0,0,0,156728328192,0,0,0⟩, ⟨0,0,0,0,0,0,0,0,0,0,0,0,156728328192,0,0,0⟩, kzeroP, kzeroP, kzeroP, kzeroP, kzeroP, kzeroP, kzeroP],
   [kzeroP, ⟨0,0,0,0,0,0,0,0,0,0,0,0,0,0,78364164096,0⟩, ⟨0,0,0,0,0,0,0,0,0,0,0,0,0,0,0,78364164096⟩, ⟨0,0,0,0,156728328192,0,0,0,0,0,0,0,0,0,0,0⟩, ⟨0,0,0,0,78364164096,78364164096,0,0,0,0,0,0,0,0,0,0⟩, ⟨0,0,0,0,0,0,0,0,0,0,0,0,156728328192,0,0,0⟩, kzeroP, kzeroP, kzeroP, kzeroP, kzeroP, kzeroP],
   [kzeroP, ⟨0,0,0,0,0,0,0,0,0,0,0,0,0,0,0,78364164096⟩, ⟨0,0,0,0,0,0,0,0,0,0,0,0,0,0,78364164096,0⟩, ⟨0,0,0,0,78364164096,78364164096,0,0,0,0,0,0,0,0,0,0⟩, ⟨0,0,0,0,0,156728328192,0,0,0,0,0,0,0,0,0,0⟩, ⟨0,0,0,0,0,0,0,0,0,0,0,0,156728328192,0,0,0⟩, kzeroP, kzeroP, kzeroP, kzeroP, kzeroP, kzeroP],
   [kzeroP, kzeroP, kzeroP, ⟨0,0,0,0,0,0,0,0,0,0,0,0,156728328192,0,0,0⟩, ⟨0,0,0,0,0,0,0,0,0,0,0,0,0,156728328192,0,0⟩, ⟨0,0,0,0,156728328192,0,0,0,0,0,0,0,0,0,0,0⟩, kzeroP, kzeroP, kzeroP, kzeroP, kzeroP, kzeroP],
   [kzeroP, kzeroP, kzeroP, kzeroP, kzeroP, kzeroP, ⟨0,0,0,0,156728328192,0,0,0,0,0,0,0,0,0,0,0⟩, ⟨0,0,0,0,0,0,0,0,0,0,0,0,156728328192,0,0,0⟩, ⟨0,0,0,0,0,0,0,0,0,0,0,0,156728328192,0,0,0⟩, kzeroP, kzeroP, kzeroP],
   [kzeroP, kzeroP, kzeroP, kzeroP, kzeroP, kzeroP, ⟨0,0,0,0,0,0,0,0,0,0,0,0,0,0,156728328192,0⟩, ⟨0,0,0,0,0,0,78364164096,0,0,0,0,0,0,0,0,0⟩, ⟨0,0,0,0,0,0,78364164096,0,0,0,0,0,0,0,0,0⟩, kzeroP, kzeroP, kzeroP],
   [kzeroP, kzeroP, kzeroP, kzeroP, kzeroP, kzeroP, kzeroP, ⟨0,0,0,0,0,0,78364164096,0,0,0,0,0,0,0,0,0⟩, ⟨0,0,0,0,0,0,0,78364164096,0,0,0,0,0,0,0,0⟩, ⟨0,0,0,0,0,0,0,0,0,0,0,0,156728328192,0,0,0⟩, ⟨0,0,0,0,0,0,0,0,0,0,0,0,156728328192,0,0,0⟩, kzeroP],
   [kzeroP, kzeroP, kzeroP, kzeroP, kzeroP, kzeroP, kzeroP, ⟨0,0,0,0,0,0,0,0,0,0,0,0,156728328192,0,0,0⟩, ⟨0,0,0,0,0,0,0,0,0,0,0,0,0,156728328192,0,0⟩, ⟨0,0,0,0,0,0,78364164096,0,0,0,0,0,0,0,0,0⟩, ⟨0,0,0,0,0,0,78364164096,0,0,0,0,0,0,0,0,0⟩, kzeroP],
   [kzeroP, kzeroP, kzeroP, kzeroP, kzeroP, kzeroP, kzeroP, kzeroP, kzeroP, ⟨0,0,0,0,0,0,78364164096,0,0,0,0,0,0,0,0,0⟩, ⟨0,0,0,0,0,0,0,78364164096,0,0,0,0,0,0,0,0⟩, ⟨0,0,0,0,0,0,0,0,0,0,0,0,0,0,156728328192,0⟩],
   [kzeroP, kzeroP, kzeroP, kzeroP, kzeroP, kzeroP, kzeroP, kzeroP, kzeroP, ⟨0,0,0,0,0,0,0,0,0,0,0,0,156728328192,0,0,0⟩, ⟨0,0,0,0,0,0,0,0,0,0,0,0,0,156728328192,0,0⟩, ⟨0,0,0,0,156728328192,0,0,0,0,0,0,0,0,0,0,0⟩]]

def stepMatP16 : MatP :=
  [[⟨0,0,0,0,940369969152,0,0,0,0,0,0,0,0,0,0,0⟩, ⟨0,0,0,0,0,0,0,0,0,0,0,0,940369969152,0,0,0⟩, ⟨0,0,0,0,0,0,0,0,0,0,0,0,940369969152,0,0,0⟩, kzeroP, kzeroP, kzeroP, kzeroP, kzeroP, kzeroP, kzeroP, kzeroP, kzeroP],
   [⟨0,0,0,0,0,0,0,0,0,0,0,0,0,0,940369969152,0⟩, ⟨0,0,0,0,0,0,470184984576,0,0,0,0,0,0,0,0,0⟩, ⟨0,0,0,0,0,0,470184984576,0,0,0,0,0,0,0,0,0⟩, kzeroP, kzeroP, kzeroP, kzeroP, kzeroP, kzeroP, kzeroP, kzeroP, kzeroP],
   [kzeroP, ⟨0,0,0,0,0,0,470184984576,0,0,0,0,0,0,0,0,0⟩, ⟨0,0,0,0,0,0,0,470184984576,0,0,0,0,0,0,0,0⟩, ⟨0,0,0,0,0,0,0,0,0,0,0,0,940369969152,0,0,0⟩, ⟨0,0,0,0,0,0,0,0,0,0,0,0,940369969152,0,0,0⟩, kzeroP, kzeroP, kzeroP, kzeroP, kzeroP, kzeroP, kzeroP],
   [kzeroP, ⟨0,0,0,0,0,0,0,0,0,0,0,0,0,0,470184984576,0⟩, ⟨0,0,0,0,0,0,0,0,0,0,0,0,0,0,0,470184984576⟩, ⟨0,0,0,0,940369969152,0,0,0,0,0,0,0,0,0,0,0⟩, ⟨0,0,0,0,470184984576,470184984576,0,0,0,0,0,0,0,0,0,0⟩, ⟨0,0,0,0,0,0,0,0,0,0,0,0,940369969152,0,0,0⟩, kzeroP, kzeroP, kzeroP, kzeroP, kzeroP, kzeroP],
   [kzeroP, ⟨0,0,0,0,0,0,0,0,0,0,0,0,0,0,470184984576,0⟩, ⟨0,0,0,0,0,0,0,0,0,0,0,0,0,0,0,470184984576⟩, ⟨0,0,0,0,470184984576,470184984576,0,0,0,0,0,0,0,0,0,0⟩, ⟨0,0,0,0,940369969152,0,0,0,0,0,0,0,0,0,0,0⟩, ⟨0,0,0,0,0,0,0,0,0,0,0,0,0,940369969152,0,0⟩, kzeroP, kzeroP, kzeroP, kzeroP, kzeroP, kzeroP],
   [kzeroP, kzeroP, kzeroP, ⟨0,0,0,0,0,0,0,0,0,0,0,0,940369969152,0,0,0⟩, ⟨0,0,0,0,0,0,0,0,0,0,0,0,0,940369969152,0,0⟩, ⟨0,0,0,0,940369969152,0,0,0,0,0,0,0,0,0,0,0⟩, kzeroP, kzeroP, kzeroP, kzeroP, kzeroP, kzeroP],
   [kzeroP, kzeroP, kzeroP, kzeroP, kzeroP, kzeroP, ⟨0,0,0,0,940369969152,0,0,0,0,0,0,0,0,0,0,0⟩, ⟨0,0,0,0,0,0,0,0,0,0,0,0,940369969152,0,0,0⟩, ⟨0,0,0,0,0,0,0,0,0,0,0,0,940369969152,0,0,0⟩, kzeroP, kzeroP, kzeroP],
   [kzeroP, kzeroP, kzeroP, kzeroP, kzeroP, kzeroP, ⟨0,0,0,0,0,0,0,0,0,0,0,0,0,0,940369969152,0⟩, ⟨0,0,0,0,0,0,470184984576,0,0,0,0,0,0,0,0,0⟩, ⟨0,0,0,0,0,0,470184984576,0,0,0,0,0,0,0,0,0⟩, kzeroP, kzeroP, kzeroP],
   [kzeroP, kzeroP, kzeroP, kzeroP, kzeroP, kzeroP, kzeroP, ⟨0,0,0,0,0,0,470184984576,0,0,0,0,0,0,0,0,0⟩, ⟨0,0,0,0,0,0,0,470184984576,0,0,0,0,0,0,0,0⟩, ⟨0,0,0,0,0,0,0,0,0,0,0,0,940369969152,0,0,0⟩, ⟨0,0,0,0,0,0,0,0,0,0,0,0,940369969152,0,0,0⟩, kzeroP],
   [kzeroP, kzeroP, kzeroP, kzeroP, kzeroP, kzeroP, kzeroP, ⟨0,0,0,0,0,0,0,0,0,0,0,0,940369969152,0,0,0⟩, ⟨0,0,0,0,0,0,0,0,0,0,0,0,0,940369969152,0,0⟩, ⟨0,0,0,0,0,0,470184984576,0,0,0,0,0,0,0,0,0⟩, ⟨0,0,0,0,0,0,470184984576,0,0,0,0,0,0,0,0,0⟩, kzeroP],
   [kzeroP, kzeroP, kzeroP, kzeroP, kzeroP, kzeroP, kzeroP, kzeroP, kzeroP, ⟨0,0,0,0,0,0,470184984576,0,0,0,0,0,0,0,0,0⟩, ⟨0,0,0,0,0,0,0,470184984576,0,0,0,0,0,0,0,0⟩, ⟨0,0,0,0,0,0,0,0,0,0,0,0,0,0,940369969152,0⟩],
   [kzeroP, kzeroP, kzeroP, kzeroP, kzeroP, kzeroP, kzeroP, kzeroP, kzeroP, ⟨0,0,0,0,0,0,0,0,0,0,0,0,940369969152,0,0,0⟩, ⟨0,0,0,0,0,0,0,0,0,0,0,0,0,940369969152,0,0⟩, ⟨0,0,0,0,940369969152,0,0,0,0,0,0,0,0,0,0,0⟩]]

def stepMatP17 : MatP :=
  [[⟨0,0,0,0,5642219814912,0,0,0,0,0,0,0,0,0,0,0⟩, ⟨0,0,0,0,0,0,0,0,0,0,0,0,5642219814912,0,0,0⟩, ⟨0,0,0,0,0,0,0,0,0,0,0,0,5642219814912,0,0,0⟩, kzeroP, kzeroP, kzeroP, kzeroP, kzeroP, kzeroP, kzeroP, kzeroP, kzeroP],
   [⟨0,0,0,0,0,0,0,0,0,0,0,0,0,0,5642219814912,0⟩, ⟨0,0,0,0,0,0,2821109907456,0,0,0,0,0,0,0,0,0⟩, ⟨0,0,0,0,0,0,2821109907456,0,0,0,0,0,0,0,0,0⟩, kzeroP, kzeroP, kzeroP, kzeroP, kzeroP, kzeroP, kzeroP, kzeroP, kzeroP],
   [kzeroP, ⟨0,0,0,0,0,0,2821109907456,0,0,0,0,0,0,0,0,0⟩, ⟨0,0,0,0,0,0,0,2821109907456,0,0,0,0,0,0,0,0⟩, ⟨0,0,0,0,0,0,0,0,0,0,0,0,5642219814912,0,0,0⟩, ⟨0,0,0,0,0,0,0,0,0,0,0,0,5642219814912,0,0,0⟩, kzeroP, kzeroP, kzeroP, kzeroP, kzeroP, kzeroP, kzeroP],
   [kzeroP, ⟨0,0,0,0,0,0,0,0,0,0,0,0,0,0,2821109907456,0⟩, ⟨0,0,0,0,0,0,0,0,0,0,0,0,0,0,0,2821109907456⟩, ⟨0,0,0,0,5642219814912,0,0,0,0,0,0,0,0,0,0,0⟩, ⟨0,0,0,0,2821109907456,2821109907456,0,0,0,0,0,0,0,0,0,0⟩, ⟨0,0,0,0,0,0,0,0,0,0,0,0,5642219814912,0,0,0⟩, kzeroP, kzeroP, kzeroP, kzeroP, kzeroP, kzeroP],
   [kzeroP, ⟨0,0,0,0,0,0,0,0,0,0,0,0,0,0,2821109907456,0⟩, ⟨0,0,0,0,0,0,0,0,0,0,0,0,0,0,0,2821109907456⟩, ⟨0,0,0,0,2821109907456,2821109907456,0,0,0,0,0,0,0,0,0,0⟩, ⟨0,0,0,0,5642219814912,0,0,0,0,0,0,0,0,0,0,0⟩, ⟨0,0,0,0,0,0,0,0,0,0,0,0,0,5642219814912,0,0⟩, kzeroP, kzeroP, kzeroP, kzeroP, kzeroP, kzeroP],
   [kzeroP, kzeroP, kzeroP, ⟨0,0,0,0,0,0,0,0,0,0,0,0,5642219814912,0,0,0⟩, ⟨0,0,0,0,0,0,0,0,0,0,0,0,0,5642219814912,0,0⟩, ⟨0,0,0,0,5642219814912,0,0,0,0,0,0,0,0,0,0,0⟩, kzeroP, kzeroP, kzeroP, kzeroP, kzeroP, kzeroP],
   [kzeroP, kzeroP, kzeroP, kzeroP, kzeroP, kzeroP, ⟨0,0,0,0,5642219814912,0,0,0,0,0,0,0,0,0,0,0⟩, ⟨0,0,0,0,0,0,0,0,0,0,0,0,5642219814912,0,0,0⟩, ⟨0,0,0,0,0,0,0,0,0,0,0,0,5642219814912,0,0,0⟩, kzeroP, kzeroP, kzeroP],
   [kzeroP, kzeroP, kzeroP, kzeroP, kzeroP, kzeroP, ⟨0,0,0,0,0,0,0,0,0,0,0,0,0,0,5642219814912,0⟩, ⟨0,0,0,0,0,0,2821109907456,0,0,0,0,0,0,0,0,0⟩, ⟨0,0,0,0,0,0,2821109907456,0,0,0,0,0,0,0,0,0⟩, kzeroP, kzeroP, kzeroP],
   [kzeroP, kzeroP, kzeroP, kzeroP, kzeroP, kzeroP, kzeroP, ⟨0,0,0,0,0,0,2821109907456,0,0,0,0,0,0,0,0,0⟩, ⟨0,0,0,0,0,0,0,2821109907456,0,0,0,0,0,0,0,0⟩, ⟨0,0,0,0,0,0,0,0,0,0,0,0,5642219814912,0,0,0⟩, ⟨0,0,0,0,0,0,0,0,0,0,0,0,5642219814912,0,0,0⟩, kzeroP],
   [kzeroP, kzeroP, kzeroP, kzeroP, kzeroP, kzeroP, kzeroP, ⟨0,0,0,0,0,0,0,0,0,0,0,0,0,0,2821109907456,0⟩, ⟨0,0,0,0,0,0,0,0,0,0,0,0,0,0,0,2821109907456⟩, ⟨0,0,0,0,5642219814912,0,0,0,0,0,0,0,0,0,0,0⟩, ⟨0,0,0,0,2821109907456,2821109907456,0,0,0,0,0,0,0,0,0,0⟩, ⟨0,0,0,0,0,0,0,0,0,0,0,0,5642219814912,0,0,0⟩],
   [kzeroP, kzeroP, kzeroP, kzeroP, kzeroP, kzeroP, kzeroP, ⟨0,0,0,0,0,0,0,0,0,0,0,0,0,0,0,2821109907456⟩, ⟨0,0,0,0,0,0,0,0,0,0,0,0,0,0,2821109907456,0⟩, ⟨0,0,0,0,2821109907456,2821109907456,0,0,0,0,0,0,0,0,0,0⟩, ⟨0,0,0,0,0,5642219814912,0,0,0,0,0,0,0,0,0,0⟩, ⟨0,0,0,0,0,0,0,0,0,0,0,0,5642219814912,0,0,0⟩],
   [kzeroP, kzeroP, kzeroP, kzeroP, kzeroP, kzeroP, kzeroP, kzeroP, kzeroP, ⟨0,0,0,0,0,0,0,0,0,0,0,0,5642219814912,0,0,0⟩, ⟨0,0,0,0,0,0,0,0,0,0,0,0,0,5642219814912,0,0⟩, ⟨0,0,0,0,5642219814912,0,0,0,0,0,0,0,0,0,0,0⟩]]

def stepMatP18 : MatP :=
  [[⟨0,0,0,0,33853318889472,0,0,0,0,0,0,0,0,0,0,0⟩, ⟨0,0,0,0,0,0,0,0,0,0,0,0,33853318889472,0,0,0⟩, ⟨0,0,0,0,0,0,0,0,0,0,0,0,33853318889472,0,0,0⟩, kzeroP, kzeroP, kzeroP, kzeroP, kzeroP, kzeroP, kzeroP, kzeroP, kzeroP],
   [⟨0,0,0,0,0,0,0,0,0,0,0,0,0,0,33853318889472,0⟩, ⟨0,0,0,0,0,0,16926659444736,0,0,0,0,0,0,0,0,0⟩, ⟨0,0,0,0,0,0,16926659444736,0,0,0,0,0,0,0,0,0⟩, kzeroP, kzeroP, kzeroP, kzeroP, kzeroP, kzeroP, kzeroP, kzeroP, kzeroP],
   [kzeroP, ⟨0,0,0,0,0,0,16926659444736,0,0,0,0,0,0,0,0,0⟩, ⟨0,0,0,0,0,0,0,16926659444736,0,0,0,0,0,0,0,0⟩, ⟨0,0,0,0,0,0,0,0,0,0,0,0,33853318889472,0,0,0⟩, ⟨0,0,0,0,0,0,0,0,0,0,0,0,33853318889472,0,0,0⟩, kzeroP, kzeroP, kzeroP, kzeroP, kzeroP, kzeroP, kzeroP],
   [kzeroP, ⟨0,0,0,0,0,0,0,0,0,0,0,0,0,0,16926659444736,0⟩, ⟨0,0,0,0,0,0,0,0,0,0,0,0,0,0,0,16926659444736⟩, ⟨0,0,0,0,33853318889472,0,0,0,0,0,0,0,0,0,0,0⟩, ⟨0,0,0,0,16926659444736,16926659444736,0,0,0,0,0,0,0,0,0,0⟩, ⟨0,0,0,0,0,0,0,0,0,0,0,0,33853318889472,0,0,0⟩, kzeroP, kzeroP, kzeroP, kzeroP, kzeroP, kzeroP],
   [kzeroP, ⟨0,0,0,0,0,0,0,0,0,0,0,0,0,0,16926659444736,0⟩, ⟨0,0,0,0,0,0,0,0,0,0,0,0,0,0,0,16926659444736⟩, ⟨0,0,0,0,16926659444736,16926659444736,0,0,0,0,0,0,0,0,0,0⟩, ⟨0,0,0,0,33853318889472,0,0,0,0,0,0,0,0,0,0,0⟩, ⟨0,0,0,0,0,0,0,0,0,0,0,0,0,33853318889472,0,0⟩, kzeroP, kzeroP, kzeroP, kzeroP, kzeroP, kzeroP],
   [kzeroP, kzeroP, kzeroP, ⟨0,0,0,0,0,0,0,0,0,0,0,0,33853318889472,0,0,0⟩, ⟨0,0,0,0,0,0,0,0,0,0,0,0,0,33853318889472,0,0⟩, ⟨0,0,0,0,33853318889472,0,0,0,0,0,0,0,0,0,0,0⟩, kzeroP, kzeroP, kzeroP, kzeroP, kzeroP, kzeroP],
   [kzeroP, kzeroP, kzeroP, kzeroP, kzeroP, kzeroP, ⟨0,0,0,0,33853318889472,0,0,0,0,0,0,0,0,0,0,0⟩, ⟨0,0,0,0,0,0,0,0,0,0,0,0,33853318889472,0,0,0⟩, ⟨0,0,0,0,0,0,0,0,0,0,0,0,33853318889472,0,0,0⟩, kzeroP, kzeroP, kzeroP],
   [kzeroP, kzeroP, kzeroP, kzeroP, kzeroP, kzeroP, ⟨0,0,0,0,0,0,0,0,0,0,0,0,0,0,33853318889472,0⟩, ⟨0,0,0,0,0,0,16926659444736,0,0,0,0,0,0,0,0,0⟩, ⟨0,0,0,0,0,0,16926659444736,0,0,0,0,0,0,0,0,0⟩, kzeroP, kzeroP, kzeroP],
   [kzeroP, kzeroP, kzeroP, kzeroP, kzeroP, kzeroP, kzeroP, ⟨0,0,0,0,0,0,16926659444736,0,0,0,0,0,0,0,0,0⟩, ⟨0,0,0,0,0,0,0,16926659444736,0,0,0,0,0,0,0,0⟩, ⟨0,0,0,0,0,0,0,0,0,0,0,0,33853318889472,0,0,0⟩, ⟨0,0,0,0,0,0,0,0,0,0,0,0,33853318889472,0,0,0⟩, kzeroP],
   [kzeroP, kzeroP, kzeroP, kzeroP, kzeroP, kzeroP, kzeroP, ⟨0,0,0,0,0,0,0,0,0,0,0,0,0,0,16926659444736,0⟩, ⟨0,0,0,0,0,0,0,0,0,0,0,0,0,0,0,16926659444736⟩, ⟨0,0,0,0,33853318889472,0,0,0,0,0,0,0,0,0,0,0⟩, ⟨0,0,0,0,16926659444736,16926659444736,0,0,0,0,0,0,0,0,0,0⟩, ⟨0,0,0,0,0,0,0,0,0,0,0,0,33853318889472,0,0,0⟩],
   [kzeroP, kzeroP, kzeroP, kzeroP, kzeroP, kzeroP, kzeroP, ⟨0,0,0,0,0,0,0,0,0,0,0,0,0,0,16926659444736,0⟩, ⟨0,0,0,0,0,0,0,0,0,0,0,0,0,0,0,16926659444736⟩, ⟨0,0,0,0,16926659444736,16926659444736,0,0,0,0,0,0,0,0,0,0⟩, ⟨0,0,0,0,33853318889472,0,0,0,0,0,0,0,0,0,0,0⟩, ⟨0,0,0,0,0,0,0,0,0,0,0,0,0,33853318889472,0,0⟩],
   [kzeroP, kzeroP, kzeroP, kzeroP, kzeroP, kzeroP, kzeroP, kzeroP, kzeroP, ⟨0,0,0,0,0,0,0,0,0,0,0,0,33853318889472,0,0,0⟩, ⟨0,0,0,0,0,0,0,0,0,0,0,0,0,33853318889472,0,0⟩, ⟨0,0,0,0,33853318889472,0,0,0,0,0,0,0,0,0,0,0⟩]]

/-- A `KP` row-list matrix read as a 12x12 complex matrix. -/
noncomputable def toMatC (A : MatP) : Matrix (Fin 12) (Fin 12) ℂ :=
  Matrix.of fun i j => KPC (entryP A (i : ℕ) (j : ℕ))

/-! ## Theorems -/

set_option maxRecDepth 100000
set_option maxHeartbeats 3000000 in
theorem stepP1 : matMulP (eBSHP 1 2) idMatP = stepMatP1 := by decide

set_option maxHeartbeats 3000000 in
theorem stepP2 : matMulP (ePSpiP 2) stepMatP1 = stepMatP2 := by decide

set_option maxHeartbeats 3000000 in
theorem stepP3 : matMulP (eBSHP 3 4) stepMatP2 = stepMatP3 := by decide

set_option maxHeartbeats 3000000 in
theorem stepP4 : matMulP (ePSpiP 4) stepMatP3 = stepMatP4 := by decide

set_option maxHeartbeats 3000000 in
theorem stepP5 : matMulP (eBSHP 7 8) stepMatP4 = stepMatP5 := by decide

set_option maxHeartbeats 3000000 in
theorem stepP6 : matMulP (ePSpiP 8) stepMatP5 = stepMatP6 := by decide

set_option maxHeartbeats 3000000 in
theorem stepP7 : matMulP (eBSHP 9 10) stepMatP6 = stepMatP7 := by decide

set_option maxHeartbeats 3000000 in
theorem stepP8 : matMulP (ePSpiP 10) stepMatP7 = stepMatP8 := by decide

set_option maxHeartbeats 3000000 in
theorem stepP9 : matMulP (eBS23P 0 1) stepMatP8 = stepMatP9 := by decide

set_option maxHeartbeats 3000000 in
theorem stepP10 : matMulP (eBS23P 2 3) stepMatP9 = stepMatP10 := by decide

set_option maxHeartbeats 3000000 in
theorem stepP11 : matMulP (eBS23P 4 5) stepMatP10 = stepMatP11 := by decide

set_option maxHeartbeats 3000000 in
theorem stepP12 : matMulP (eBS23P 6 7) stepMatP11 = stepMatP12 := by decide

set_option maxHeartbeats 3000000 in
theorem stepP13 : matMulP (eBS23P 8 9) stepMatP12 = stepMatP13 := by decide

set_option maxHeartbeats 3000000 in
theorem stepP14 : matMulP (eBS23P 10 11) stepMatP13 = stepMatP14 := by decide

set_option maxHeartbeats 3000000 in
theorem stepP15 : matMulP (eBSHP 3 4) stepMatP14 = stepMatP15 := by decide

set_option maxHeartbeats 3000000 in
theorem stepP16 : matMulP (ePSpiP 4) stepMatP15 = stepMatP16 := by decide

set_option maxHeartbeats 3000000 in
theorem stepP17 : matMulP (eBSHP 9 10) stepMatP16 = stepMatP17 := by decide

set_option maxHeartbeats 3000000 in
theorem stepP18 : matMulP (ePSpiP 10) stepMatP17 = stepMatP18 := by decide

/-- The exact `KP`-product of the 18 scaled component matrices, step by
step. -/
theorem scaledProductP_eq : scaledProductP = stepMatP18 := by
  show matMulP (ePSpiP 10) (matMulP (eBSHP 9 10) (matMulP (ePSpiP 4) (matMulP (eBSHP 3 4)
    (matMulP (eBS23P 10 11) (matMulP (eBS23P 8 9) (matMulP (eBS23P 6 7) (matMulP (eBS23P 4 5)
    (matMulP (eBS23P 2 3) (matMulP (eBS23P 0 1) (matMulP (ePSpiP 10) (matMulP (eBSHP 9 10)
    (matMulP (ePSpiP 8) (matMulP (eBSHP 7 8) (matMulP (ePSpiP 4) (matMulP (eBSHP 3 4)
    (matMulP (ePSpiP 2) (matMulP (eBSHP 1 2) idMatP))))))))))))))))) = stepMatP18
  rw [stepP1, stepP2, stepP3, stepP4, stepP5, stepP6, stepP7, stepP8, stepP9, stepP10,
    stepP11, stepP12, stepP13, stepP14, stepP15, stepP16, stepP17, stepP18]

/-- After canonicalization, the exact product of the component matrices is
`6^17` times the 6-scaled matrix printed by the notebook for `circ.U`: the
spec-modelled network reproduces the source's own printed output exactly. -/
theorem scaledProductP_printed :
    scaledProductP.map (List.map normP) = kscaleP (6^17) printedP6 := by
  rw [scaledProductP_eq]; decide

theorem KPC_zero : KPC kzeroP = 0 := by
  simp [KPC, kzeroP]

theorem KPC_one : KPC koneP = 1 := by
  simp [KPC, koneP]

theorem KPC_add (x y : KP) : KPC (KP.add x y) = KPC x + KPC y := by
  simp only [KPC, KP.add]
  push_cast
  ring

set_option maxHeartbeats 2000000 in
theorem KPC_mul (x y : KP) : KPC (KP.mul x y) = KPC x * KPC y := by
  have hs6 : Real.sqrt 6 = Real.sqrt 2 * Real.sqrt 3 := by
    rw [show (6:ℝ) = 2 * 3 by norm_num, Real.sqrt_mul (by norm_num)]
  simp only [KPC, KP.mul, hs6]
  apply Complex.ext <;>
    simp only [Complex.add_re, Complex.add_im, Complex.mul_re, Complex.mul_im,
      Complex.ofReal_re, Complex.ofReal_im, Complex.I_re, Complex.I_im] <;>
    push_cast <;>
    (set a := Real.sqrt 2 with ha0; set b := Real.sqrt 3 with hb0) <;>
    rw [show (6:ℝ) = (a*b)*(a*b) by
          rw [ha0, hb0]
          have h2 : Real.sqrt 2 * Real.sqrt 2 = 2 := Real.mul_self_sqrt (by norm_num)
          have h3 : Real.sqrt 3 * Real.sqrt 3 = 3 := Real.mul_self_sqrt (by norm_num)
          nlinarith [h2, h3],
        show (3:ℝ) = b*b by
          rw [hb0, Real.mul_self_sqrt] ; norm_num,
        show (2:ℝ) = a*a by
          rw [ha0, Real.mul_self_sqrt] ; norm_num] <;>
    ring

theorem KPC_norm (x : KP) : KPC (normP x) = KPC x := by
  have key : ∀ p n : ℕ, ((p - n : ℕ) : ℝ) - ((n - p : ℕ) : ℝ) = (p : ℝ) - (n : ℝ) := by
    intro p n
    rcases le_total n p with h | h
    · rw [Nat.cast_sub h, Nat.sub_eq_zero_of_le h]
      push_cast; ring
    · rw [Nat.cast_sub h, Nat.sub_eq_zero_of_le h]
      push_cast; ring
  simp only [KPC, normP, key]

theorem getD_map_lt {α β : Type} (f : α → β) (d : β) (e : α) :
    ∀ (l : List α) (i : ℕ), i < l.length → (l.map f).getD i d = f (l.getD i e)
  | x :: xs, 0, _ => rfl
  | x :: xs, i+1, h => by
    simp only [List.map_cons, List.getD_cons_succ]
    exact getD_map_lt f d e xs i (by simpa using h)

theorem getD_map_all {α β : Type} (f : α → β) (d : β) (e : α) (he : f e = d) :
    ∀ (l : List α) (i : ℕ), (l.map f).getD i d = f (l.getD i e)
  | [], i => by simp [he]
  | x :: xs, 0 => rfl
  | x :: xs, i+1 => by
    simp only [List.map_cons, List.getD_cons_succ]
    exact getD_map_all f d e he xs i

theorem getD_range : ∀ (n j : ℕ), j < n → (List.range n).getD j 0 = j := by
  intro n j h
  rw [List.getD_eq_getElem?_getD, List.getElem?_range h]
  rfl

theorem dotP_bridge : ∀ xs ys : List KP,
    KPC (dotP xs ys) = ((xs.zip ys).map (fun p => KPC p.1 * KPC p.2)).sum
  | [], _ => by cases ‹List KP› <;> simp [dotP, KPC_zero]
  | x :: xs, [] => by simp [dotP, KPC_zero]
  | x :: xs, y :: ys => by
    have ih := dotP_bridge xs ys
    by_cases hx : x = kzeroP
    · simp [dotP, hx, KPC_zero, ih]
    · by_cases hy : y = kzeroP
      · simp [dotP, hx, hy, KPC_zero, ih]
      · simp [dotP, hx, hy, KPC_add, KPC_mul, ih]

theorem zip_mul_sum : ∀ (n : ℕ) (xs ys : List ℂ), xs.length = n → ys.length = n →
    ((xs.zip ys).map (fun p => p.1 * p.2)).sum
      = ∑ k : Fin n, xs.getD (k : ℕ) 0 * ys.getD (k : ℕ) 0 := by
  intro n
  induction n with
  | zero =>
    intro xs ys hx hy
    rw [List.length_eq_zero] at hx hy
    subst hx; subst hy
    simp
  | succ m ih =>
    intro xs ys hx hy
    cases xs with
    | nil => simp at hx
    | cons x xs =>
      cases ys with
      | nil => simp at hy
      | cons y ys =>
        simp only [List.zip_cons_cons, List.map_cons, List.sum_cons, Fin.sum_univ_succ,
          Fin.val_zero, List.getD_cons_zero, Fin.val_succ, List.getD_cons_succ]
        rw [ih xs ys (by simpa using hx) (by simpa using hy)]

theorem length_matMulP (A B : MatP) : (matMulP A B).length = A.length := by
  simp [matMulP]

theorem entry_matMulP (A B : MatP) (i j : ℕ) (hi : i < A.length) (hj : j < 12) :
    entryP (matMulP A B) i j = dotP (A.getD i []) (colP B j) := by
  unfold entryP matMulP
  rw [getD_map_lt _ _ [] A i hi,
    getD_map_lt (fun j => dotP (A.getD i []) (colP B j)) kzeroP 0 (List.range 12) j
      (by simpa using hj),
    getD_range 12 j hj]

theorem colP_getD (B : MatP) (j k : ℕ) (hk : k < B.length) :
    (colP B j).getD k kzeroP = entryP B k j := by
  unfold colP entryP
  rw [getD_map_lt _ _ [] B k hk]

theorem colP_length (B : MatP) (j : ℕ) : (colP B j).length = B.length := by
  simp [colP]

/-- Well-formed 12x12 row-list matrix. -/
theorem toMatC_matMulP (A B : MatP) (hA : A.length = 12)
    (hAr : ∀ row ∈ A, row.length = 12) (hB : B.length = 12) :
    toMatC (matMulP A B) = toMatC A * toMatC B := by
  ext i j
  have hi : (i : ℕ) < A.length := by rw [hA]; exact i.isLt
  rw [Matrix.mul_apply]
  show KPC (entryP (matMulP A B) (i : ℕ) (j : ℕ)) = _
  rw [entry_matMulP A B (i : ℕ) (j : ℕ) hi j.isLt, dotP_bridge]
  have hrow : (A.getD (i : ℕ) []).length = 12 := by
    have hmem : A.getD (i : ℕ) [] ∈ A := by
      rw [List.getD_eq_getElem?_getD, List.getElem?_eq_getElem hi]
      exact List.getElem_mem hi
    exact hAr _ hmem
  have hswap :
      (((A.getD (i : ℕ) []).zip (colP B (j : ℕ))).map (fun p => KPC p.1 * KPC p.2)).sum
        = (((((A.getD (i : ℕ) []).map KPC)).zip ((colP B (j : ℕ)).map KPC)).map
            (fun p => p.1 * p.2)).sum := by
    rw [List.zip_map]
    rw [List.map_map]
    rfl
  rw [hswap]
  rw [zip_mul_sum 12 _ _ (by simpa using hrow) (by simp [colP_length, hB])]
  apply Finset.sum_congr rfl
  intro k _
  rw [getD_map_all KPC 0 kzeroP KPC_zero, getD_map_all KPC 0 kzeroP KPC_zero,
    colP_getD B (j : ℕ) (k : ℕ) (by rw [hB]; exact k.isLt)]
  rfl

theorem entry_mk12P (f : ℕ → ℕ → KP) (i j : ℕ) (hi : i < 12) (hj : j < 12) :
    entryP (mk12P f) i j = f i j := by
  unfold entryP mk12P
  rw [getD_map_lt _ _ 0 (List.range 12) i (by simpa using hi),
    getD_range 12 i hi,
    getD_map_lt (f i) kzeroP 0 (List.range 12) j (by simpa using hj),
    getD_range 12 j hj]

theorem KPC_six : KPC (⟨6,0,0,0,0,0,0,0,0,0,0,0,0,0,0,0⟩ : KP) = 6 := by
  simp [KPC]

theorem toMatC_ePSpiP (a : ℕ) (ha : a < 12) :
    toMatC (ePSpiP a) = (6 : ℂ) • embedC 12 ([a], .ps Real.pi) := by
  ext i j
  show KPC (entryP (ePSpiP a) (i : ℕ) (j : ℕ)) = _
  unfold ePSpiP
  rw [entry_mk12P _ _ _ i.isLt j.isLt]
  simp only [embedC, dif_pos ha, Matrix.smul_apply, Matrix.diagonal_apply, smul_ite,
    smul_eq_mul, mul_zero]
  by_cases hij : i = j
  · subst hij
    by_cases hia : (i : ℕ) = a
    · have h1 : i = (⟨a, ha⟩ : Fin 12) := Fin.ext hia
      rw [if_pos ⟨hia, hia⟩, if_pos rfl, if_pos h1, Complex.exp_pi_mul_I]
      simp [KPC]
    · have h1 : ¬ i = (⟨a, ha⟩ : Fin 12) := fun h => hia (by rw [h])
      rw [if_neg (fun h : (i:ℕ) = a ∧ (i:ℕ) = a => hia h.1), if_pos rfl,
        if_pos rfl, if_neg h1]
      simp [KPC_six]
  · have hvne : ¬ ((i : ℕ) = a ∧ (j : ℕ) = a) := by
      rintro ⟨h1, h2⟩
      exact hij (Fin.ext (h1.trans h2.symm))
    have hne' : ¬ (i : ℕ) = (j : ℕ) := fun h => hij (Fin.ext h)
    rw [if_neg hvne, if_neg hne', if_neg hij, KPC_zero]
    ring

theorem embedC_bs (M : ℕ) (a b : ℕ) (R phi : ℝ) (ha : a < M) (hb : b < M) :
    embedC M ([a, b], .bs R phi) = embed2 ⟨a, ha⟩ ⟨b, hb⟩ (bsLocal R phi) := by
  simp only [embedC]
  rw [dif_pos (⟨ha, hb⟩ : a < M ∧ b < M)]

theorem toMatC_genE (a b : ℕ) (ha : a < 12) (hb : b < 12) (hab : a ≠ b)
    (kaa kab kba kbb : KP) (S : Matrix (Fin 2) (Fin 2) ℂ)
    (h00 : KPC kaa = 6 * S 0 0) (h01 : KPC kab = 6 * S 0 1)
    (h10 : KPC kba = 6 * S 1 0) (h11 : KPC kbb = 6 * S 1 1) :
    toMatC (genE a b kaa kab kba kbb)
      = (6 : ℂ) • embed2 (⟨a, ha⟩ : Fin 12) (⟨b, hb⟩ : Fin 12) S := by
  ext i j
  show KPC (entryP (genE a b kaa kab kba kbb) (i : ℕ) (j : ℕ)) = _
  unfold genE
  rw [entry_mk12P _ _ _ i.isLt j.isLt]
  simp only [Matrix.smul_apply, embed2, Matrix.of_apply, smul_eq_mul]
  by_cases hia : (i : ℕ) = a <;> by_cases hib : (i : ℕ) = b <;>
    by_cases hja : (j : ℕ) = a <;> by_cases hjb : (j : ℕ) = b <;>
    first
      | omega
      | simp_all [Fin.ext_iff, KPC_zero, KPC_six, eq_comm, apply_ite KPC]

theorem sqrt_half : Real.sqrt (1/2 : ℝ) = Real.sqrt 2 / 2 := by
  have h2 : Real.sqrt 2 * Real.sqrt 2 = 2 := Real.mul_self_sqrt (by norm_num)
  rw [show (1/2 : ℝ) = (Real.sqrt 2 / 2)^2 by rw [div_pow, sq, h2]; norm_num]
  exact Real.sqrt_sq (by positivity)

theorem sqrt_third : Real.sqrt (1/3 : ℝ) = Real.sqrt 3 / 3 := by
  have h3 : Real.sqrt 3 * Real.sqrt 3 = 3 := Real.mul_self_sqrt (by norm_num)
  rw [show (1/3 : ℝ) = (Real.sqrt 3 / 3)^2 by rw [div_pow, sq, h3]; norm_num]
  exact Real.sqrt_sq (by positivity)

theorem sqrt_twothird : Real.sqrt (2/3 : ℝ) = Real.sqrt 6 / 3 := by
  have h6 : Real.sqrt 6 * Real.sqrt 6 = 6 := Real.mul_self_sqrt (by norm_num)
  rw [show (2/3 : ℝ) = (Real.sqrt 6 / 3)^2 by rw [div_pow, sq, h6]; norm_num]
  exact Real.sqrt_sq (by positivity)

theorem exp_half_pi_I : Complex.exp (((Real.pi/2 : ℝ) : ℂ) * Complex.I) = Complex.I := by
  rw [Complex.exp_mul_I, ← Complex.ofReal_cos, ← Complex.ofReal_sin,
    Real.cos_pi_div_two, Real.sin_pi_div_two]
  simp

theorem exp_neg_half_pi_I :
    Complex.exp (-(((Real.pi/2 : ℝ) : ℂ) * Complex.I)) = -Complex.I := by
  rw [← neg_mul, ← Complex.ofReal_neg, Complex.exp_mul_I, ← Complex.ofReal_cos,
    ← Complex.ofReal_sin, Real.cos_neg, Real.sin_neg, Real.cos_pi_div_two,
    Real.sin_pi_div_two]
  simp

theorem toMatC_eBSHP (a b : ℕ) (ha : a < 12) (hb : b < 12) (hab : a ≠ b) :
    toMatC (eBSHP a b) = (6 : ℂ) • embedC 12 ([a, b], .bs (1/2) (Real.pi/2)) := by
  rw [embedC_bs 12 a b _ _ ha hb]
  unfold eBSHP
  have e00 : (bsLocal (1/2) (Real.pi/2)) 0 0 = ((Real.sqrt (1 - 1/2) : ℝ) : ℂ) := rfl
  have e01 : (bsLocal (1/2) (Real.pi/2)) 0 1
      = Complex.I * ((Real.sqrt (1/2) : ℝ) : ℂ)
        * Complex.exp (-(((Real.pi/2 : ℝ) : ℂ) * Complex.I)) := rfl
  have e10 : (bsLocal (1/2) (Real.pi/2)) 1 0
      = Complex.I * ((Real.sqrt (1/2) : ℝ) : ℂ)
        * Complex.exp (((Real.pi/2 : ℝ) : ℂ) * Complex.I) := rfl
  have e11 : (bsLocal (1/2) (Real.pi/2)) 1 1 = ((Real.sqrt (1 - 1/2) : ℝ) : ℂ) := rfl
  apply toMatC_genE a b ha hb hab
  · rw [e00, show (1 - 1/2 : ℝ) = 1/2 by norm_num, sqrt_half]
    simp [KPC]
    push_cast
    ring
  · rw [e01, exp_neg_half_pi_I, sqrt_half]
    simp [KPC]
    push_cast
    ring_nf
    simp [Complex.I_sq]
    try push_cast
    try ring
  · rw [e10, exp_half_pi_I, sqrt_half]
    simp [KPC]
    push_cast
    ring_nf
    simp [Complex.I_sq]
    try push_cast
    try ring
  · rw [e11, show (1 - 1/2 : ℝ) = 1/2 by norm_num, sqrt_half]
    simp [KPC]
    push_cast
    ring

theorem toMatC_eBS23P (a b : ℕ) (ha : a < 12) (hb : b < 12) (hab : a ≠ b) :
    toMatC (eBS23P a b) = (6 : ℂ) • embedC 12 ([a, b], .bs (2/3) 0) := by
  rw [embedC_bs 12 a b _ _ ha hb]
  unfold eBS23P
  have e00 : (bsLocal (2/3) 0) 0 0 = ((Real.sqrt (1 - 2/3) : ℝ) : ℂ) := rfl
  have e01 : (bsLocal (2/3) 0) 0 1
      = Complex.I * ((Real.sqrt (2/3) : ℝ) : ℂ)
        * Complex.exp (-(((0 : ℝ) : ℂ) * Complex.I)) := rfl
  have e10 : (bsLocal (2/3) 0) 1 0
      = Complex.I * ((Real.sqrt (2/3) : ℝ) : ℂ)
        * Complex.exp (((0 : ℝ) : ℂ) * Complex.I) := rfl
  have e11 : (bsLocal (2/3) 0) 1 1 = ((Real.sqrt (1 - 2/3) : ℝ) : ℂ) := rfl
  have hexp0 : Complex.exp (((0 : ℝ) : ℂ) * Complex.I) = 1 := by
    simp
  have hexp0n : Complex.exp (-(((0 : ℝ) : ℂ) * Complex.I)) = 1 := by
    simp
  apply toMatC_genE a b ha hb hab
  · rw [e00, show (1 - 2/3 : ℝ) = 1/3 by norm_num, sqrt_third]
    simp [KPC]
    push_cast
    ring
  · rw [e01, hexp0n, sqrt_twothird]
    simp [KPC]
    push_cast
    ring
  · rw [e10, hexp0, sqrt_twothird]
    simp [KPC]
    push_cast
    ring
  · rw [e11, show (1 - 2/3 : ℝ) = 1/3 by norm_num, sqrt_third]
    simp [KPC]
    push_cast
    ring

theorem WF_mk12P (f : ℕ → ℕ → KP) :
    (mk12P f).length = 12 ∧ ∀ row ∈ mk12P f, row.length = 12 := by
  constructor
  · simp [mk12P]
  · intro row hrow
    simp only [mk12P, List.mem_map] at hrow
    rcases hrow with ⟨i, _, rfl⟩
    simp

theorem rows_matMulP (A B : MatP) : ∀ row ∈ matMulP A B, row.length = 12 := by
  intro row hrow
  simp only [matMulP, List.mem_map] at hrow
  rcases hrow with ⟨r, _, rfl⟩
  simp

theorem toMatC_idMatP : toMatC idMatP = 1 := by
  ext i j
  show KPC (entryP idMatP (i : ℕ) (j : ℕ)) = _
  have : entryP idMatP (i : ℕ) (j : ℕ)
      = (if (i : ℕ) = (j : ℕ) then koneP else kzeroP) := by
    have h := entry_mk12P (fun i j => if i = j then koneP else kzeroP) (i : ℕ) (j : ℕ)
      i.isLt j.isLt
    exact h
  rw [this, Matrix.one_apply]
  by_cases hij : i = j
  · rw [if_pos (by rw [hij]), if_pos hij, KPC_one]
  · rw [if_neg (fun h => hij (Fin.ext h)), if_neg hij, KPC_zero]

theorem fold_bridge :
    ∀ (Es : List MatP) (cs : List (List ℕ × CompKind)) (accP : MatP)
      (accC : Matrix (Fin 12) (Fin 12) ℂ) (t : ℂ),
      List.Forall₂ (fun (E : MatP) c =>
        (E.length = 12 ∧ ∀ row ∈ E, row.length = 12)
          ∧ toMatC E = (6 : ℂ) • embedC 12 c) Es cs →
      accP.length = 12 →
      toMatC accP = t • accC →
      toMatC (Es.foldl (fun U E => matMulP E U) accP)
        = ((6 : ℂ) ^ Es.length * t) • cs.foldl (fun U c => embedC 12 c * U) accC := by
  intro Es
  induction Es with
  | nil =>
    intro cs accP accC t hf hl hacc
    cases hf
    simpa using hacc
  | cons E Es ih =>
    intro cs accP accC t hf hl hacc
    cases cs with
    | nil => cases hf
    | cons c cs2 =>
      rw [List.forall₂_cons] at hf
      obtain ⟨hEc, htail⟩ := hf
      simp only [List.foldl_cons]
      have hstep : toMatC (matMulP E accP) = ((6 : ℂ) * t) • (embedC 12 c * accC) := by
        rw [toMatC_matMulP E accP hEc.1.1 hEc.1.2 hl, hEc.2, hacc,
          Matrix.smul_mul, Matrix.mul_smul, smul_smul]
      have := ih cs2 (matMulP E accP) (embedC 12 c * accC) ((6 : ℂ) * t) htail
        (by rw [length_matMulP, hEc.1.1]) hstep
      rw [this]
      congr 1
      rw [List.length_cons, pow_succ]
      ring

theorem toMatC_scaledProductP : toMatC scaledProductP = ((6 : ℂ) ^ 18) • shorU := by
  have h := fold_bridge shorScaledP shorCircuit idMatP 1 1
    ?_ (by simp [idMatP]) (by rw [toMatC_idMatP, one_smul])
  · rw [scaledProductP, h]
    simp only [shorScaledP, List.length_cons, List.length_nil]
    rw [mul_one]
    rfl
  · refine .cons ⟨WF_mk12P _, toMatC_eBSHP 1 2 (by norm_num) (by norm_num) (by norm_num)⟩ ?_
    refine .cons ⟨WF_mk12P _, toMatC_ePSpiP 2 (by norm_num)⟩ ?_
    refine .cons ⟨WF_mk12P _, toMatC_eBSHP 3 4 (by norm_num) (by norm_num) (by norm_num)⟩ ?_
    refine .cons ⟨WF_mk12P _, toMatC_ePSpiP 4 (by norm_num)⟩ ?_
    refine .cons ⟨WF_mk12P _, toMatC_eBSHP 7 8 (by norm_num) (by norm_num) (by norm_num)⟩ ?_
    refine .cons ⟨WF_mk12P _, toMatC_ePSpiP 8 (by norm_num)⟩ ?_
    refine .cons ⟨WF_mk12P _, toMatC_eBSHP 9 10 (by norm_num) (by norm_num) (by norm_num)⟩ ?_
    refine .cons ⟨WF_mk12P _, toMatC_ePSpiP 10 (by norm_num)⟩ ?_
    refine .cons ⟨WF_mk12P _, toMatC_eBS23P 0 1 (by norm_num) (by norm_num) (by norm_num)⟩ ?_
    refine .cons ⟨WF_mk12P _, toMatC_eBS23P 2 3 (by norm_num) (by norm_num) (by norm_num)⟩ ?_
    refine .cons ⟨WF_mk12P _, toMatC_eBS23P 4 5 (by norm_num) (by norm_num) (by norm_num)⟩ ?_
    refine .cons ⟨WF_mk12P _, toMatC_eBS23P 6 7 (by norm_num) (by norm_num) (by norm_num)⟩ ?_
    refine .cons ⟨WF_mk12P _, toMatC_eBS23P 8 9 (by norm_num) (by norm_num) (by norm_num)⟩ ?_
    refine .cons ⟨WF_mk12P _, toMatC_eBS23P 10 11 (by norm_num) (by norm_num) (by norm_num)⟩ ?_
    refine .cons ⟨WF_mk12P _, toMatC_eBSHP 3 4 (by norm_num) (by norm_num) (by norm_num)⟩ ?_
    refine .cons ⟨WF_mk12P _, toMatC_ePSpiP 4 (by norm_num)⟩ ?_
    refine .cons ⟨WF_mk12P _, toMatC_eBSHP 9 10 (by norm_num) (by norm_num) (by norm_num)⟩ ?_
    refine .cons ⟨WF_mk12P _, toMatC_ePSpiP 10 (by norm_num)⟩ ?_
    exact .nil

theorem entry_mapP (f : KP → KP) (hf : f kzeroP = kzeroP) (A : MatP) (i j : ℕ) :
    entryP (A.map (List.map f)) i j = f (entryP A i j) := by
  unfold entryP
  rw [getD_map_all (List.map f) [] [] rfl, getD_map_all f kzeroP kzeroP hf]

theorem KPC_scaleNat (n : ℕ) (x : KP) :
    KPC (⟨n*x.p0, n*x.n0, n*x.p1, n*x.n1, n*x.p2, n*x.n2, n*x.p3, n*x.n3,
      n*x.p4, n*x.n4, n*x.p5, n*x.n5, n*x.p6, n*x.n6, n*x.p7, n*x.n7⟩ : KP)
      = (n : ℂ) * KPC x := by
  simp only [KPC]
  push_cast
  ring

theorem toMatC_kscaleP (n : ℕ) (A : MatP) :
    toMatC (kscaleP n A) = (n : ℂ) • toMatC A := by
  ext i j
  show KPC (entryP (kscaleP n A) (i : ℕ) (j : ℕ)) = _
  unfold kscaleP
  rw [entry_mapP _ rfl A]
  rw [Matrix.smul_apply, smul_eq_mul]
  exact KPC_scaleNat n _

theorem toMatC_normMap (A : MatP) :
    toMatC (A.map (List.map normP)) = toMatC A := by
  ext i j
  show KPC (entryP (A.map (List.map normP)) (i : ℕ) (j : ℕ)) = _
  rw [entry_mapP normP rfl A, KPC_norm]
  rfl

theorem shorU_entry (i j : Fin 12) :
    shorU i j = KPC (entryP printedP6 (i : ℕ) (j : ℕ)) / 6 := by
  have h1 : toMatC scaledProductP = ((6 : ℂ) ^ 17) • toMatC printedP6 := by
    rw [← toMatC_normMap scaledProductP, scaledProductP_printed, toMatC_kscaleP]
    norm_num
  have h2 := toMatC_scaledProductP
  rw [h1] at h2
  have h3 : shorU = ((6 : ℂ) ^ 18)⁻¹ • (((6 : ℂ) ^ 17) • toMatC printedP6) := by
    rw [h2, ← smul_assoc, smul_eq_mul, inv_mul_cancel₀ (by norm_num), one_smul]
  rw [h3]
  have h4 : (((6 : ℂ) ^ 18)⁻¹ • (((6 : ℂ) ^ 17) • toMatC printedP6)) i j
      = ((6 : ℂ) ^ 18)⁻¹ * (((6 : ℂ) ^ 17) * KPC (entryP printedP6 (i : ℕ) (j : ℕ))) := rfl
  rw [h4]
  field_simp
  ring

theorem zip_flatMap_replicate_length :
    ∀ (idx s : List ℕ), idx.length = s.length →
      ((idx.zip s).flatMap (fun mc => List.replicate mc.2 mc.1)).length = s.sum
  | _, [], _ => by
    rename_i idx h
    rw [List.length_nil, List.length_eq_zero] at h
    subst h
    simp
  | [], _ :: _, h => by simp at h
  | i :: idx, c :: s, h => by
    simp only [List.zip_cons_cons, List.flatMap_cons, List.length_append,
      List.length_replicate, List.sum_cons]
    rw [zip_flatMap_replicate_length idx s (by simpa using h)]

theorem occupiedModes_length (s : List ℕ) : (occupiedModes s).length = s.sum := by
  unfold occupiedModes
  exact zip_flatMap_replicate_length _ s (by simp)

theorem occupiedModes_lt (s : List ℕ) : ∀ m ∈ occupiedModes s, m < s.length := by
  intro m hm
  simp only [occupiedModes, List.mem_flatMap] at hm
  rcases hm with ⟨mc, hmc, hmrep⟩
  have := List.eq_of_mem_replicate hmrep
  subst this
  have := (List.of_mem_zip hmc).1
  simpa using this

theorem KPC_sumP : ∀ l : List KP, KPC (sumP l) = (l.map KPC).sum
  | [] => by simp [sumP, KPC_zero]
  | x :: xs => by
    simp only [sumP, List.foldr_cons, List.map_cons, List.sum_cons, KPC_add]
    rw [← KPC_sumP xs]
    rfl

theorem KPC_prodP : ∀ l : List KP, KPC (prodP l) = (l.map KPC).prod
  | [] => by simp [prodP, KPC_one]
  | x :: xs => by
    simp only [prodP, List.foldr_cons, List.map_cons, List.prod_cons, KPC_mul]
    rw [← KPC_prodP xs]
    rfl

theorem permProducts_bridge (A : List (List KP)) (σ : List ℕ) :
    permProducts (A.map (List.map KPC)) σ = KPC (permProductsP A σ) := by
  unfold permProducts permProductsP
  rw [KPC_prodP, List.map_map]
  congr 1
  have hzip : (A.map (List.map KPC)).zip σ
      = (A.zip σ).map (fun p => (List.map KPC p.1, p.2)) := by
    rw [List.zip_map_left]
    rfl
  rw [hzip, List.map_map]
  apply List.map_congr_left
  intro rc _
  show (List.map KPC rc.1).getD rc.2 0 = KPC (rc.1.getD rc.2 kzeroP)
  exact getD_map_all KPC 0 kzeroP KPC_zero rc.1 rc.2

theorem permanentL_bridge (A : List (List KP)) :
    permanentL (A.map (List.map KPC)) = KPC (permP A) := by
  unfold permanentL permP
  rw [KPC_sumP, List.map_map, List.length_map]
  congr 1
  apply List.map_congr_left
  intro σ _
  exact permProducts_bridge A σ

theorem insertionsOf_length {α : Type} (x : α) :
    ∀ (l : List α) (ρ : List α), ρ ∈ insertionsOf x l → ρ.length = l.length + 1
  | [], ρ, h => by
    simp only [insertionsOf, List.mem_singleton] at h
    subst h
    rfl
  | y :: ys, ρ, h => by
    simp only [insertionsOf, List.mem_cons, List.mem_map] at h
    rcases h with rfl | ⟨τ, hτ, rfl⟩
    · rfl
    · simp only [List.length_cons, insertionsOf_length x ys τ hτ]

theorem permsL_length {α : Type} :
    ∀ (l : List α) (σ : List α), σ ∈ permsL l → σ.length = l.length
  | [], σ, h => by
    simp only [permsL, List.mem_singleton] at h
    subst h
    rfl
  | x :: xs, σ, h => by
    simp only [permsL, List.mem_flatMap] at h
    rcases h with ⟨τ, hτ, hσ⟩
    rw [insertionsOf_length x τ σ hσ, permsL_length xs τ hτ]
    rfl

theorem permProducts_scale (w : ℂ) :
    ∀ (B : List (List ℂ)) (σ : List ℕ), σ.length = B.length →
      permProducts (B.map (List.map (fun z => z * w))) σ = w ^ B.length * permProducts B σ
  | [], σ, h => by
    rw [List.length_nil, List.length_eq_zero] at h
    subst h
    simp [permProducts]
  | row :: B, σ, h => by
    cases σ with
    | nil => simp at h
    | cons j σ =>
      unfold permProducts
      simp only [List.map_cons, List.zip_cons_cons, List.prod_cons]
      have hentry : (List.map (fun z => z * w) row).getD j 0 = row.getD j 0 * w :=
        getD_map_all (fun z => z * w) 0 0 (zero_mul w) row j
      have ih := permProducts_scale w B σ (by simpa using h)
      unfold permProducts at ih
      rw [hentry, ih]
      simp only [List.length_cons, pow_succ]
      ring

theorem permanentL_scale (w : ℂ) (B : List (List ℂ)) :
    permanentL (B.map (List.map (fun z => z * w))) = w ^ B.length * permanentL B := by
  unfold permanentL
  rw [List.length_map]
  have hcongr : (permsL (List.range B.length)).map (permProducts (B.map (List.map (fun z => z * w))))
      = (permsL (List.range B.length)).map (fun σ => w ^ B.length * permProducts B σ) := by
    apply List.map_congr_left
    intro σ hσ
    exact permProducts_scale w B σ (by
      rw [permsL_length _ σ hσ, List.length_range])
  rw [hcongr, ← List.sum_map_mul_left]

theorem sub_shorU (rows cols : List ℕ) (hr : ∀ m ∈ rows, m < 12) (hc : ∀ m ∈ cols, m < 12) :
    subMatrixL (matFun shorU) rows cols
      = ((subP printedP6 rows cols).map (List.map KPC)).map
          (List.map (fun z => z * (6 : ℂ)⁻¹)) := by
  unfold subMatrixL subP
  rw [List.map_map, List.map_map]
  apply List.map_congr_left
  intro r hrm
  show cols.map (fun c => matFun shorU r c) = _
  simp only [Function.comp]
  rw [List.map_map, List.map_map]
  apply List.map_congr_left
  intro c hcm
  show matFun shorU r c = KPC (entryP printedP6 r c) * (6 : ℂ)⁻¹
  unfold matFun
  rw [dif_pos ⟨hr r hrm, hc c hcm⟩]
  rw [shorU_entry ⟨r, hr r hrm⟩ ⟨c, hc c hcm⟩]
  rw [div_eq_mul_inv]

theorem amp_shorU (ist ost : List ℕ) (hsum : ist.sum = ost.sum)
    (hr : ∀ m ∈ occupiedModes ost, m < 12) (hc : ∀ m ∈ occupiedModes ist, m < 12) :
    amplitude (matFun shorU) ist ost
      = ((6 : ℂ)⁻¹) ^ ost.sum
          * KPC (permP (subP printedP6 (occupiedModes ost) (occupiedModes ist)))
          / ((Real.sqrt (factProd ist * factProd ost) : ℝ) : ℂ) := by
  unfold amplitude
  rw [if_pos hsum, sub_shorU _ _ hr hc, permanentL_scale, permanentL_bridge]
  rw [List.length_map]
  have hlen : (subP printedP6 (occupiedModes ost) (occupiedModes ist)).length = ost.sum := by
    unfold subP
    rw [List.length_map, occupiedModes_length]
  rw [hlen]

theorem amp_eval (ost : List ℕ) (lit : KP)
    (hsum : istate.sum = ost.sum) (hlen4 : ost.sum = 4)
    (hb : ∀ m ∈ occupiedModes ost, m < 12)
    (hfact : factProd ost = 1)
    (hlit : normP (permP (subP printedP6 (occupiedModes ost) (occupiedModes istate))) = lit) :
    amplitude (matFun shorU) istate ost = KPC lit / 1296 := by
  rw [amp_shorU istate ost hsum hb (by decide)]
  rw [← KPC_norm (permP _), hlit]
  rw [show factProd istate = 1 from by decide, hfact, hlen4]
  norm_num
  ring

theorem ampQ0000_aux :
    amplitude (matFun shorU) istate [0,1,0,1,0,0,0,1,0,1,0,0]
      = KPC (kzeroP : KP) / 1296 :=
  amp_eval _ _ (by decide) (by decide) (by decide) (by decide) (by decide)

theorem ampQ0000 :
    amplitude (matFun shorU) istate [0,1,0,1,0,0,0,1,0,1,0,0] = 0 := by
  rw [ampQ0000_aux, KPC_zero]
  norm_num

theorem ampQ0001_aux :
    amplitude (matFun shorU) istate [0,1,0,1,0,0,0,1,0,0,1,0]
      = KPC (⟨72,0,0,0,0,0,0,0,0,0,0,0,0,0,0,0⟩ : KP) / 1296 :=
  amp_eval _ _ (by decide) (by decide) (by decide) (by decide) (by decide)

theorem ampQ0001 :
    amplitude (matFun shorU) istate [0,1,0,1,0,0,0,1,0,0,1,0] = 1/18 := by
  rw [ampQ0001_aux]
  simp [KPC]
  norm_num

theorem ampQ0010_aux :
    amplitude (matFun shorU) istate [0,1,0,0,1,0,0,1,0,1,0,0]
      = KPC (kzeroP : KP) / 1296 :=
  amp_eval _ _ (by decide) (by decide) (by decide) (by decide) (by decide)

theorem ampQ0010 :
    amplitude (matFun shorU) istate [0,1,0,0,1,0,0,1,0,1,0,0] = 0 := by
  rw [ampQ0010_aux, KPC_zero]
  norm_num

theorem ampQ0011_aux :
    amplitude (matFun shorU) istate [0,1,0,0,1,0,0,1,0,0,1,0]
      = KPC (kzeroP : KP) / 1296 :=
  amp_eval _ _ (by decide) (by decide) (by decide) (by decide) (by decide)

theorem ampQ0011 :
    amplitude (matFun shorU) istate [0,1,0,0,1,0,0,1,0,0,1,0] = 0 := by
  rw [ampQ0011_aux, KPC_zero]
  norm_num

theorem ampQ0100_aux :
    amplitude (matFun shorU) istate [0,1,0,1,0,0,0,0,1,1,0,0]
      = KPC (⟨0,72,0,0,0,0,0,0,0,0,0,0,0,0,0,0⟩ : KP) / 1296 :=
  amp_eval _ _ (by decide) (by decide) (by decide) (by decide) (by decide)

theorem ampQ0100 :
    amplitude (matFun shorU) istate [0,1,0,1,0,0,0,0,1,1,0,0] = -(1/18) := by
  rw [ampQ0100_aux]
  simp [KPC]
  norm_num

theorem ampQ0101_aux :
    amplitude (matFun shorU) istate [0,1,0,1,0,0,0,0,1,0,1,0]
      = KPC (kzeroP : KP) / 1296 :=
  amp_eval _ _ (by decide) (by decide) (by decide) (by decide) (by decide)

theorem ampQ0101 :
    amplitude (matFun shorU) istate [0,1,0,1,0,0,0,0,1,0,1,0] = 0 := by
  rw [ampQ0101_aux, KPC_zero]
  norm_num

theorem ampQ0110_aux :
    amplitude (matFun shorU) istate [0,1,0,0,1,0,0,0,1,1,0,0]
      = KPC (kzeroP : KP) / 1296 :=
  amp_eval _ _ (by decide) (by decide) (by decide) (by decide) (by decide)

theorem ampQ0110 :
    amplitude (matFun shorU) istate [0,1,0,0,1,0,0,0,1,1,0,0] = 0 := by
  rw [ampQ0110_aux, KPC_zero]
  norm_num

theorem ampQ0111_aux :
    amplitude (matFun shorU) istate [0,1,0,0,1,0,0,0,1,0,1,0]
      = KPC (kzeroP : KP) / 1296 :=
  amp_eval _ _ (by decide) (by decide) (by decide) (by decide) (by decide)

theorem ampQ0111 :
    amplitude (matFun shorU) istate [0,1,0,0,1,0,0,0,1,0,1,0] = 0 := by
  rw [ampQ0111_aux, KPC_zero]
  norm_num

theorem ampQ1000_aux :
    amplitude (matFun shorU) istate [0,0,1,1,0,0,0,1,0,1,0,0]
      = KPC (kzeroP : KP) / 1296 :=
  amp_eval _ _ (by decide) (by decide) (by decide) (by decide) (by decide)

theorem ampQ1000 :
    amplitude (matFun shorU) istate [0,0,1,1,0,0,0,1,0,1,0,0] = 0 := by
  rw [ampQ1000_aux, KPC_zero]
  norm_num

theorem ampQ1001_aux :
    amplitude (matFun shorU) istate [0,0,1,1,0,0,0,1,0,0,1,0]
      = KPC (kzeroP : KP) / 1296 :=
  amp_eval _ _ (by decide) (by decide) (by decide) (by decide) (by decide)

theorem ampQ1001 :
    amplitude (matFun shorU) istate [0,0,1,1,0,0,0,1,0,0,1,0] = 0 := by
  rw [ampQ1001_aux, KPC_zero]
  norm_num

theorem ampQ1010_aux :
    amplitude (matFun shorU) istate [0,0,1,0,1,0,0,1,0,1,0,0]
      = KPC (kzeroP : KP) / 1296 :=
  amp_eval _ _ (by decide) (by decide) (by decide) (by decide) (by decide)

theorem ampQ1010 :
    amplitude (matFun shorU) istate [0,0,1,0,1,0,0,1,0,1,0,0] = 0 := by
  rw [ampQ1010_aux, KPC_zero]
  norm_num

theorem ampQ1011_aux :
    amplitude (matFun shorU) istate [0,0,1,0,1,0,0,1,0,0,1,0]
      = KPC (⟨0,72,0,0,0,0,0,0,0,0,0,0,0,0,0,0⟩ : KP) / 1296 :=
  amp_eval _ _ (by decide) (by decide) (by decide) (by decide) (by decide)

theorem ampQ1011 :
    amplitude (matFun shorU) istate [0,0,1,0,1,0,0,1,0,0,1,0] = -(1/18) := by
  rw [ampQ1011_aux]
  simp [KPC]
  norm_num

theorem ampQ1100_aux :
    amplitude (matFun shorU) istate [0,0,1,1,0,0,0,0,1,1,0,0]
      = KPC (kzeroP : KP) / 1296 :=
  amp_eval _ _ (by decide) (by decide) (by decide) (by decide) (by decide)

theorem ampQ1100 :
    amplitude (matFun shorU) istate [0,0,1,1,0,0,0,0,1,1,0,0] = 0 := by
  rw [ampQ1100_aux, KPC_zero]
  norm_num

theorem ampQ1101_aux :
    amplitude (matFun shorU) istate [0,0,1,1,0,0,0,0,1,0,1,0]
      = KPC (kzeroP : KP) / 1296 :=
  amp_eval _ _ (by decide) (by decide) (by decide) (by decide) (by decide)

theorem ampQ1101 :
    amplitude (matFun shorU) istate [0,0,1,1,0,0,0,0,1,0,1,0] = 0 := by
  rw [ampQ1101_aux, KPC_zero]
  norm_num

theorem ampQ1110_aux :
    amplitude (matFun shorU) istate [0,0,1,0,1,0,0,0,1,1,0,0]
      = KPC (⟨72,0,0,0,0,0,0,0,0,0,0,0,0,0,0,0⟩ : KP) / 1296 :=
  amp_eval _ _ (by decide) (by decide) (by decide) (by decide) (by decide)

theorem ampQ1110 :
    amplitude (matFun shorU) istate [0,0,1,0,1,0,0,0,1,1,0,0] = 1/18 := by
  rw [ampQ1110_aux]
  simp [KPC]
  norm_num

theorem ampQ1111_aux :
    amplitude (matFun shorU) istate [0,0,1,0,1,0,0,0,1,0,1,0]
      = KPC (kzeroP : KP) / 1296 :=
  amp_eval _ _ (by decide) (by decide) (by decide) (by decide) (by decide)

theorem ampQ1111 :
    amplitude (matFun shorU) istate [0,0,1,0,1,0,0,0,1,0,1,0] = 0 := by
  rw [ampQ1111_aux, KPC_zero]
  norm_num

theorem ampCand_aux :
    amplitude (matFun shorU) istate [1,0,0,1,0,0,0,1,0,0,1,0]
      = KPC (⟨0,0,0,0,0,0,0,0,0,0,72,0,0,0,0,0⟩ : KP) / 1296 :=
  amp_eval _ _ (by decide) (by decide) (by decide) (by decide) (by decide)

theorem ampCand :
    amplitude (matFun shorU) istate [1,0,0,1,0,0,0,1,0,0,1,0]
      = ((Real.sqrt 2 : ℝ) : ℂ) * Complex.I / 18 := by
  rw [ampCand_aux]
  simp [KPC]
  push_cast
  ring

theorem toQubitState_shape (f q : List ℕ) (h : toQubitState f = some q) :
    ∃ b0 b1 b2 b3, q = [b0, b1, b2, b3] ∧ b0 ≤ 1 ∧ b1 ≤ 1 ∧ b2 ≤ 1 ∧ b3 ≤ 1 := by
  unfold toQubitState at h
  split at h
  · split_ifs at h
    rename_i a0 a1 a2 a3 a4 a5 a6 a7 a8 a9 a10 a11 h0 h5 h6 h11 h12 h78 h34 h910
    injection h with h
    subst h
    exact ⟨a2, a8, a4, a10, rfl, by omega, by omega, by omega, by omega⟩
  · cases h

theorem toQubit_toFock (f q : List ℕ) (h : toQubitState f = some q) :
    toFockState q = some f := by
  unfold toQubitState at h
  split at h
  · split_ifs at h
    rename_i a0 a1 a2 a3 a4 a5 a6 a7 a8 a9 a10 a11 h0 h5 h6 h11 h12 h78 h34 h910
    injection h with h
    subst h
    have e0 : a0 = 0 := by omega
    have e5 : a5 = 0 := by omega
    have e6 : a6 = 0 := by omega
    have e11 : a11 = 0 := by omega
    subst e0; subst e5; subst e6; subst e11
    have c12 : a1 = 1 ∧ a2 = 0 ∨ a1 = 0 ∧ a2 = 1 := by omega
    have c78 : a7 = 1 ∧ a8 = 0 ∨ a7 = 0 ∧ a8 = 1 := by omega
    have c34 : a3 = 1 ∧ a4 = 0 ∨ a3 = 0 ∧ a4 = 1 := by omega
    have c910 : a9 = 1 ∧ a10 = 0 ∨ a9 = 0 ∧ a10 = 1 := by omega
    rcases c12 with ⟨rfl, rfl⟩ | ⟨rfl, rfl⟩ <;>
      rcases c78 with ⟨rfl, rfl⟩ | ⟨rfl, rfl⟩ <;>
      rcases c34 with ⟨rfl, rfl⟩ | ⟨rfl, rfl⟩ <;>
      rcases c910 with ⟨rfl, rfl⟩ | ⟨rfl, rfl⟩ <;>
      rfl
  · cases h

set_option maxHeartbeats 800000 in
theorem amp_zero_outside (f : List ℕ) (hcons : toQubitState f ≠ none)
    (hnot : f ∉ [[0,1,0,1,0,0,0,1,0,0,1,0], [0,1,0,1,0,0,0,0,1,1,0,0],
      [0,0,1,0,1,0,0,1,0,0,1,0], [0,0,1,0,1,0,0,0,1,1,0,0]]) :
    amplitude (matFun shorU) istate f = 0 := by
  obtain ⟨q, hq⟩ := Option.ne_none_iff_exists'.mp hcons
  obtain ⟨b0, b1, b2, b3, rfl, hb0, hb1, hb2, hb3⟩ := toQubitState_shape f q hq
  have hfock := toQubit_toFock f _ hq
  rcases (by omega : b0 = 0 ∨ b0 = 1) with rfl | rfl
  ·
    rcases (by omega : b1 = 0 ∨ b1 = 1) with rfl | rfl
    ·
      rcases (by omega : b2 = 0 ∨ b2 = 1) with rfl | rfl
      ·
        rcases (by omega : b3 = 0 ∨ b3 = 1) with rfl | rfl
        ·
          norm_num [toFockState, pe] at hfock
          subst hfock
          exact ampQ0000
        ·
          norm_num [toFockState, pe] at hfock
          subst hfock
          exact absurd (by decide) hnot
      ·
        rcases (by omega : b3 = 0 ∨ b3 = 1) with rfl | rfl
        ·
          norm_num [toFockState, pe] at hfock
          subst hfock
          exact ampQ0010
        ·
          norm_num [toFockState, pe] at hfock
          subst hfock
          exact ampQ0011
    ·
      rcases (by omega : b2 = 0 ∨ b2 = 1) with rfl | rfl
      ·
        rcases (by omega : b3 = 0 ∨ b3 = 1) with rfl | rfl
        ·
          norm_num [toFockState, pe] at hfock
          subst hfock
          exact absurd (by decide) hnot
        ·
          norm_num [toFockState, pe] at hfock
          subst hfock
          exact ampQ0101
      ·
        rcases (by omega : b3 = 0 ∨ b3 = 1) with rfl | rfl
        ·
          norm_num [toFockState, pe] at hfock
          subst hfock
          exact ampQ0110
        ·
          norm_num [toFockState, pe] at hfock
          subst hfock
          exact ampQ0111
  ·
    rcases (by omega : b1 = 0 ∨ b1 = 1) with rfl | rfl
    ·
      rcases (by omega : b2 = 0 ∨ b2 = 1) with rfl | rfl
      ·
        rcases (by omega : b3 = 0 ∨ b3 = 1) with rfl | rfl
        ·
          norm_num [toFockState, pe] at hfock
          subst hfock
          exact ampQ1000
        ·
          norm_num [toFockState, pe] at hfock
          subst hfock
          exact ampQ1001
      ·
        rcases (by omega : b3 = 0 ∨ b3 = 1) with rfl | rfl
        ·
          norm_num [toFockState, pe] at hfock
          subst hfock
          exact ampQ1010
        ·
          norm_num [toFockState, pe] at hfock
          subst hfock
          exact absurd (by decide) hnot
    ·
      rcases (by omega : b2 = 0 ∨ b2 = 1) with rfl | rfl
      ·
        rcases (by omega : b3 = 0 ∨ b3 = 1) with rfl | rfl
        ·
          norm_num [toFockState, pe] at hfock
          subst hfock
          exact ampQ1100
        ·
          norm_num [toFockState, pe] at hfock
          subst hfock
          exact ampQ1101
      ·
        rcases (by omega : b3 = 0 ∨ b3 = 1) with rfl | rfl
        ·
          norm_num [toFockState, pe] at hfock
          subst hfock
          exact absurd (by decide) hnot
        ·
          norm_num [toFockState, pe] at hfock
          subst hfock
          exact ampQ1111

theorem bsLocal_unitary (R phi : ℝ) (h0 : 0 ≤ R) (h1 : R ≤ 1) :
    bsLocal R phi * (bsLocal R phi)ᴴ = 1 := by
  have hr : ((Real.sqrt R : ℝ) : ℂ) * ((Real.sqrt R : ℝ) : ℂ) = (R : ℂ) := by
    rw [← Complex.ofReal_mul, Real.mul_self_sqrt h0]
  have hc : ((Real.sqrt (1 - R) : ℝ) : ℂ) * ((Real.sqrt (1 - R) : ℝ) : ℂ) = ((1 - R : ℝ) : ℂ) := by
    rw [← Complex.ofReal_mul, Real.mul_self_sqrt (by linarith)]
  have hee : ∀ x : ℂ, Complex.exp x * Complex.exp (-x) = 1 := by
    intro x
    rw [← Complex.exp_add, add_neg_cancel, Complex.exp_zero]
  ext i j
  fin_cases i <;> fin_cases j <;>
    simp [bsLocal, Matrix.mul_apply, Fin.sum_univ_two, Matrix.conjTranspose_apply,
      Matrix.one_apply, map_mul, Complex.conj_ofReal, Complex.conj_I, ← Complex.exp_conj] <;>
    ring_nf <;>
    simp [Complex.I_sq, mul_assoc, ← Complex.exp_add, neg_add_cancel, add_neg_cancel,
      Complex.exp_zero] <;>
    try rw [sq, sq, hr, hc] <;>
    try push_cast <;>
    try ring

theorem sum_support_pair {M : ℕ} (a b : Fin M) (hab : a ≠ b) (f : Fin M → ℂ)
    (h : ∀ k, k ≠ a → k ≠ b → f k = 0) : (∑ k, f k) = f a + f b := by
  rw [← Finset.sum_pair hab]
  refine (Finset.sum_subset (Finset.subset_univ _) ?_).symm
  intro x _ hx
  simp only [Finset.mem_insert, Finset.mem_singleton, not_or] at hx
  exact h x hx.1 hx.2

theorem embed2_unitary {M : ℕ} (a b : Fin M) (hab : a ≠ b)
    (S : Matrix (Fin 2) (Fin 2) ℂ) (hS : S * Sᴴ = 1) :
    embed2 a b S * (embed2 a b S)ᴴ = 1 := by
  have hS2 : ∀ p q : Fin 2, S p 0 * star (S q 0) + S p 1 * star (S q 1)
      = if p = q then 1 else 0 := by
    intro p q
    have h := congrFun (congrFun hS p) q
    rw [Matrix.mul_apply, Fin.sum_univ_two] at h
    simpa only [Matrix.conjTranspose_apply, Matrix.one_apply] using h
  ext i j
  rw [Matrix.mul_apply, Matrix.one_apply]
  simp only [Matrix.conjTranspose_apply]
  by_cases hia : i = a
  · have hsupp : ∀ k : Fin M, k ≠ a → k ≠ b →
        embed2 a b S i k * star (embed2 a b S j k) = 0 := by
      intro k hka hkb
      simp [embed2, hia, hka, hkb]
    rw [sum_support_pair a b hab _ hsupp]
    by_cases hja : j = a
    · simp [embed2, hia, hja, Ne.symm hab]
      simpa using hS2 0 0
    · by_cases hjb : j = b
      · simp [embed2, hia, hjb, hab, Ne.symm hab]
        simpa using hS2 0 1
      · simp [embed2, hia, hja, hjb, Ne.symm hab, Ne.symm hja, Ne.symm hjb]
  · by_cases hib : i = b
    · have hsupp : ∀ k : Fin M, k ≠ a → k ≠ b →
          embed2 a b S i k * star (embed2 a b S j k) = 0 := by
        intro k hka hkb
        simp [embed2, hib, hka, hkb, Ne.symm hab]
      rw [sum_support_pair a b hab _ hsupp]
      by_cases hja : j = a
      · simp [embed2, hib, hja, hab, Ne.symm hab]
        simpa using hS2 1 0
      · by_cases hjb : j = b
        · simp [embed2, hib, hjb, hab, Ne.symm hab]
          simpa using hS2 1 1
        · simp [embed2, hib, hja, hjb, hab, Ne.symm hab, Ne.symm hja, Ne.symm hjb]
    · have hone : ∀ k : Fin M, k ≠ i →
          embed2 a b S i k * star (embed2 a b S j k) = 0 := by
        intro k hk
        simp [embed2, hia, hib, hk]
      rw [Fintype.sum_eq_single i hone]
      by_cases hja : j = a
      · simp [embed2, hia, hib, hja]
      · by_cases hjb : j = b
        · simp [embed2, hia, hib, hjb]
        · by_cases hij : i = j
          · simp [embed2, hia, hib, hja, hjb, hij]
          · simp [embed2, hia, hib, hja, hjb, hij, Ne.symm hij]

theorem diag_ps_unitary {M : ℕ} (a : Fin M) (phi : ℝ) :
    (Matrix.diagonal (fun i : Fin M =>
        if i = a then Complex.exp ((phi : ℂ) * Complex.I) else 1)) *
      (Matrix.diagonal (fun i : Fin M =>
        if i = a then Complex.exp ((phi : ℂ) * Complex.I) else 1))ᴴ = 1 := by
  rw [Matrix.diagonal_conjTranspose, Matrix.diagonal_mul_diagonal]
  ext i j
  by_cases hij : i = j
  · rw [hij, Matrix.diagonal_apply_eq, Matrix.one_apply_eq]
    by_cases hja : j = a
    · simp only [Pi.mul_apply, Pi.star_apply]
      rw [if_pos hja]
      rw [show star (Complex.exp ((phi : ℂ) * Complex.I))
          = (starRingEnd ℂ) (Complex.exp ((phi : ℂ) * Complex.I)) from rfl]
      rw [← Complex.exp_conj, ← Complex.exp_add]
      rw [show (phi : ℂ) * Complex.I + (starRingEnd ℂ) ((phi : ℂ) * Complex.I) = 0 by
        rw [map_mul, Complex.conj_ofReal, Complex.conj_I]; ring]
      exact Complex.exp_zero
    · simp [hja]
  · rw [Matrix.diagonal_apply_ne _ hij, Matrix.one_apply_ne hij]

theorem embedC_unitary {M : ℕ} (c : List ℕ × CompKind) (hc : ValidComp M c) :
    embedC M c * (embedC M c)ᴴ = 1 := by
  obtain ⟨modes, k⟩ := c
  cases k with
  | bs R phi =>
      obtain ⟨h0, h1, aa, bb, hm, haM, hbM, hab⟩ := hc
      subst hm
      rw [show embedC M ([aa, bb], .bs R phi)
          = if h : aa < M ∧ bb < M then
              embed2 ⟨aa, h.1⟩ ⟨bb, h.2⟩ (bsLocal R phi) else 1 from rfl]
      rw [dif_pos (⟨haM, hbM⟩ : aa < M ∧ bb < M)]
      exact embed2_unitary _ _ (by simp [Ne, Fin.ext_iff]; exact hab) _
        (bsLocal_unitary R phi h0 h1)
  | ps phi =>
      obtain ⟨aa, hm, haM⟩ := hc
      subst hm
      rw [show embedC M ([aa], .ps phi)
          = if h : aa < M then
              Matrix.diagonal (fun i : Fin M =>
                if i = (⟨aa, h⟩ : Fin M) then Complex.exp ((phi : ℂ) * Complex.I)
                else 1) else 1 from rfl]
      rw [dif_pos haM]
      exact diag_ps_unitary _ phi

theorem fold_unitary {M : ℕ} :
    ∀ (comps : List (List ℕ × CompKind)) (acc : Matrix (Fin M) (Fin M) ℂ),
      (∀ c ∈ comps, ValidComp M c) → acc * accᴴ = 1 →
      (comps.foldl (fun U c => embedC M c * U) acc) *
        (comps.foldl (fun U c => embedC M c * U) acc)ᴴ = 1 := by
  intro comps
  induction comps with
  | nil => intro acc _ hacc; simpa using hacc
  | cons c cs ih =>
      intro acc hv hacc
      rw [List.foldl_cons]
      refine ih _ (fun d hd => hv d (List.mem_cons_of_mem _ hd)) ?_
      rw [Matrix.conjTranspose_mul]
      have hassoc : embedC M c * acc * (accᴴ * (embedC M c)ᴴ)
          = embedC M c * (acc * accᴴ) * (embedC M c)ᴴ := by
        rw [mul_assoc, mul_assoc, mul_assoc]
      rw [hassoc, hacc, mul_one]
      exact embedC_unitary c (hv c (List.mem_cons_self _ _))

theorem netUnitary_unitary {M : ℕ} (comps : List (List ℕ × CompKind))
    (hv : ∀ c ∈ comps, ValidComp M c) :
    netUnitary M comps * (netUnitary M comps)ᴴ = 1 :=
  fold_unitary comps 1 hv (by simp)

/-! ## Claim-level theorems -/

/-- Unfolding of `toFockState` on a four-entry qubit state: the outer
index lookups always succeed, leaving the path-encoding lookups. -/
theorem toFockState_eq (b0 b1 b2 b3 : ℕ) :
    toFockState [b0, b1, b2, b3]
      = match pe b0, pe b2, pe b1, pe b3 with
        | some p0, some p2, some p1, some p3 =>
            some ([0] ++ p0 ++ p2 ++ [0, 0] ++ p1 ++ p3 ++ [0])
        | _, _, _, _ => none := rfl

/-- A qubit state with an entry outside 0, 1 has no Fock encoding: the
path-encoding lookup fails. -/
theorem toFock_none_of_big (b0 b1 b2 b3 : ℕ)
    (h : ¬(b0 ≤ 1 ∧ b1 ≤ 1 ∧ b2 ≤ 1 ∧ b3 ≤ 1)) :
    toFockState [b0, b1, b2, b3] = none := by
  rw [toFockState_eq]
  rcases (by omega : 2 ≤ b0 ∨ b0 = 0 ∨ b0 = 1) with h0 | rfl | rfl
  · simp [pe, (show b0 ≠ 0 by omega), (show b0 ≠ 1 by omega)]
  ·
    rcases (by omega : 2 ≤ b2 ∨ b2 = 0 ∨ b2 = 1) with h2 | rfl | rfl
    · simp [pe, (show b2 ≠ 0 by omega), (show b2 ≠ 1 by omega)]
    ·
      rcases (by omega : 2 ≤ b1 ∨ b1 = 0 ∨ b1 = 1) with h1 | rfl | rfl
      · simp [pe, (show b1 ≠ 0 by omega), (show b1 ≠ 1 by omega)]
      ·
        rcases (by omega : 2 ≤ b3 ∨ b3 = 0 ∨ b3 = 1) with h3 | rfl | rfl
        · simp [pe, (show b3 ≠ 0 by omega), (show b3 ≠ 1 by omega)]
        · exact absurd (by decide) h
        · exact absurd (by decide) h
      ·
        rcases (by omega : 2 ≤ b3 ∨ b3 = 0 ∨ b3 = 1) with h3 | rfl | rfl
        · simp [pe, (show b3 ≠ 0 by omega), (show b3 ≠ 1 by omega)]
        · exact absurd (by decide) h
        · exact absurd (by decide) h
    ·
      rcases (by omega : 2 ≤ b1 ∨ b1 = 0 ∨ b1 = 1) with h1 | rfl | rfl
      · simp [pe, (show b1 ≠ 0 by omega), (show b1 ≠ 1 by omega)]
      ·
        rcases (by omega : 2 ≤ b3 ∨ b3 = 0 ∨ b3 = 1) with h3 | rfl | rfl
        · simp [pe, (show b3 ≠ 0 by omega), (show b3 ≠ 1 by omega)]
        · exact absurd (by decide) h
        · exact absurd (by decide) h
      ·
        rcases (by omega : 2 ≤ b3 ∨ b3 = 0 ∨ b3 = 1) with h3 | rfl | rfl
        · simp [pe, (show b3 ≠ 0 by omega), (show b3 ≠ 1 by omega)]
        · exact absurd (by decide) h
        · exact absurd (by decide) h
  ·
    rcases (by omega : 2 ≤ b2 ∨ b2 = 0 ∨ b2 = 1) with h2 | rfl | rfl
    · simp [pe, (show b2 ≠ 0 by omega), (show b2 ≠ 1 by omega)]
    ·
      rcases (by omega : 2 ≤ b1 ∨ b1 = 0 ∨ b1 = 1) with h1 | rfl | rfl
      · simp [pe, (show b1 ≠ 0 by omega), (show b1 ≠ 1 by omega)]
      ·
        rcases (by omega : 2 ≤ b3 ∨ b3 = 0 ∨ b3 = 1) with h3 | rfl | rfl
        · simp [pe, (show b3 ≠ 0 by omega), (show b3 ≠ 1 by omega)]
        · exact absurd (by decide) h
        · exact absurd (by decide) h
      ·
        rcases (by omega : 2 ≤ b3 ∨ b3 = 0 ∨ b3 = 1) with h3 | rfl | rfl
        · simp [pe, (show b3 ≠ 0 by omega), (show b3 ≠ 1 by omega)]
        · exact absurd (by decide) h
        · exact absurd (by decide) h
    ·
      rcases (by omega : 2 ≤ b1 ∨ b1 = 0 ∨ b1 = 1) with h1 | rfl | rfl
      · simp [pe, (show b1 ≠ 0 by omega), (show b1 ≠ 1 by omega)]
      ·
        rcases (by omega : 2 ≤ b3 ∨ b3 = 0 ∨ b3 = 1) with h3 | rfl | rfl
        · simp [pe, (show b3 ≠ 0 by omega), (show b3 ≠ 1 by omega)]
        · exact absurd (by decide) h
        · exact absurd (by decide) h
      ·
        rcases (by omega : 2 ≤ b3 ∨ b3 = 0 ∨ b3 = 1) with h3 | rfl | rfl
        · simp [pe, (show b3 ≠ 0 by omega), (show b3 ≠ 1 by omega)]
        · exact absurd (by decide) h
        · exact absurd (by decide) h

/-- Literal value of `List.range 4`. -/
theorem range4_eq : List.range 4 = [0, 1, 2, 3] := rfl

/-- Literal value of `List.range 3`. -/
theorem range3_eq : List.range 3 = [0, 1, 2] := rfl

/-- Literal value of `List.range 2`. -/
theorem range2_eq : List.range 2 = [0, 1] := rfl

/-- Literal value of `List.range 1`. -/
theorem range1_eq : List.range 1 = [0] := rfl

/-- Literal value of `List.range 0`. -/
theorem range0_eq : List.range 0 = [] := rfl

/-- Magnitude of the amplitude at the encoding of qubit state 0001. -/
theorem absAmp0001 :
    Complex.abs (amplitude (matFun shorU) istate [0,1,0,1,0,0,0,1,0,0,1,0]) = 1/18 := by
  rw [ampQ0001, show (1/18 : ℂ) = ((1/18 : ℝ) : ℂ) by norm_num, Complex.abs_ofReal,
    abs_of_nonneg (by norm_num : (0:ℝ) ≤ 1/18)]

/-- Magnitude of the amplitude at the encoding of qubit state 0100. -/
theorem absAmp0100 :
    Complex.abs (amplitude (matFun shorU) istate [0,1,0,1,0,0,0,0,1,1,0,0]) = 1/18 := by
  rw [ampQ0100, show (-(1/18) : ℂ) = ((-(1/18) : ℝ) : ℂ) by push_cast; ring,
    Complex.abs_ofReal, abs_neg, abs_of_nonneg (by norm_num : (0:ℝ) ≤ 1/18)]

/-- Magnitude of the amplitude at the encoding of qubit state 1011. -/
theorem absAmp1011 :
    Complex.abs (amplitude (matFun shorU) istate [0,0,1,0,1,0,0,1,0,0,1,0]) = 1/18 := by
  rw [ampQ1011, show (-(1/18) : ℂ) = ((-(1/18) : ℝ) : ℂ) by push_cast; ring,
    Complex.abs_ofReal, abs_neg, abs_of_nonneg (by norm_num : (0:ℝ) ≤ 1/18)]

/-- Magnitude of the amplitude at the encoding of qubit state 1110. -/
theorem absAmp1110 :
    Complex.abs (amplitude (matFun shorU) istate [0,0,1,0,1,0,0,0,1,1,0,0]) = 1/18 := by
  rw [ampQ1110, show (1/18 : ℂ) = ((1/18 : ℝ) : ℂ) by norm_num, Complex.abs_ofReal,
    abs_of_nonneg (by norm_num : (0:ℝ) ≤ 1/18)]

/-- C1: for the notebook's 12-mode circuit with input `istate` (the Fock
encoding of qubit state 0001), the amplitude vanishes at every two-rail
representable output Fock state outside the four post-selected encodings,
the four encodings of qubit states 0001, 0100, 1011, 1110 have exact
amplitudes 1/18, -1/18, -1/18, 1/18 of equal magnitude 1/18, and each has
probability 1/324 (a uniform, unnormalized distribution).  The original
claim's stronger clause, zero amplitude for every output state outside the
four, is refuted by `C1_cex_aux_state` below. -/
theorem C1_shor_amplitudes :
    (∀ f : List ℕ, toQubitState f ≠ none →
        f ∉ [[0,1,0,1,0,0,0,1,0,0,1,0], [0,1,0,1,0,0,0,0,1,1,0,0],
             [0,0,1,0,1,0,0,1,0,0,1,0], [0,0,1,0,1,0,0,0,1,1,0,0]] →
        amplitude (matFun shorU) istate f = 0)
    ∧ toFockState [0,0,0,1] = some [0,1,0,1,0,0,0,1,0,0,1,0]
    ∧ toFockState [0,1,0,0] = some [0,1,0,1,0,0,0,0,1,1,0,0]
    ∧ toFockState [1,0,1,1] = some [0,0,1,0,1,0,0,1,0,0,1,0]
    ∧ toFockState [1,1,1,0] = some [0,0,1,0,1,0,0,0,1,1,0,0]
    ∧ amplitude (matFun shorU) istate [0,1,0,1,0,0,0,1,0,0,1,0] = 1/18
    ∧ amplitude (matFun shorU) istate [0,1,0,1,0,0,0,0,1,1,0,0] = -(1/18)
    ∧ amplitude (matFun shorU) istate [0,0,1,0,1,0,0,1,0,0,1,0] = -(1/18)
    ∧ amplitude (matFun shorU) istate [0,0,1,0,1,0,0,0,1,1,0,0] = 1/18
    ∧ ∀ f ∈ [[0,1,0,1,0,0,0,1,0,0,1,0], [0,1,0,1,0,0,0,0,1,1,0,0],
              [0,0,1,0,1,0,0,1,0,0,1,0], [0,0,1,0,1,0,0,0,1,1,0,0]],
        Complex.abs (amplitude (matFun shorU) istate f) = 1/18
          ∧ probability (matFun shorU) istate f = 1/324 := by
  refine ⟨fun f hc hn => amp_zero_outside f hc hn, rfl, rfl, rfl, rfl,
    ampQ0001, ampQ0100, ampQ1011, ampQ1110, ?_⟩
  intro f hf
  simp only [List.mem_cons, List.not_mem_nil, or_false] at hf
  rcases hf with rfl | rfl | rfl | rfl
  · exact ⟨absAmp0001, by simp only [probability]; rw [absAmp0001]; norm_num⟩
  · exact ⟨absAmp0100, by simp only [probability]; rw [absAmp0100]; norm_num⟩
  · exact ⟨absAmp1011, by simp only [probability]; rw [absAmp1011]; norm_num⟩
  · exact ⟨absAmp1110, by simp only [probability]; rw [absAmp1110]; norm_num⟩

/-- C1 counterexample: the output Fock state `[1,0,0,1,0,0,0,1,0,0,1,0]`
(one photon in auxiliary mode 0, so not two-rail representable and not one
of the four post-selected states) nevertheless has nonzero amplitude
`i sqrt 2 / 18`: the claim's "zero amplitude for every output outside the
four" fails; only its restriction to two-rail representable outputs holds. -/
theorem C1_cex_aux_state :
    toQubitState [1,0,0,1,0,0,0,1,0,0,1,0] = none
    ∧ [1,0,0,1,0,0,0,1,0,0,1,0] ∉ [[0,1,0,1,0,0,0,1,0,0,1,0], [0,1,0,1,0,0,0,0,1,1,0,0],
        [0,0,1,0,1,0,0,1,0,0,1,0], [0,0,1,0,1,0,0,0,1,1,0,0]]
    ∧ amplitude (matFun shorU) istate [1,0,0,1,0,0,0,1,0,0,1,0]
        = ((Real.sqrt 2 : ℝ) : ℂ) * Complex.I / 18
    ∧ amplitude (matFun shorU) istate [1,0,0,1,0,0,0,1,0,0,1,0] ≠ 0 := by
  refine ⟨rfl, by decide, ampCand, ?_⟩
  rw [ampCand]
  exact div_ne_zero (mul_ne_zero (Complex.ofReal_ne_zero.mpr
    (ne_of_gt (Real.sqrt_pos.mpr (by norm_num)))) Complex.I_ne_zero) (by norm_num)

/-- C2: for input and output Fock states of equal total photon count, the
amplitude is the permanent of the sub-matrix taking one column per occupied
input mode and one row per occupied output mode (with multiplicity),
divided by `sqrt(inputState! * outputState!)`; the sub-matrix is n-by-n
where n is the total photon count. -/
theorem C2_amplitude_is_normalized_permanent (U : ℕ → ℕ → ℂ)
    (inputState outputState : List ℕ) (h : inputState.sum = outputState.sum) :
    amplitude U inputState outputState
      = permanentL (subMatrixL U (occupiedModes outputState) (occupiedModes inputState))
        / ((Real.sqrt (factProd inputState * factProd outputState) : ℝ) : ℂ)
    ∧ (subMatrixL U (occupiedModes outputState) (occupiedModes inputState)).length
        = inputState.sum
    ∧ ∀ row ∈ subMatrixL U (occupiedModes outputState) (occupiedModes inputState),
        row.length = inputState.sum := by
  refine ⟨?_, ?_, ?_⟩
  · unfold amplitude
    rw [if_pos h]
  · simp [subMatrixL, occupiedModes_length, h]
  · intro row hrow
    simp only [subMatrixL, List.mem_map] at hrow
    obtain ⟨r, hr, hrfl⟩ := hrow
    rw [← hrfl]
    simp [occupiedModes_length]

/-- C2 witness: the formula at the concrete pair `[1,1]`, `[2,0]` (two
photons) under the notebook circuit's unitary. -/
theorem C2_witness :
    amplitude (matFun shorU) [1, 1] [2, 0]
      = permanentL (subMatrixL (matFun shorU) (occupiedModes [2, 0]) (occupiedModes [1, 1]))
        / ((Real.sqrt (factProd [1, 1] * factProd [2, 0]) : ℝ) : ℂ) :=
  (C2_amplitude_is_normalized_permanent (matFun shorU) [1, 1] [2, 0] (by decide)).1

/-- C3: for Fock states of different total photon count the amplitude is
exactly 0, encoded in the return value (the function is total; no error). -/
theorem C3_photon_number_mismatch_zero (U : ℕ → ℕ → ℂ)
    (inputState outputState : List ℕ) (h : inputState.sum ≠ outputState.sum) :
    amplitude U inputState outputState = 0 := by
  unfold amplitude
  rw [if_neg h]

/-- C3 witness: one photon in, two photons out, amplitude 0. -/
theorem C3_witness : amplitude (matFun shorU) [1, 0] [1, 1] = 0 :=
  C3_photon_number_mismatch_zero (matFun shorU) [1, 0] [1, 1] (by decide)

/-- C4: for every valid network (modes in range and pairwise distinct,
reflectivity in [0,1]) the composed network matrix U satisfies
`U * U^dagger = 1` exactly, hence entrywise within the 1e-9 tolerance. -/
theorem C4_unitary (M : ℕ) (comps : List (List ℕ × CompKind))
    (hv : ∀ c ∈ comps, ValidComp M c) :
    netUnitary M comps * (netUnitary M comps)ᴴ = 1
    ∧ ∀ i j : Fin M,
        Complex.abs ((netUnitary M comps * (netUnitary M comps)ᴴ - 1) i j) ≤ 1e-9 := by
  have h := netUnitary_unitary comps hv
  refine ⟨h, fun i j => ?_⟩
  rw [h, sub_self]
  show Complex.abs 0 ≤ 1e-9
  rw [map_zero]
  norm_num

/-- C4 witness: unitarity of the one-beam-splitter network on two modes. -/
theorem C4_witness :
    netUnitary 2 [([0, 1], CompKind.bs (1/2) 0)]
      * (netUnitary 2 [([0, 1], CompKind.bs (1/2) 0)])ᴴ = 1 :=
  (C4_unitary 2 [([0, 1], CompKind.bs (1/2) 0)] (by
    intro c hc
    simp only [List.mem_singleton] at hc
    subst hc
    exact ⟨by norm_num, by norm_num, 0, 1, rfl, by norm_num, by norm_num, by norm_num⟩)).1

/-- C6: on matrices of dimension at most 4, Ryser's inclusion-exclusion
formula agrees with the naive sum over all permutations. -/
theorem C6_ryser_matches_naive (A : List (List ℂ)) (h : A.length ≤ 4) :
    ryserPermanent A = permanentL A := by
  rcases A with _ | ⟨r0, _ | ⟨r1, _ | ⟨r2, _ | ⟨r3, _ | ⟨r4, rest⟩⟩⟩⟩⟩
  · simp [ryserPermanent, permanentL, powersetL, permsL, permProducts, range0_eq]
  · simp only [ryserPermanent, permanentL, List.length_cons, List.length_nil,
      Nat.zero_add, range1_eq, permsL, insertionsOf, powersetL, List.flatMap_cons,
      List.flatMap_nil, List.map_cons, List.map_nil, List.map_append, List.append_nil,
      List.nil_append, List.cons_append, List.sum_cons, List.sum_nil, List.sum_append,
      permProducts, List.zip_cons_cons, List.zip_nil_right, List.zip_nil_left,
      List.prod_cons, List.prod_nil, List.getD_cons_zero]
    ring
  · simp only [ryserPermanent, permanentL, List.length_cons, List.length_nil,
      Nat.zero_add, range2_eq, permsL, insertionsOf, powersetL, List.flatMap_cons,
      List.flatMap_nil, List.map_cons, List.map_nil, List.map_append, List.append_nil,
      List.nil_append, List.cons_append, List.sum_cons, List.sum_nil, List.sum_append,
      permProducts, List.zip_cons_cons, List.zip_nil_right, List.zip_nil_left,
      List.prod_cons, List.prod_nil, List.getD_cons_zero]
    ring
  · simp only [ryserPermanent, permanentL, List.length_cons, List.length_nil,
      Nat.zero_add, range3_eq, permsL, insertionsOf, powersetL, List.flatMap_cons,
      List.flatMap_nil, List.map_cons, List.map_nil, List.map_append, List.append_nil,
      List.nil_append, List.cons_append, List.sum_cons, List.sum_nil, List.sum_append,
      permProducts, List.zip_cons_cons, List.zip_nil_right, List.zip_nil_left,
      List.prod_cons, List.prod_nil, List.getD_cons_zero]
    ring
  · simp only [ryserPermanent, permanentL, List.length_cons, List.length_nil,
      Nat.zero_add, range4_eq, permsL, insertionsOf, powersetL, List.flatMap_cons,
      List.flatMap_nil, List.map_cons, List.map_nil, List.map_append, List.append_nil,
      List.nil_append, List.cons_append, List.sum_cons, List.sum_nil, List.sum_append,
      permProducts, List.zip_cons_cons, List.zip_nil_right, List.zip_nil_left,
      List.prod_cons, List.prod_nil, List.getD_cons_zero]
    ring
  · exfalso
    simp only [List.length_cons] at h
    omega

/-- C6 witness: the two permanents agree at a concrete 2x2 complex matrix. -/
theorem C6_witness :
    ryserPermanent [[(1 : ℂ), 2], [3, 4]] = permanentL [[(1 : ℂ), 2], [3, 4]] :=
  C6_ryser_matches_naive [[(1 : ℂ), 2], [3, 4]] (by decide)

/-- C7: on a 12-mode Fock state, `toQubitState` is `none` exactly when an
auxiliary mode 0, 5, 6, 11 is occupied or some qubit mode pair (1,2),
(7,8), (3,4), (9,10) does not hold exactly one photon; otherwise it is the
qubit state read off the second rail of each pair. -/
theorem C7_toQubitState_characterization
    (a0 a1 a2 a3 a4 a5 a6 a7 a8 a9 a10 a11 : ℕ) :
    toQubitState [a0, a1, a2, a3, a4, a5, a6, a7, a8, a9, a10, a11]
      = if a0 ≠ 0 ∨ a5 ≠ 0 ∨ a6 ≠ 0 ∨ a11 ≠ 0
          ∨ a1 + a2 ≠ 1 ∨ a7 + a8 ≠ 1 ∨ a3 + a4 ≠ 1 ∨ a9 + a10 ≠ 1
        then none else some [a2, a8, a4, a10] := by
  simp only [toQubitState]
  split_ifs <;> tauto

/-- C8: the qubit-to-Fock encoding is injective with `toQubitState` as
partial inverse: every 0/1 qubit state of length 4 round-trips through its
Fock encoding, and every Fock state accepted by `toQubitState` is
recovered by `toFockState`. -/
theorem C8_roundtrip :
    (∀ q : List ℕ, q.length = 4 → (∀ b ∈ q, b ≤ 1) →
        ∃ f, toFockState q = some f ∧ toQubitState f = some q)
    ∧ ∀ f q : List ℕ, toQubitState f = some q → toFockState q = some f := by
  constructor
  · intro q hlen hb
    rcases q with _ | ⟨b0, _ | ⟨b1, _ | ⟨b2, _ | ⟨b3, _ | ⟨b4, rest⟩⟩⟩⟩⟩
    · exact absurd hlen (by decide)
    · simp only [List.length_cons, List.length_nil] at hlen
      omega
    · simp only [List.length_cons, List.length_nil] at hlen
      omega
    · simp only [List.length_cons, List.length_nil] at hlen
      omega
    · have h0 : b0 ≤ 1 := hb b0 (by simp)
      have h1 : b1 ≤ 1 := hb b1 (by simp)
      have h2 : b2 ≤ 1 := hb b2 (by simp)
      have h3 : b3 ≤ 1 := hb b3 (by simp)
      rcases (by omega : b0 = 0 ∨ b0 = 1) with rfl | rfl <;>
        rcases (by omega : b1 = 0 ∨ b1 = 1) with rfl | rfl <;>
        rcases (by omega : b2 = 0 ∨ b2 = 1) with rfl | rfl <;>
        rcases (by omega : b3 = 0 ∨ b3 = 1) with rfl | rfl <;>
        exact ⟨_, rfl, rfl⟩
    · simp only [List.length_cons] at hlen
      omega
  · exact fun f q h => toQubit_toFock f q h

/-- C9: `create` fails with `InvalidDimension` exactly on non-positive mode
counts and otherwise returns the empty network; a phase shifter has arity
1 and a beam splitter arity 2; `addComponent` fails with `InvalidModeIndex`
when some mode index is out of range, with `ModeCountMismatch` when the
mode list length differs from the component arity (index check first), and
otherwise appends the component; the error cases return no network, so the
caller's network value is untouched. -/
theorem C9_construction_errors :
    (∀ n : ℤ, (ModeNetwork.create n = .error .invalidDimension ↔ n ≤ 0)
      ∧ (0 < n → ModeNetwork.create n = .ok ⟨n.toNat, []⟩))
    ∧ (∀ R phi, (CompKind.bs R phi).arity = 2)
    ∧ (∀ phi, (CompKind.ps phi).arity = 1)
    ∧ ∀ (net : ModeNetwork) (modes : List ℕ) (kind : CompKind),
        (¬ (∀ m ∈ modes, m < net.modeCount) →
          net.addComponent modes kind = .error .invalidModeIndex)
        ∧ ((∀ m ∈ modes, m < net.modeCount) → modes.length ≠ kind.arity →
            net.addComponent modes kind = .error .modeCountMismatch)
        ∧ ((∀ m ∈ modes, m < net.modeCount) → modes.length = kind.arity →
            net.addComponent modes kind
              = .ok ⟨net.modeCount, net.components ++ [(modes, kind)]⟩) := by
  refine ⟨fun n => ⟨⟨fun h => ?_, fun hn => ?_⟩, fun hn => ?_⟩,
    fun R phi => rfl, fun phi => rfl, fun net modes kind => ⟨?_, ?_, ?_⟩⟩
  · by_cases hn : n ≤ 0
    · exact hn
    · simp only [ModeNetwork.create, if_neg hn] at h
      cases h
  · simp only [ModeNetwork.create, if_pos hn]
  · have hn2 : ¬ n ≤ 0 := by omega
    simp only [ModeNetwork.create, if_neg hn2]
  · intro h
    simp only [ModeNetwork.addComponent, if_pos h]
  · intro h hlen
    simp only [ModeNetwork.addComponent, if_neg (not_not.mpr h), if_pos hlen]
  · intro h hlen
    simp only [ModeNetwork.addComponent, if_neg (not_not.mpr h), if_neg (not_not.mpr hlen)]

/-- C10: every 0/1 qubit state of length 4 is encoded by `toFockState` as
a 12-mode Fock state of 0/1 occupations with exactly 4 photons and empty
auxiliary modes 0, 5, 6, 11; a length-4 input with an entry outside 0, 1
makes the encoding fail (the path-encoding dictionary lookup misses). -/
theorem C10_toFockState_invariants :
    (∀ q : List ℕ, q.length = 4 → (∀ b ∈ q, b ≤ 1) →
        ∃ f, toFockState q = some f ∧ f.length = 12 ∧ f.sum = 4
          ∧ (∀ x ∈ f, x ≤ 1)
          ∧ f.getD 0 0 = 0 ∧ f.getD 5 0 = 0 ∧ f.getD 6 0 = 0 ∧ f.getD 11 0 = 0)
    ∧ ∀ b0 b1 b2 b3 : ℕ, ¬(b0 ≤ 1 ∧ b1 ≤ 1 ∧ b2 ≤ 1 ∧ b3 ≤ 1) →
        toFockState [b0, b1, b2, b3] = none := by
  constructor
  · intro q hlen hb
    rcases q with _ | ⟨b0, _ | ⟨b1, _ | ⟨b2, _ | ⟨b3, _ | ⟨b4, rest⟩⟩⟩⟩⟩
    · exact absurd hlen (by decide)
    · simp only [List.length_cons, List.length_nil] at hlen
      omega
    · simp only [List.length_cons, List.length_nil] at hlen
      omega
    · simp only [List.length_cons, List.length_nil] at hlen
      omega
    · have h0 : b0 ≤ 1 := hb b0 (by simp)
      have h1 : b1 ≤ 1 := hb b1 (by simp)
      have h2 : b2 ≤ 1 := hb b2 (by simp)
      have h3 : b3 ≤ 1 := hb b3 (by simp)
      rcases (by omega : b0 = 0 ∨ b0 = 1) with rfl | rfl <;>
        rcases (by omega : b1 = 0 ∨ b1 = 1) with rfl | rfl <;>
        rcases (by omega : b2 = 0 ∨ b2 = 1) with rfl | rfl <;>
        rcases (by omega : b3 = 0 ∨ b3 = 1) with rfl | rfl <;>
        exact ⟨_, rfl, by decide⟩
    · simp only [List.length_cons] at hlen
      omega
  · exact fun b0 b1 b2 b3 h => toFock_none_of_big b0 b1 b2 b3 h
